import Mathlib

/-!
NovacPPP: scan-file reader and scan-evaluation orchestrator

A shallow embedding of

* `src/PPPExe/Common/Spectra/ScanFileHandler.cpp` (`CScanFileHandler`),
* `src/PPPExe/Evaluation/ScanEvaluation.cpp` (`CScanEvaluation`),
* the control flow of `CEvaluation::Evaluate` in `src/PPPExe/Evaluation/Evaluation.cpp`.

Conventions.

* C++ `double`/`float` samples are exact rationals (`ℚ`); C++ `int`/`long`/`short`
  values are `Int` (no claim below depends on wrap-around).
* A spectrum's sample array `m_data[MAX_SPECTRUM_LENGTH]` is a total function
  `Nat → ℚ`; `m_length` says how many samples are in use.
* The scan file on disk is a value: a list of records, each carrying its name and
  the outcome of decoding it.
* Member functions that mutate `this` or an output parameter return the new values.
* Collaborators whose code is not part of the embedded sources (statistics on a
  spectrum, the spectrometer-model table, user settings, user files, the
  non-linear minimizer, the goodness-of-fit rule) are fields of `Env`.
-/

namespace NovacPPP

/-! ## Spectra -/

/-- Information block of a spectrum (`CSpectrumInfo`), restricted to the members the
embedded code reads or writes. -/
structure CSpectrumInfo where
  m_scanIndex : Int
  m_numSpec : Int
  m_exposureTime : Int
  m_interlaceStep : Int
  m_startChannel : Int
  m_channel : Int
  m_specModel : Nat
  m_device : String
  m_startTime : Int
  m_stopTime : Int
  m_peakIntensity : ℚ
  m_fitIntensity : ℚ

/-- Modelled from the spec: the default-constructed `CSpectrumInfo` (its constructor is
not among the sources): every counter is zero, the device name is empty. -/
def CSpectrumInfo.empty : CSpectrumInfo :=
  { m_scanIndex := 0, m_numSpec := 0, m_exposureTime := 0, m_interlaceStep := 0,
    m_startChannel := 0, m_channel := 0, m_specModel := 0, m_device := "",
    m_startTime := 0, m_stopTime := 0, m_peakIntensity := 0, m_fitIntensity := 0 }

/-- One spectrum (`CSpectrum`): samples, number of samples in use, information block. -/
structure CSpectrum where
  m_data : Nat → ℚ
  m_length : Nat
  m_info : CSpectrumInfo

namespace CSpectrum

/-- Modelled from the spec: the default-constructed `CSpectrum` (constructor not among
the sources): no samples in use, all samples zero, default information block. -/
def empty : CSpectrum :=
  { m_data := fun _ => 0, m_length := 0, m_info := CSpectrumInfo.empty }

/-- Source function `CSpectrum::ScanIndex()`. -/
def ScanIndex (s : CSpectrum) : Int := s.m_info.m_scanIndex

/-- Source function `CSpectrum::NumSpectra()`. -/
def NumSpectra (s : CSpectrum) : Int := s.m_info.m_numSpec

/-- Source function `CSpectrum::ExposureTime()`. -/
def ExposureTime (s : CSpectrum) : Int := s.m_info.m_exposureTime

/-- Modelled from the spec: `CSpectrum::Clear()` (not among the sources) puts the
spectrum back to the default-constructed state. -/
def Clear (_s : CSpectrum) : CSpectrum := empty

/-- Modelled from the spec: `CSpectrum::Mult(double)` (not among the sources),
"multiply by scalar": every sample in use is multiplied by `c`. -/
def Mult (s : CSpectrum) (c : ℚ) : CSpectrum :=
  { s with m_data := fun i => if i < s.m_length then s.m_data i * c else s.m_data i }

/-- Modelled from the spec: `CSpectrum::Div(double)` (not among the sources),
"divide by scalar": every sample in use is divided by `c`. -/
def Div (s : CSpectrum) (c : ℚ) : CSpectrum :=
  { s with m_data := fun i => if i < s.m_length then s.m_data i / c else s.m_data i }

/-- Modelled from the spec: `CSpectrum::Add(const CSpectrum&)` (not among the sources),
"add a spectrum"; arithmetic between two spectra requires equal length and is
rejected (nothing changes) on mismatch. -/
def Add (s t : CSpectrum) : CSpectrum :=
  if s.m_length = t.m_length then
    { s with m_data := fun i => if i < s.m_length then s.m_data i + t.m_data i else s.m_data i }
  else s

/-- Modelled from the spec: `CSpectrum::Sub(const CSpectrum&)` (not among the sources),
"subtract a spectrum"; rejected (nothing changes) on length mismatch. -/
def Sub (s t : CSpectrum) : CSpectrum :=
  if s.m_length = t.m_length then
    { s with m_data := fun i => if i < s.m_length then s.m_data i - t.m_data i else s.m_data i }
  else s

end CSpectrum

/-! ## The scan file and its reader -/

/-- Error codes of the spectrum reader (`CSpectrumIO::m_lastError`): the closed set
named by the spec (not-found, end-of-data, checksum-mismatch, decompression-error). -/
inductive SpecError where
  | ERROR_SPECTRUM_NOT_FOUND
  | ERROR_EOF
  | ERROR_CHECKSUM_MISMATCH
  | ERROR_DECOMPRESS
  deriving DecidableEq, Repr

/-- Source type `RETURN_CODE`. -/
inductive RETURN_CODE where
  | SUCCESS
  | FAIL
  deriving DecidableEq, Repr

/-- One record of the binary scan container: the name stored in its header and what
decoding it gives (the spectrum, or the reader's error code). -/
structure Record where
  name : String
  content : Except SpecError CSpectrum

/-- Position of the first record called `s`, counted from `i`; `-1` when there is none. -/
def findName (s : String) : List Record → Nat → Int
  | [], _ => -1
  | r :: rs, i => if r.name = s then (i : Int) else findName s rs (i + 1)

/-- The six names `CheckScanFile` asks the reader to look for, in the order of its
`strings[]` array. -/
def scanNames : List String := ["sky", "zenith", "dark", "offset", "dark_cur", "darkcur"]

/-- Modelled from the spec: `CSpectrumIO::ScanSpectrumFile` (not among the sources)
counts the spectra of the container and reports, for each name looked for, the
position of the record carrying that name, or `-1`. -/
def ScanSpectrumFile (file : List Record) (strings : List String) : Int × List Int :=
  ((file.length : Int), strings.map (fun s => findName s file 0))

/-- Modelled from the spec: `CSpectrumIO::ReadSpectrum(fileName, spectrumNumber, spec)`
(not among the sources) decodes the record at the given position; a position outside
the container is reported as not-found, a record that does not decode gives that
record's error code and leaves the output untouched. -/
def ReadSpectrum (file : List Record) (specNo : Int) : Except SpecError CSpectrum :=
  if specNo < 0 then Except.error SpecError.ERROR_SPECTRUM_NOT_FOUND
  else match file.get? specNo.toNat with
    | none => Except.error SpecError.ERROR_SPECTRUM_NOT_FOUND
    | some r => r.content

/-- The buffering loop of `CheckScanFile` (lines 47-57): `ReadNextSpectrum` decodes the
records one after the other, each success overwrites the next buffer slot, the first
failure stops the loop with the reader's error. The second argument is the part of the
buffer not yet overwritten. -/
def readIntoBuffer : List Record → List CSpectrum → Option SpecError × List CSpectrum
  | [], buf => (none, buf)
  | r :: rs, buf =>
    match r.content with
    | Except.ok s => ((readIntoBuffer rs buf.tail).1, s :: (readIntoBuffer rs buf.tail).2)
    | Except.error e => (some e, buf)

/-- Source function `CArray::SetSize(n)`: truncate, or extend with default-constructed spectra. -/
def SetSize (buf : List CSpectrum) (n : Nat) : List CSpectrum :=
  (buf ++ List.replicate n CSpectrum.empty).take n

/-! ## `CScanFileHandler` -/

/-- State of a `CScanFileHandler`. `m_file` is the content of the file `m_fileName`
names. `m_lastError` is `none` until the handler records an error. -/
structure CScanFileHandler where
  m_file : List Record
  m_specReadSoFarNum : Int
  m_initialized : Bool
  m_channel : Int
  m_device : String
  m_specNum : Int
  m_spectrumBufferNum : Int
  m_spectrumBuffer : List CSpectrum
  m_fHasDark : Bool
  m_fHasSky : Bool
  m_fHasOffset : Bool
  m_fHasDarkCurrent : Bool
  m_sky : CSpectrum
  m_dark : CSpectrum
  m_offset : CSpectrum
  m_darkCurrent : CSpectrum
  m_startTime : Int
  m_stopTime : Int
  m_lastError : Option SpecError

/-! ## Fit window, evaluation result, evaluator -/

/-- Source type `SHIFT_TYPE`: how a fit parameter of a reference is constrained. -/
inductive SHIFT_TYPE where
  | SHIFT_FREE
  | SHIFT_FIX
  | SHIFT_LINK
  | SHIFT_LIMIT
  deriving DecidableEq, Repr

/-- Source type `FIT_TYPE`: the preprocessing variant of a fit window. -/
inductive FIT_TYPE where
  | FIT_HP_DIV
  | FIT_HP_SUB
  | FIT_POLY
  deriving DecidableEq, Repr

/-- One reference of a fit window (`CReferenceFile`). -/
structure CReferenceFile where
  m_specieName : String
  m_path : String
  m_columnOption : SHIFT_TYPE
  m_columnValue : ℚ
  m_shiftOption : SHIFT_TYPE
  m_shiftValue : ℚ
  m_shiftMaxValue : ℚ
  m_squeezeOption : SHIFT_TYPE
  m_squeezeValue : ℚ
  m_squeezeMaxValue : ℚ
  m_data : List ℚ

/-- The fit window (`CFitWindow`). -/
structure CFitWindow where
  fitLow : Int
  fitHigh : Int
  specLength : Int
  startChannel : Int
  interlaceStep : Int
  polyOrder : Int
  fitType : FIT_TYPE
  UV : Bool
  shiftSky : Bool
  findOptimalShift : Bool
  nRef : Int
  ref : List CReferenceFile
  fraunhoferRef : CReferenceFile

/-- Fit result of one reference (`CReferenceFitResult`). -/
structure CReferenceFitResult where
  m_specieName : String
  m_column : ℚ
  m_columnError : ℚ
  m_shift : ℚ
  m_shiftError : ℚ
  m_squeeze : ℚ
  m_squeezeError : ℚ

/-- Result of evaluating one spectrum (`CEvaluationResult`). -/
structure CEvaluationResult where
  m_ref : List CReferenceFitResult
  m_polynomial : Nat → ℚ
  m_stepNum : Int
  m_chiSquare : ℚ
  m_delta : ℚ
  m_speciesNum : Int

/-- Modelled from the spec: the default-constructed `CEvaluationResult` (constructor
not among the sources): no references, everything zero. -/
def CEvaluationResult.empty : CEvaluationResult :=
  { m_ref := [], m_polynomial := fun _ => 0, m_stepNum := 0, m_chiSquare := 0,
    m_delta := 0, m_speciesNum := 0 }

/-- State of a `CEvaluation`: the fit window, the sky spectrum as given, the prepared
sky array `m_sky`, and the result of the last successful fit. -/
structure CEvaluation where
  m_window : CFitWindow
  m_skySpectrum : CSpectrum
  m_sky : Nat → ℚ
  m_result : CEvaluationResult

/-- What the fit object hands back when the minimizer ran to the end: the numbers
`Evaluate` copies into `m_result` (lines 174-215). -/
structure FitValues where
  stepNum : Int
  chiSquare : ℚ
  coefficient : Nat → ℚ
  delta : ℚ
  column : Nat → ℚ
  columnError : Nat → ℚ
  shift : Nat → ℚ
  shiftError : Nat → ℚ
  squeeze : Nat → ℚ
  squeezeError : Nat → ℚ

/-- The three ways the `try` block of `Evaluate` (lines 157-244) can end: `Minimize`
reports failure, a `CFitException` is thrown while preparing or running the fit, or the
fit finishes. -/
inductive FitOutcome where
  | minimizeFailed
  | fitException
  | fitted (v : FitValues)

/-- The values `EvaluateShift` reads from a finished fit of the solar spectrum
(lines 435-443). -/
structure ShiftValues where
  delta : ℚ
  shift : ℚ
  shiftError : ℚ
  squeeze : ℚ
  squeezeError : ℚ

/-- The ways the fit of `EvaluateShift` (lines 337-520) can end: the spline object of
the solar spectrum cannot be initialised, `Minimize` reports failure, a
`CFitException` is thrown while preparing or running the fit, or the fit finishes. -/
inductive ShiftOutcome where
  | splineError
  | minimizeFailed
  | fitException
  | fitted (v : ShiftValues)

/-- User setting `g_userSettings.m_skyOption`. -/
inductive SKY_OPTION where
  | SKY_SCAN
  | SKY_AVERAGE_OF_GOOD
  | SKY_INDEX
  | SKY_USER
  deriving DecidableEq, Repr

/-- Collaborators that are not part of the embedded sources. -/
structure Env where
  /-- Source function `CSpectrum::MaxValue(from, to)`. -/
  MaxValue : CSpectrum → Int → Int → ℚ
  /-- Source function `CSpectrum::MinValue(from, to)`. -/
  MinValue : CSpectrum → Int → Int → ℚ
  /-- Source function `CSpectrum::InterpolateSpectrum()`. -/
  InterpolateSpectrum : CSpectrum → CSpectrum
  /-- Source function `CSpectrum::IsDark()`. -/
  IsDark : CSpectrum → Bool
  /-- Source function `CSpectrometerModel::GuessSpectrometerModelFromSerial`. -/
  GuessSpectrometerModelFromSerial : String → Nat
  /-- Source function `CSpectrometerModel::GetMaxIntensity`. -/
  GetMaxIntensity : Nat → ℚ
  /-- User setting `g_userSettings.m_minimumSaturationInFitRegion`. -/
  m_minimumSaturationInFitRegion : ℚ
  /-- User setting `g_userSettings.m_skyOption`. -/
  m_skyOption : SKY_OPTION
  /-- User setting `g_userSettings.m_skyIndex`. -/
  m_skyIndex : Int
  /-- User setting `g_userSettings.m_skySpectrumFromUser`. -/
  m_skySpectrumFromUser : String
  /-- Source function `Equals(a, b, n)` on strings. -/
  Equals : String → String → Bool
  /-- Source function `CSTDFile::ReadSpectrum` on a named file; `none` is `FAIL`. -/
  ReadSTD : String → Option CSpectrum
  /-- Source function `CTXTFile::ReadSpectrum` on a named file; `none` is `FAIL`. -/
  ReadTXT : String → Option CSpectrum
  /-- Source function `CSpectrumIO::ReadSpectrum` on a named `.pak` file other than the scan. -/
  ReadPak : String → Int → Option CSpectrum
  /-- Source function `HighPassBinomial(array, length, iterations)`. -/
  HighPassBinomial : (Nat → ℚ) → Int → Int → (Nat → ℚ)
  /-- Source function `Log(array, length)`. -/
  Log : (Nat → ℚ) → Int → (Nat → ℚ)
  /-- Source function `Div(array, array, length, 0.0)`. -/
  DivArrays : (Nat → ℚ) → (Nat → ℚ) → Int → (Nat → ℚ)
  /-- The fit object: `PrepareMinimize`, `Minimize`, `FinishMinimize` on the model built
  from the evaluator, the prepared measurement, the fit range and the step limit. -/
  Minimize : CEvaluation → (Nat → ℚ) → Int → Int → Int → FitOutcome
  /-- The fit object of `EvaluateShift`: the solar spectrum with free shift, the
  references of the evaluator linked to it and a polynomial of order 2, fitted to the
  prepared measurement over the fit range. -/
  MinimizeShift : CEvaluation → (Nat → ℚ) → Int → Int → ShiftOutcome
  /-- Default value of the `numSteps` argument of `CEvaluation::Evaluate`. -/
  numSteps : Int
  /-- The rule `CScanResult::CheckGoodnessOfFit` classifies a result with. -/
  GoodFit : CEvaluationResult → CSpectrumInfo → Bool

namespace CScanFileHandler

/-- The constructor `CScanFileHandler::CScanFileHandler` (lines 6-20). -/
def new : CScanFileHandler :=
  { m_file := [], m_specReadSoFarNum := 0, m_initialized := false, m_channel := 0,
    m_device := "", m_specNum := 0, m_spectrumBufferNum := 0, m_spectrumBuffer := [],
    m_fHasDark := true, m_fHasSky := true, m_fHasOffset := false,
    m_fHasDarkCurrent := false, m_sky := CSpectrum.empty, m_dark := CSpectrum.empty,
    m_offset := CSpectrum.empty, m_darkCurrent := CSpectrum.empty,
    m_startTime := 0, m_stopTime := 0, m_lastError := none }

/-- Source function `CArray::GetAt` on the spectrum buffer. An index outside the buffer is undefined
behaviour in the source; here it reads a default spectrum. -/
def GetAt (buf : List CSpectrum) (i : Int) : CSpectrum :=
  if i < 0 then CSpectrum.empty else buf.getD i.toNat CSpectrum.empty

/-- Lines 42-65 of `CheckScanFile`: fill the buffer when the file has fewer than 200
spectra. Gives the handler and whether the function goes on (`true`) or has returned
`FAIL` (`false`). -/
def CheckScanFile_buffer (h : CScanFileHandler) : CScanFileHandler × Bool :=
  if h.m_specNum < 200 then
    let sized := SetSize h.m_spectrumBuffer h.m_specNum.toNat
    match readIntoBuffer h.m_file sized with
    | (some e, buf) => ({ h with m_spectrumBuffer := buf, m_lastError := some e }, false)
    | (none, buf) =>
      ({ h with m_spectrumBuffer := buf, m_spectrumBufferNum := h.m_specNum }, true)
  else
    ({ h with m_spectrumBufferNum := 0, m_spectrumBuffer := [] }, true)

/-- The position `CheckScanFile` reads the sky spectrum from (lines 68-81): the record
called "sky", else the record called "zenith", else position 0. -/
def skyPosition (indices : List Int) : Int :=
  if indices.getD 0 (-1) ≠ -1 then indices.getD 0 (-1)
  else if indices.getD 1 (-1) ≠ -1 then indices.getD 1 (-1)
  else 0

/-- The position `CheckScanFile` reads the dark spectrum from (lines 90-102), `none`
when it reads no dark spectrum at all. -/
def darkPosition (indices : List Int) : Option Int :=
  if indices.getD 2 (-1) ≠ -1 then some (indices.getD 2 (-1))
  else if indices.getD 3 (-1) = -1 ∧ indices.getD 4 (-1) = -1 then some 1
  else none

/-- Lines 111-140 of `CheckScanFile`: the offset spectrum and the dark-current spectrum
under its two names. `none` is an early `return FAIL` (with the handler as it is then). -/
def CheckScanFile_offsetDC (h : CScanFileHandler) (indices : List Int) :
    CScanFileHandler × Bool :=
  let r3 : CScanFileHandler × Bool :=
    if indices.getD 3 (-1) ≠ -1 then
      match ReadSpectrum h.m_file (indices.getD 3 (-1)) with
      | Except.error e => ({ h with m_lastError := some e }, false)
      | Except.ok s => ({ h with m_offset := s, m_fHasOffset := true }, true)
    else (h, true)
  if r3.2 = false then r3 else
  let r4 : CScanFileHandler × Bool :=
    if indices.getD 4 (-1) ≠ -1 then
      match ReadSpectrum r3.1.m_file (indices.getD 4 (-1)) with
      | Except.error e => ({ r3.1 with m_lastError := some e }, false)
      | Except.ok s => ({ r3.1 with m_darkCurrent := s, m_fHasDarkCurrent := true }, true)
    else (r3.1, true)
  if r4.2 = false then r4 else
  if indices.getD 5 (-1) ≠ -1 then
    match ReadSpectrum r4.1.m_file (indices.getD 5 (-1)) with
    | Except.error e => ({ r4.1 with m_lastError := some e }, false)
    | Except.ok s => ({ r4.1 with m_darkCurrent := s, m_fHasDarkCurrent := true }, true)
  else (r4.1, true)

/-- Lines 141-162 of `CheckScanFile`: start/stop time, device and channel from the
first record, the cursor, and the initialised flag. (`m_device.Format(serial)` is taken
as a copy of the serial number; no function embedded here reads `m_device`.) -/
def CheckScanFile_finish (h : CScanFileHandler) : CScanFileHandler :=
  let h1 : CScanFileHandler :=
    match ReadSpectrum h.m_file 0 with
    | Except.ok t =>
      { h with m_startTime := t.m_info.m_startTime, m_stopTime := t.m_info.m_stopTime,
               m_device := t.m_info.m_device, m_channel := t.m_info.m_channel }
    | Except.error _ => h
  { h1 with
    m_specReadSoFarNum := if h1.m_sky.ScanIndex = 0 ∧ h1.m_dark.ScanIndex = 1 then 2 else 0,
    m_initialized := true }

/-- Source function `CScanFileHandler::CheckScanFile` (lines 29-163). The file name is represented by
the content `file` of the file it names. -/
def CheckScanFile (h : CScanFileHandler) (file : List Record) :
    RETURN_CODE × CScanFileHandler :=
  let scanned := ScanSpectrumFile file scanNames
  let indices := scanned.2
  let h0 : CScanFileHandler := { h with m_file := file, m_specNum := scanned.1 }
  -- read the spectra into the buffer, if the file is not too long
  let b := CheckScanFile_buffer h0
  if b.2 = false then (RETURN_CODE.FAIL, b.1) else
  let h1 := b.1
  -- read the sky spectrum
  match ReadSpectrum h1.m_file (skyPosition indices) with
  | Except.error e =>
    (RETURN_CODE.FAIL, { h1 with m_fHasSky := false, m_lastError := some e })
  | Except.ok sky =>
    let h2 : CScanFileHandler := { h1 with m_sky := sky }
    -- read the dark spectrum
    let d : CScanFileHandler × Bool :=
      match darkPosition indices with
      | none => (h2, true)
      | some p =>
        match ReadSpectrum h2.m_file p with
        | Except.error e => ({ h2 with m_fHasDark := false, m_lastError := some e }, false)
        | Except.ok dark => ({ h2 with m_dark := dark }, true)
    if d.2 = false then (RETURN_CODE.FAIL, d.1) else
    -- read the offset and the dark-current spectrum (if any)
    let o := CheckScanFile_offsetDC d.1 indices
    if o.2 = false then (RETURN_CODE.FAIL, o.1) else
    (RETURN_CODE.SUCCESS, CheckScanFile_finish o.1)

/-- Lines 191-195 and 225-229: widen the start/stop time of the scan. -/
def updateTimes (h : CScanFileHandler) (spec : CSpectrum) : CScanFileHandler :=
  let h1 : CScanFileHandler :=
    if h.m_stopTime < spec.m_info.m_stopTime then
      { h with m_stopTime := spec.m_info.m_stopTime } else h
  if spec.m_info.m_startTime < h1.m_startTime then
    { h1 with m_startTime := spec.m_info.m_startTime } else h1

/-- Source function `CScanFileHandler::GetNextSpectrum` (lines 166-201): the return value, the handler
afterwards and the output parameter `spec` afterwards. -/
def GetNextSpectrum (env : Env) (h : CScanFileHandler) (spec : CSpectrum) :
    Int × CScanFileHandler × CSpectrum :=
  let done (s : CSpectrum) : Int × CScanFileHandler × CSpectrum :=
    let h1 : CScanFileHandler := { h with m_specReadSoFarNum := h.m_specReadSoFarNum + 1 }
    (1, updateTimes h1 s,
      { s with m_info := { s.m_info with
          m_specModel := env.GuessSpectrometerModelFromSerial s.m_info.m_device } })
  if h.m_spectrumBufferNum = h.m_specNum then
    if h.m_specReadSoFarNum ≥ h.m_spectrumBufferNum then
      (0, { h with m_lastError := some SpecError.ERROR_SPECTRUM_NOT_FOUND,
                   m_specReadSoFarNum := h.m_specReadSoFarNum + 1 }, spec)
    else done (GetAt h.m_spectrumBuffer h.m_specReadSoFarNum)
  else
    match ReadSpectrum h.m_file h.m_specReadSoFarNum with
    | Except.error e =>
      (0, { h with m_lastError := some e,
                   m_specReadSoFarNum := h.m_specReadSoFarNum + 1 }, spec)
    | Except.ok s => done s

/-- Source function `CScanFileHandler::GetSpectrum` (lines 204-232): the return value, the handler
afterwards and the output parameter `spec` afterwards. -/
def GetSpectrum (h : CScanFileHandler) (spec : CSpectrum) (specNo : Int) :
    Int × CScanFileHandler × CSpectrum :=
  if h.m_spectrumBufferNum = h.m_specNum then
    if h.m_specReadSoFarNum ≥ h.m_spectrumBufferNum then
      (0, { h with m_lastError := some SpecError.ERROR_SPECTRUM_NOT_FOUND,
                   m_specReadSoFarNum := h.m_specReadSoFarNum + 1 }, spec)
    else
      let s := GetAt h.m_spectrumBuffer h.m_specReadSoFarNum
      (1, updateTimes h s, s)
  else
    match ReadSpectrum h.m_file specNo with
    | Except.error e => (0, { h with m_lastError := some e }, spec)
    | Except.ok s => (1, updateTimes h s, s)

/-- Source function `CScanFileHandler::GetDark` (lines 234-241): return value and output parameter. -/
def GetDark (h : CScanFileHandler) : Int × CSpectrum :=
  (if h.m_fHasDark then 0 else 1, h.m_dark)

/-- Source function `CScanFileHandler::GetSky` (lines 244-251). -/
def GetSky (h : CScanFileHandler) : Int × CSpectrum :=
  (if h.m_fHasSky then 0 else 1, h.m_sky)

/-- Source function `CScanFileHandler::GetOffset` (lines 254-261). -/
def GetOffset (h : CScanFileHandler) : Int × CSpectrum :=
  (if h.m_fHasOffset then 0 else 1, h.m_offset)

/-- Source function `CScanFileHandler::GetDarkCurrent` (lines 264-271). -/
def GetDarkCurrent (h : CScanFileHandler) : Int × CSpectrum :=
  (if h.m_fHasDarkCurrent then 0 else 1, h.m_darkCurrent)

/-- Source function `CScanFileHandler::ResetCounter` (lines 285-299). -/
def ResetCounter (h : CScanFileHandler) : CScanFileHandler :=
  let c0 : Int := 0
  let c1 : Int := if h.m_sky.ScanIndex = 0 then 1 else c0
  let c2 : Int := if h.m_dark.ScanIndex = c1 then c1 + 1 else c1
  let c3 : Int :=
    if h.m_offset.ScanIndex = c2 ∨ h.m_darkCurrent.ScanIndex = c2 then c2 + 1 else c2
  let c4 : Int :=
    if h.m_offset.ScanIndex = c3 ∨ h.m_darkCurrent.ScanIndex = c3 then c3 + 1 else c3
  { h with m_specReadSoFarNum := c4 }

/-- Source function `CScanFileHandler::GetInterlaceSteps` (lines 307-312). -/
def GetInterlaceSteps (h : CScanFileHandler) : Int :=
  if ¬ h.m_initialized then -1 else h.m_sky.m_info.m_interlaceStep

/-- Source function `CScanFileHandler::GetSpectrumLength` (lines 317-322). -/
def GetSpectrumLength (h : CScanFileHandler) : Int :=
  if ¬ h.m_initialized then -1 else (h.m_sky.m_length : Int)

/-- Source function `CScanFileHandler::GetStartChannel` (lines 329-334). -/
def GetStartChannel (h : CScanFileHandler) : Int :=
  if ¬ h.m_initialized then -1 else h.m_sky.m_info.m_startChannel

end CScanFileHandler

/-! ## `CEvaluation` -/

namespace CEvaluation

/-- Modelled from the spec: the array helper `Sub(array, length, value)` (not among the
sources) subtracts `value` from the first `length` samples. -/
def SubScalar (spectrum : Nat → ℚ) (sumChn : Int) (v : ℚ) : Nat → ℚ :=
  fun i => if (i : Int) < sumChn then spectrum i - v else spectrum i

/-- Source function `CEvaluation::RemoveOffset` (lines 543-557). -/
def RemoveOffset (spectrum : Nat → ℚ) (sumChn : Int) (UV : Bool) : Nat → ℚ :=
  let offsetFrom : Nat := if UV then 50 else 2
  let offsetTo : Nat := if UV then 200 else 20
  let avg : ℚ :=
    ((List.range' offsetFrom (offsetTo - offsetFrom)).foldl (fun a i => a + spectrum i) 0)
      / (((offsetTo : Int) - (offsetFrom : Int) : Int) : ℚ)
  SubScalar spectrum sumChn avg

/-- Source function `CEvaluation::PrepareSpectra` with its three variants (lines 559-612): the sky
array and the measured array afterwards. -/
def PrepareSpectra (env : Env) (sky meas : Nat → ℚ) (window : CFitWindow) :
    (Nat → ℚ) × (Nat → ℚ) :=
  match window.fitType with
  | FIT_TYPE.FIT_HP_DIV =>
    let meas1 := RemoveOffset meas window.specLength window.UV
    let sky1 := RemoveOffset sky window.specLength window.UV
    let meas2 := env.DivArrays meas1 sky1 window.specLength
    let meas3 := env.HighPassBinomial meas2 window.specLength 500
    (sky1, env.Log meas3 window.specLength)
  | FIT_TYPE.FIT_HP_SUB =>
    let meas1 := RemoveOffset meas window.specLength window.UV
    let meas2 := env.HighPassBinomial meas1 window.specLength 500
    (sky, env.Log meas2 window.specLength)
  | FIT_TYPE.FIT_POLY =>
    let meas1 := RemoveOffset meas window.specLength window.UV
    let meas2 := env.Log meas1 window.specLength
    (sky, fun i => if (i : Int) < window.specLength then meas2 i * (-1) else meas2 i)

/-- The constructor `CEvaluation::CEvaluation(const CFitWindow&)` (lines 38-49). -/
def new (window : CFitWindow) : CEvaluation :=
  { m_window := window, m_skySpectrum := CSpectrum.empty, m_sky := fun _ => 0,
    m_result := CEvaluationResult.empty }

/-- Source function `CEvaluation::SetSkySpectrum` (lines 725-760): return value and evaluator afterwards. -/
def SetSkySpectrum (env : Env) (e : CEvaluation) (spec : CSpectrum) : Int × CEvaluation :=
  if e.m_window.specLength ≠ (spec.m_length : Int) then (1, e) else
  let copied : Nat → ℚ := fun i => if i < spec.m_length then spec.m_data i else e.m_sky i
  let s1 := RemoveOffset copied spec.m_length e.m_window.UV
  let s2 := if e.m_window.fitType = FIT_TYPE.FIT_HP_SUB
    then env.HighPassBinomial s1 spec.m_length 500 else s1
  let s3 := if e.m_window.fitType ≠ FIT_TYPE.FIT_HP_DIV then env.Log s2 spec.m_length else s2
  (0, { e with m_skySpectrum := spec, m_sky := s3 })

/-- Lines 174-215 of `Evaluate`: copy the values of a finished fit into `m_result`. -/
def storeFit (window : CFitWindow) (old : CEvaluationResult) (v : FitValues) :
    CEvaluationResult :=
  { m_stepNum := v.stepNum,
    m_chiSquare := v.chiSquare,
    m_speciesNum := window.nRef,
    m_polynomial := fun k => if (k : Int) ≤ window.polyOrder then v.coefficient k
      else old.m_polynomial k,
    m_delta := v.delta,
    m_ref := (List.range window.nRef.toNat).map (fun i =>
      { m_specieName := ((window.ref.get? i).map (fun r => r.m_specieName)).getD "",
        m_column := v.column i, m_columnError := v.columnError i,
        m_shift := v.shift i, m_shiftError := v.shiftError i,
        m_squeeze := v.squeeze i, m_squeezeError := v.squeezeError i }) }

/-- Source function `CEvaluation::Evaluate` (lines 66-245): return value and evaluator afterwards. -/
def Evaluate (env : Env) (e : CEvaluation) (measured : CSpectrum) (numSteps : Int) :
    Int × CEvaluation :=
  -- check so that the length of the spectra agree with each other
  if e.m_window.specLength ≠ (measured.m_length : Int) then (1, e) else
  -- get the correct limits for the fit
  let limits : Option (Int × Int) :=
    if measured.m_info.m_startChannel ≠ 0 ∨ (measured.m_length : Int) < e.m_window.specLength
    then
      let fitLow := e.m_window.fitLow - measured.m_info.m_startChannel
      let fitHigh := e.m_window.fitHigh - measured.m_info.m_startChannel
      if fitLow < 0 ∨ fitHigh > (measured.m_length : Int) then none else some (fitLow, fitHigh)
    else some (e.m_window.fitLow, e.m_window.fitHigh)
  match limits with
  | none => (1, e)
  | some (fitLow, fitHigh) =>
    let measArray : Nat → ℚ := fun i => if i < measured.m_length then measured.m_data i else 0
    let prepared := PrepareSpectra env e.m_sky measArray e.m_window
    let e1 : CEvaluation := { e with m_sky := prepared.1 }
    match env.Minimize e1 prepared.2 fitLow fitHigh numSteps with
    | FitOutcome.minimizeFailed => (1, e1)
    | FitOutcome.fitException => (1, e1)
    | FitOutcome.fitted v => (0, { e1 with m_result := storeFit e1.m_window e1.m_result v })

/-- Source function `CEvaluation::GetEvaluationResult` (lines 525-527). -/
def GetEvaluationResult (e : CEvaluation) : CEvaluationResult := e.m_result

end CEvaluation

/-! ## `CScanResult` -/

/-- The per-scan accumulator (`CScanResult`, not among the sources): the ordered
evaluation results with the information block of their spectra and their
goodness-of-fit classification, the corrupted-spectrum markers, and the information
blocks of sky and dark. -/
structure CScanResult where
  m_spec : List CEvaluationResult
  m_specInfo : List CSpectrumInfo
  m_ok : List Bool
  m_corruptedSpectra : List Int
  m_skySpecInfo : CSpectrumInfo
  m_darkSpecInfo : CSpectrumInfo

namespace CScanResult

/-- Modelled from the spec: `new CScanResult()`: nothing accumulated. -/
def new : CScanResult :=
  { m_spec := [], m_specInfo := [], m_ok := [], m_corruptedSpectra := [],
    m_skySpecInfo := CSpectrumInfo.empty, m_darkSpecInfo := CSpectrumInfo.empty }

/-- Modelled from the spec: `CScanResult::GetEvaluatedNum`, the number of results
accumulated. -/
def GetEvaluatedNum (r : CScanResult) : Int := (r.m_spec.length : Int)

/-- Modelled from the spec: `CScanResult::AppendResult` appends the evaluation result
and the originating spectrum's information block. -/
def AppendResult (r : CScanResult) (res : CEvaluationResult) (info : CSpectrumInfo) :
    CScanResult :=
  { r with m_spec := r.m_spec ++ [res], m_specInfo := r.m_specInfo ++ [info],
           m_ok := r.m_ok ++ [true] }

/-- Modelled from the spec: `CScanResult::CheckGoodnessOfFit` classifies the result
appended last. -/
def CheckGoodnessOfFit (env : Env) (r : CScanResult) (info : CSpectrumInfo) : CScanResult :=
  match r.m_spec.getLast? with
  | none => r
  | some res => { r with m_ok := r.m_ok.dropLast ++ [env.GoodFit res info] }

/-- Modelled from the spec: `CScanResult::IsOk(index)`. -/
def IsOk (r : CScanResult) (i : Int) : Bool :=
  if i < 0 then false else r.m_ok.getD i.toNat false

/-- Modelled from the spec: `CScanResult::GetColumn(spectrum, specie)`. -/
def GetColumn (r : CScanResult) (i : Int) (specie : Nat) : ℚ :=
  if i < 0 then 0 else
  match r.m_spec.get? i.toNat with
  | none => 0
  | some res => ((res.m_ref.get? specie).map (fun x => x.m_column)).getD 0

/-- Modelled from the spec: `CScanResult::GetColumnError(spectrum, specie)`. -/
def GetColumnError (r : CScanResult) (i : Int) (specie : Nat) : ℚ :=
  if i < 0 then 0 else
  match r.m_spec.get? i.toNat with
  | none => 0
  | some res => ((res.m_ref.get? specie).map (fun x => x.m_columnError)).getD 0

/-- Modelled from the spec: `CScanResult::MarkAsCorrupted(index)` adds the index to the
corrupted-spectrum markers. -/
def MarkAsCorrupted (r : CScanResult) (specIndex : Int) : CScanResult :=
  { r with m_corruptedSpectra := r.m_corruptedSpectra ++ [specIndex] }

end CScanResult

/-! ## `CScanEvaluation` -/

/-- Source type `DARK_SPEC_OPTION` of the dark settings. -/
inductive DARK_SPEC_OPTION where
  | MEASURE
  | MODEL_SOMETIMES
  | MODEL_ALWAYS
  | DARK_USER_SUPPLIED
  deriving DecidableEq, Repr

/-- Source type `DARK_MODEL_OPTION` of the dark settings: where offset and dark-current come from. -/
inductive DARK_MODEL_OPTION where
  | MEASURED
  | USER_SUPPLIED
  deriving DecidableEq, Repr

/-- Source type `Configuration::CDarkSettings`. -/
structure CDarkSettings where
  m_darkSpecOption : DARK_SPEC_OPTION
  m_offsetOption : DARK_MODEL_OPTION
  m_offsetSpec : String
  m_darkCurrentOption : DARK_MODEL_OPTION
  m_darkCurrentSpec : String

/-- State of a `CScanEvaluation`. -/
structure CScanEvaluation where
  m_result : Option CScanResult
  m_averagedSpectra : Bool
  m_fitLow : Int
  m_fitHigh : Int
  m_indexOfMostAbsorbingSpectrum : Int

/-- What `EvaluateOpenedScan` leaves behind: its return value, the objects it worked
on, and whether it ran `delete scan; delete eval;` (lines 206-207). -/
structure OpenedScanOutcome where
  ret : Int
  self : CScanEvaluation
  scan : CScanFileHandler
  eval : CEvaluation
  deleted : Bool

/-- The variables of the `while(1)` loop of `EvaluateOpenedScan` (lines 160-268). -/
structure LoopState where
  scan : CScanFileHandler
  eval : CEvaluation
  result : CScanResult
  current : CSpectrum
  dark : CSpectrum
  index : Int
  highestColumn : ℚ
  mostAbsorbing : Int

/-- How one pass through the body of the `while(1)` loop ends. -/
inductive LoopStep where
  | next (s : LoopState)
  | done (s : LoopState)
  | abort (s : LoopState)

namespace CScanEvaluation

/-- The constructor `CScanEvaluation::CScanEvaluation` (lines 19-25); the fit limits
are set by `EvaluateScan`. -/
def new : CScanEvaluation :=
  { m_result := none, m_averagedSpectra := false, m_fitLow := 0, m_fitHigh := 0,
    m_indexOfMostAbsorbingSpectrum := 0 }

/-- Reading a user-supplied spectrum: the structured (STD) form first, the text form
when that fails (lines 348-351, 361-364, 405-408). -/
def readUserSpectrum (env : Env) (path : String) : Option CSpectrum :=
  match env.ReadSTD path with
  | some s => some s
  | none => env.ReadTXT path

/-- Steps 3c-1 to 3d of `GetDark` (lines 294-312 and 370-390): scale the offset, remove
the offset from the dark-current when asked to, scale the dark-current, and add both
into the cleared `dark`. `copyInfo` says whether interlace step and channel of the
offset are copied to `dark` (lines 387-388, only in the `MODEL_ALWAYS` branch). -/
def modelDark (spec offset offset_dc darkCurrent : CSpectrum) (offsetCorrectDC : Bool)
    (copyInfo : Bool) (dark : CSpectrum) : CSpectrum :=
  -- 3c-1 scale the offset spectrum to the measured
  let offset1 := offset.Mult ((spec.NumSpectra : ℚ) / (offset.NumSpectra : ℚ))
  let offset2 : CSpectrum :=
    { offset1 with m_info := { offset1.m_info with m_numSpec := spec.NumSpectra } }
  -- 3c-2 remove offset from the dark-current spectrum
  let darkCurrent1 : CSpectrum :=
    if offsetCorrectDC then
      darkCurrent.Sub
        (offset_dc.Mult ((darkCurrent.NumSpectra : ℚ) / (offset_dc.NumSpectra : ℚ)))
    else darkCurrent
  -- 3c-3 scale the dark-current spectrum to the measured
  let darkCurrent2 := darkCurrent1.Mult
    (((spec.NumSpectra * spec.ExposureTime : Int) : ℚ)
      / ((darkCurrent1.NumSpectra * darkCurrent1.ExposureTime : Int) : ℚ))
  let darkCurrent3 : CSpectrum :=
    { darkCurrent2 with m_info := { darkCurrent2.m_info with m_numSpec := spec.NumSpectra } }
  -- 3d make the dark-spectrum
  let d0 := dark.Clear
  let d1 : CSpectrum := { d0 with m_length := offset2.m_length }
  let d2 : CSpectrum :=
    if copyInfo then
      { d1 with m_info := { d1.m_info with
          m_interlaceStep := offset2.m_info.m_interlaceStep,
          m_channel := offset2.m_info.m_channel } }
    else d1
  (d2.Add offset2).Add darkCurrent3

/-- Source function `CScanEvaluation::GetDark` (lines 274-420): return code and the output parameter
`dark` afterwards. A null `darkSettings` pointer is `none`. -/
def GetDark (env : Env) (scan : CScanFileHandler) (spec : CSpectrum) (dark : CSpectrum)
    (darkSettings : Option CDarkSettings) : RETURN_CODE × CSpectrum :=
  let measured : Bool :=
    match darkSettings with
    | none => true
    | some ds => ds.m_darkSpecOption = DARK_SPEC_OPTION.MEASURE
        ∨ ds.m_darkSpecOption = DARK_SPEC_OPTION.MODEL_SOMETIMES
  if measured then
    -- 1. the dark spectrum is taken directly from the measurement
    let g := scan.GetDark
    let dark1 := g.2
    if g.1 ≠ 0 then (RETURN_CODE.FAIL, dark1) else
    if dark1.m_length = 0 then
      let offset := scan.GetOffset.2
      let darkCurrent := scan.GetDarkCurrent.2
      if offset.m_length = darkCurrent.m_length ∧ offset.m_length > 0 then
        (RETURN_CODE.SUCCESS,
          modelDark spec offset CSpectrum.empty darkCurrent true false dark1)
      else (RETURN_CODE.SUCCESS, dark1)
    else
      let dark2 := if dark1.m_info.m_interlaceStep > 1
        then env.InterpolateSpectrum dark1 else dark1
      let dark3 := if dark2.NumSpectra ≠ spec.NumSpectra
        then dark2.Mult ((spec.NumSpectra : ℚ) / (dark2.NumSpectra : ℚ)) else dark2
      (RETURN_CODE.SUCCESS, dark3)
  else
  match darkSettings with
  | none => (RETURN_CODE.FAIL, dark)
  | some ds =>
    if ds.m_darkSpecOption = DARK_SPEC_OPTION.MODEL_ALWAYS then
      -- 3a. get the offset spectrum
      let offsetRead : Option CSpectrum :=
        if ds.m_offsetOption = DARK_MODEL_OPTION.USER_SUPPLIED then
          if ds.m_offsetSpec.length < 3 then none else readUserSpectrum env ds.m_offsetSpec
        else some scan.GetOffset.2
      match offsetRead with
      | none => (RETURN_CODE.FAIL, dark)
      | some offset =>
        let offset_dc := offset
        -- 3b. get the dark-current spectrum
        let dcRead : Option (CSpectrum × Bool) :=
          if ds.m_darkCurrentOption = DARK_MODEL_OPTION.USER_SUPPLIED then
            if ds.m_darkCurrentSpec.length < 3 then none
            else (readUserSpectrum env ds.m_darkCurrentSpec).map (fun s => (s, false))
          else some (scan.GetDarkCurrent.2, true)
        match dcRead with
        | none => (RETURN_CODE.FAIL, dark)
        | some (darkCurrent, offsetCorrectDC) =>
          let d := modelDark spec offset offset_dc darkCurrent offsetCorrectDC true dark
          (RETURN_CODE.SUCCESS,
            if d.m_info.m_interlaceStep > 1 then env.InterpolateSpectrum d else d)
    else if ds.m_darkSpecOption = DARK_SPEC_OPTION.DARK_USER_SUPPLIED then
      -- 4. the user has his own dark spectrum
      if ds.m_offsetSpec.length < 3 then (RETURN_CODE.FAIL, dark) else
      match readUserSpectrum env ds.m_offsetSpec with
      | none => (RETURN_CODE.FAIL, dark)
      | some d =>
        (RETURN_CODE.SUCCESS,
          if d.m_info.m_interlaceStep > 1 then env.InterpolateSpectrum d else d)
    else (RETURN_CODE.FAIL, dark)

/-- The `while(scan->GetNextSpectrum(tmp))` loop of `GetSky` (lines 451-455); `none`
when the fuel runs out before the reader reports the end. -/
def GetSky_average (env : Env) (fitLow fitHigh : Int) :
    Nat → CScanFileHandler → CSpectrum → CSpectrum → Option (CScanFileHandler × CSpectrum)
  | 0, _, _, _ => none
  | fuel + 1, scan, tmp, sky =>
    let r := scan.GetNextSpectrum env tmp
    if r.1 = 0 then some (r.2.1, sky)
    else
      let tmp1 := r.2.2
      let intens := env.MaxValue tmp1 fitLow fitHigh
      let sky1 := if intens < 4095 * (tmp1.NumSpectra : ℚ) ∧ ¬ env.IsDark tmp1
        then sky.Add tmp1 else sky
      GetSky_average env fitLow fitHigh fuel r.2.1 tmp1 sky1

/-- Source function `CScanEvaluation::GetSky` (lines 423-495): return code, the handler afterwards and
the output parameter `sky` afterwards; `none` when the fuel given to the averaging loop
runs out. -/
def GetSky (env : Env) (fuel : Nat) (self : CScanEvaluation) (scan : CScanFileHandler)
    (sky : CSpectrum) : Option (RETURN_CODE × CScanFileHandler × CSpectrum) :=
  let interpolated (s : CSpectrum) : CSpectrum :=
    if s.m_info.m_interlaceStep > 1 then env.InterpolateSpectrum s else s
  match env.m_skyOption with
  | SKY_OPTION.SKY_SCAN =>
    some (RETURN_CODE.SUCCESS, scan, interpolated scan.GetSky.2)
  | SKY_OPTION.SKY_AVERAGE_OF_GOOD =>
    let interlaceSteps := scan.GetInterlaceSteps
    let startChannel := scan.GetStartChannel
    let fitLow := Int.tdiv self.m_fitLow interlaceSteps - startChannel
    let fitHigh := Int.tdiv self.m_fitHigh interlaceSteps - startChannel
    let tmp := scan.GetSky.2
    let scan1 := scan.ResetCounter
    let intens := env.MaxValue tmp fitLow fitHigh
    let sky1 := if intens < 4095 * (tmp.NumSpectra : ℚ) ∧ ¬ env.IsDark tmp
      then tmp else sky.Clear
    match GetSky_average env fitLow fitHigh fuel scan1 tmp sky1 with
    | none => none
    | some (scan2, sky2) => some (RETURN_CODE.SUCCESS, scan2.ResetCounter, interpolated sky2)
  | SKY_OPTION.SKY_INDEX =>
    let r := scan.GetSpectrum sky env.m_skyIndex
    if r.1 = 0 then some (RETURN_CODE.FAIL, r.2.1, r.2.2)
    else some (RETURN_CODE.SUCCESS, r.2.1, interpolated r.2.2)
  | SKY_OPTION.SKY_USER =>
    if env.Equals (env.m_skySpectrumFromUser.takeRight 4) ".pak" then
      match env.ReadPak env.m_skySpectrumFromUser 0 with
      | some s => some (RETURN_CODE.SUCCESS, scan, s)
      | none => some (RETURN_CODE.FAIL, scan, sky)
    else if env.Equals (env.m_skySpectrumFromUser.takeRight 4) ".std" then
      match env.ReadSTD env.m_skySpectrumFromUser with
      | some s => some (RETURN_CODE.SUCCESS, scan, s)
      | none => some (RETURN_CODE.FAIL, scan, sky)
    else some (RETURN_CODE.FAIL, scan, sky)

/-- Source function `CScanEvaluation::Ignore` (lines 503-515). -/
def Ignore (env : Env) (spec dark : CSpectrum) (fitLow fitHigh : Int) : Bool :=
  let maxIntensity : ℚ := env.MaxValue spec fitLow fitHigh - env.MinValue dark fitLow fitHigh
  let dynamicRange : ℚ := env.GetMaxIntensity spec.m_info.m_specModel
  if maxIntensity < dynamicRange * env.m_minimumSaturationInFitRegion then true else false

/-- Steps e to g of the loop body of `EvaluateOpenedScan` (lines 240-267): evaluate the
dark-corrected spectrum, save the evaluation result, classify it, and keep track of
the most absorbing spectrum. -/
def EvaluateOpenedScan_store (env : Env) (s : LoopState) (current : CSpectrum) : LoopState :=
  -- e. evaluate the spectrum (a non-zero return only sets the unused flag `success`)
  let ev := CEvaluation.Evaluate env s.eval current env.numSteps
  -- e. save the evaluation result
  let r1 := s.result.AppendResult ev.2.GetEvaluationResult current.m_info
  -- f. check if this was an ok data point
  let r2 := r1.CheckGoodnessOfFit env current.m_info
  -- g. if it is ok, then check if the value is higher than any of the previous ones
  let last := r2.GetEvaluatedNum - 1
  if r2.IsOk last = true ∧ |r2.GetColumn last 0| > s.highestColumn then
    { s with eval := ev.2, result := r2, current := current,
             highestColumn := |r2.GetColumn last 0|, mostAbsorbing := s.index }
  else
    { s with eval := ev.2, result := r2, current := current }

/-- One pass through the body of the `while(1)` loop of `EvaluateOpenedScan`
(lines 161-267). `sky` is the dark-corrected sky spectrum of the scan. -/
def EvaluateOpenedScan_body (env : Env) (self : CScanEvaluation) (sky : CSpectrum)
    (darkSettings : Option CDarkSettings) (s : LoopState) : LoopStep :=
  -- remember which spectrum we are at
  let spectrumIndex := s.current.ScanIndex
  -- a. read the next spectrum from the file
  let r := s.scan.GetNextSpectrum env s.current
  let s1 : LoopState := { s with scan := r.2.1, current := r.2.2 }
  if r.1 = 0 then
    if s1.scan.m_lastError = some SpecError.ERROR_SPECTRUM_NOT_FOUND
        ∨ s1.scan.m_lastError = some SpecError.ERROR_EOF then
      LoopStep.done s1
    else
      LoopStep.next { s1 with result := s1.result.MarkAsCorrupted spectrumIndex }
  else
  let s2 : LoopState := { s1 with index := s1.index + 1 }
  -- the sky and the dark spectrum are not evaluated
  if s2.current.ScanIndex = sky.ScanIndex ∨ s2.current.ScanIndex = s2.dark.ScanIndex then
    LoopStep.next s2
  else
  let cur0 := if s2.current.m_info.m_interlaceStep > 1
    then env.InterpolateSpectrum s2.current else s2.current
  -- b. get the dark spectrum for this measured spectrum
  let d := GetDark env s2.scan cur0 s2.dark darkSettings
  if d.1 ≠ RETURN_CODE.SUCCESS then
    LoopStep.abort { s2 with current := cur0, dark := d.2 }
  else
  -- b. the intensities, before dividing by the number of spectra
  let cur1 : CSpectrum := { cur0 with m_info := { cur0.m_info with
    m_peakIntensity := env.MaxValue cur0 0 ((cur0.m_length : Int) - 2),
    m_fitIntensity := env.MaxValue cur0 self.m_fitLow self.m_fitHigh } }
  -- c. divide the measured spectrum with the number of co-added spectra
  let cur2 := if cur1.NumSpectra > 0 ∧ ¬ self.m_averagedSpectra
    then cur1.Div (cur1.NumSpectra : ℚ) else cur1
  -- d. the dark spectrum
  let dark1 := if d.2.NumSpectra > 0 ∧ ¬ self.m_averagedSpectra
    then d.2.Div (d.2.NumSpectra : ℚ) else d.2
  -- e. check if this spectrum is worth evaluating
  if Ignore env cur2 dark1 self.m_fitLow self.m_fitHigh = true then
    LoopStep.next { s2 with current := cur2, dark := dark1 }
  else
  -- f. the spectrum is ok, remove the dark
  LoopStep.next (EvaluateOpenedScan_store env { s2 with dark := dark1 } (cur2.Sub dark1))

/-- The `while(1)` loop of `EvaluateOpenedScan`, run for at most `fuel` passes; `none`
when the fuel runs out before the loop is left. The Boolean says whether the loop was
left through the failing `GetDark` (`return 0`, line 208). -/
def EvaluateOpenedScan_loop (env : Env) (self : CScanEvaluation) (sky : CSpectrum)
    (darkSettings : Option CDarkSettings) : Nat → LoopState → Option (LoopState × Bool)
  | 0, _ => none
  | fuel + 1, s =>
    match EvaluateOpenedScan_body env self sky darkSettings s with
    | LoopStep.next s1 => EvaluateOpenedScan_loop env self sky darkSettings fuel s1
    | LoopStep.done s1 => some (s1, false)
    | LoopStep.abort s1 => some (s1, true)

/-- Source function `CScanEvaluation::EvaluateOpenedScan` (lines 104-271); `none` when the fuel runs
out. -/
def EvaluateOpenedScan (env : Env) (fuel : Nat) (self : CScanEvaluation)
    (scan : CScanFileHandler) (eval : CEvaluation) (darkSettings : Option CDarkSettings) :
    Option OpenedScanOutcome :=
  -- get the sky spectrum
  match GetSky env fuel self scan CSpectrum.empty with
  | none => none
  | some (skyCode, scan1, sky0) =>
    if skyCode ≠ RETURN_CODE.SUCCESS then
      some { ret := -1, self := self, scan := scan1, eval := eval, deleted := false }
    else
    let original_sky := sky0
    -- get the dark spectrum and remove it from the sky
    let darkStep : RETURN_CODE × CSpectrum × CSpectrum :=
      if env.m_skyOption ≠ SKY_OPTION.SKY_USER then
        let d := GetDark env scan1 sky0 CSpectrum.empty darkSettings
        (d.1, sky0.Sub d.2, d.2)
      else (RETURN_CODE.SUCCESS, sky0, CSpectrum.empty)
    if darkStep.1 ≠ RETURN_CODE.SUCCESS then
      some { ret := -1, self := self, scan := scan1, eval := eval, deleted := false }
    else
    let sky1 := darkStep.2.1
    let dark := darkStep.2.2
    let divide : Bool := sky1.NumSpectra > 0 ∧ ¬ self.m_averagedSpectra
    let sky := if divide then sky1.Div (sky1.NumSpectra : ℚ) else sky1
    let original_sky1 := if divide
      then original_sky.Div (original_sky.NumSpectra : ℚ) else original_sky
    -- tell the evaluator which sky spectrum to use
    let eval1 := (CEvaluation.SetSkySpectrum env eval sky).2
    -- adjust the fit-low and fit-high parameters according to the spectra
    let self1 : CScanEvaluation :=
      { self with m_fitLow := self.m_fitLow - sky.m_info.m_startChannel,
                  m_fitHigh := self.m_fitHigh - sky.m_info.m_startChannel,
                  m_indexOfMostAbsorbingSpectrum := -1 }
    let result0 : CScanResult :=
      { CScanResult.new with m_skySpecInfo := original_sky1.m_info,
                             m_darkSpecInfo := dark.m_info }
    let start : LoopState :=
      { scan := scan1.ResetCounter, eval := eval1, result := result0,
        current := CSpectrum.empty, dark := dark, index := -1, highestColumn := 0,
        mostAbsorbing := -1 }
    match EvaluateOpenedScan_loop env self1 sky darkSettings fuel start with
    | none => none
    | some (s, aborted) =>
      let self2 : CScanEvaluation :=
        { self1 with m_result := some s.result,
                     m_indexOfMostAbsorbingSpectrum := s.mostAbsorbing }
      some { ret := if aborted then 0 else s.result.GetEvaluatedNum,
             self := self2, scan := s.scan, eval := s.eval, deleted := aborted }

end CScanEvaluation

/-! ## Successive reads -/

/-- The handler and the output parameter after `n` successive calls of
`GetNextSpectrum`, starting from the pair given. -/
def GetNextSpectrum_iterate (env : Env) :
    Nat → CScanFileHandler × CSpectrum → CScanFileHandler × CSpectrum
  | 0, p => p
  | n + 1, p => GetNextSpectrum_iterate env n (CScanFileHandler.GetNextSpectrum env p.1 p.2).2

/-- What `GetNextSpectrum` hands out for a decoded spectrum `s`: the spectrum with the
spectrometer model filled in (line 198). -/
def withModel (env : Env) (s : CSpectrum) : CSpectrum :=
  { s with m_info := { s.m_info with
      m_specModel := env.GuessSpectrometerModelFromSerial s.m_info.m_device } }

/-- Whether a record decodes. -/
def Record.decodes (r : Record) : Bool :=
  match r.content with
  | Except.ok _ => true
  | Except.error _ => false

/-! ## Concrete scans used to run the code -/

/-- Largest sample in `[lo, hi)`: a stand-in for `CSpectrum::MaxValue`. -/
def sampleMax (s : CSpectrum) (lo hi : Int) : ℚ :=
  (List.range' lo.toNat (hi - lo).toNat).foldl (fun a i => max a (s.m_data i))
    (s.m_data lo.toNat)

/-- Smallest sample in `[lo, hi)`: a stand-in for `CSpectrum::MinValue`. -/
def sampleMin (s : CSpectrum) (lo hi : Int) : ℚ :=
  (List.range' lo.toNat (hi - lo).toNat).foldl (fun a i => min a (s.m_data i))
    (s.m_data lo.toNat)

/-- A concrete environment: sky taken from the scan, no user files, a spectrometer with
dynamic range 4095 and the given saturation limit, a fit object that always ends
with the given outcome, and a shift fit that always fails. -/
def sampleEnv (minimumSaturation : ℚ) (outcome : FitOutcome) : Env :=
  { MaxValue := sampleMax, MinValue := sampleMin, InterpolateSpectrum := fun s => s,
    IsDark := fun _ => false, GuessSpectrometerModelFromSerial := fun _ => 0,
    GetMaxIntensity := fun _ => 4095, m_minimumSaturationInFitRegion := minimumSaturation,
    m_skyOption := SKY_OPTION.SKY_SCAN, m_skyIndex := 0, m_skySpectrumFromUser := "",
    Equals := fun a b => a == b, ReadSTD := fun _ => none, ReadTXT := fun _ => none,
    ReadPak := fun _ _ => none, HighPassBinomial := fun a _ _ => a, Log := fun a _ => a,
    DivArrays := fun a _ _ => a, Minimize := fun _ _ _ _ _ => outcome,
    MinimizeShift := fun _ _ _ _ => ShiftOutcome.minimizeFailed, numSteps := 1000,
    GoodFit := fun _ _ => true }

/-- A spectrum of `len` equal samples `v` with the given scan index, exposure count and
exposure time. -/
def flatSpectrum (idx numSpec expTime : Int) (len : Nat) (v : ℚ) : CSpectrum :=
  { m_data := fun i => if i < len then v else 0, m_length := len,
    m_info := { m_scanIndex := idx, m_numSpec := numSpec, m_exposureTime := expTime,
                m_interlaceStep := 1, m_startChannel := 0, m_channel := 0,
                m_specModel := 0, m_device := "", m_startTime := 0, m_stopTime := 0,
                m_peakIntensity := 0, m_fitIntensity := 0 } }

/-- A record that decodes to a four-sample spectrum of one exposure. -/
def okRecord (name : String) (idx : Int) (v : ℚ) : Record :=
  { name := name, content := Except.ok (flatSpectrum idx 1 100 4 v) }

/-- A record whose checksum does not match. -/
def badRecord (name : String) : Record :=
  { name := name, content := Except.error SpecError.ERROR_CHECKSUM_MISMATCH }

/-- A reference file with nothing in it. -/
def noReference : CReferenceFile :=
  { m_specieName := "", m_path := "", m_columnOption := SHIFT_TYPE.SHIFT_FREE,
    m_columnValue := 0, m_shiftOption := SHIFT_TYPE.SHIFT_FREE, m_shiftValue := 0,
    m_shiftMaxValue := 0, m_squeezeOption := SHIFT_TYPE.SHIFT_FREE, m_squeezeValue := 0,
    m_squeezeMaxValue := 0, m_data := [] }

/-- A fit window for four-sample spectra, fit range `[0, 4)`, no references. -/
def sampleWindow : CFitWindow :=
  { fitLow := 0, fitHigh := 4, specLength := 4, startChannel := 0, interlaceStep := 1,
    polyOrder := 1, fitType := FIT_TYPE.FIT_POLY, UV := false, shiftSky := false,
    findOptimalShift := false, nRef := 0, ref := [], fraunhoferRef := noReference }

/-- A scan evaluation with summed spectra and fit range `[0, 4)`. -/
def sampleScanEvaluation : CScanEvaluation :=
  { m_result := none, m_averagedSpectra := false, m_fitLow := 0, m_fitHigh := 4,
    m_indexOfMostAbsorbingSpectrum := 0 }

/-- The values of a finished fit, all zero. -/
def zeroFit : FitValues :=
  { stepNum := 1, chiSquare := 0, coefficient := fun _ => 0, delta := 0,
    column := fun _ => 0, columnError := fun _ => 0, shift := fun _ => 0,
    shiftError := fun _ => 0, squeeze := fun _ => 0, squeezeError := fun _ => 0 }

/-- Sky, dark and one measurement. -/
def scanSkyDarkOne : List Record :=
  [okRecord "sky" 0 100, okRecord "dark" 1 1, okRecord "" 2 50]

/-- Sky, dark and two measurements. -/
def scanSkyDarkTwo : List Record :=
  [okRecord "sky" 0 100, okRecord "dark" 1 1, okRecord "" 2 50, okRecord "" 3 60]

/-- Sky first, the dark record only at position 2, measurements at positions 1 and 3. -/
def scanDarkAtTwo : List Record :=
  [okRecord "sky" 0 100, okRecord "" 1 50, okRecord "dark" 2 1, okRecord "" 3 60]

/-- Sky, a measurement, a dark-current record spelled "darkcur", a measurement; no
record is called "dark", "offset" or "dark_cur". -/
def scanWithDarkcur : List Record :=
  [okRecord "sky" 0 100, okRecord "" 1 50, okRecord "darkcur" 2 1, okRecord "" 3 60]

/-- Sky, dark, a measurement whose checksum does not match, a good measurement. -/
def scanOneCorrupt : List Record :=
  [okRecord "sky" 0 100, okRecord "dark" 1 1, badRecord "", okRecord "" 3 60]

/-- A scan of 200 records: sky, dark, a good measurement at position 2, a measurement
whose checksum does not match at position 3, and 196 good measurements. -/
def scanLongOneCorrupt : List Record :=
  [okRecord "sky" 0 100, okRecord "dark" 1 1, okRecord "" 2 50, badRecord ""] ++
    (List.range 196).map (fun k => okRecord "" ((k : Int) + 4) 50)


/-- A record that decodes to a four-sample spectrum with the given exposure count and
exposure time. -/
def exposedRecord (name : String) (idx numSpec expTime : Int) (v : ℚ) : Record :=
  { name := name, content := Except.ok (flatSpectrum idx numSpec expTime 4 v) }

/-- Sky, a dark record of 5 exposures, a measurement of 10 exposures. -/
def scanDarkFiveExposures : List Record :=
  [exposedRecord "sky" 0 10 100 100, exposedRecord "dark" 1 5 100 3,
   exposedRecord "" 2 10 100 50]

/-- Sky, an offset record, a dark-current record and a measurement. -/
def scanOffsetDarkCurrent : List Record :=
  [exposedRecord "sky" 0 10 100 100, exposedRecord "offset" 1 100 3 7,
   exposedRecord "dark_cur" 2 2 1000 9, exposedRecord "" 3 10 100 50]

/-- An environment whose only user file is "dc.std", a dark-current spectrum. -/
def userFileEnv : Env :=
  { sampleEnv 0 FitOutcome.minimizeFailed with
    ReadSTD := fun path => if path = "dc.std" then some (flatSpectrum 0 4 500 4 9) else none }

/-- Dark settings: model the dark always, offset and dark-current from the container. -/
def modelFromContainer : CDarkSettings :=
  { m_darkSpecOption := DARK_SPEC_OPTION.MODEL_ALWAYS,
    m_offsetOption := DARK_MODEL_OPTION.MEASURED, m_offsetSpec := "",
    m_darkCurrentOption := DARK_MODEL_OPTION.MEASURED, m_darkCurrentSpec := "" }

/-- Dark settings: model the dark always, offset from the container, dark-current from
the user file "dc.std". -/
def modelWithUserDarkCurrent : CDarkSettings :=
  { m_darkSpecOption := DARK_SPEC_OPTION.MODEL_ALWAYS,
    m_offsetOption := DARK_MODEL_OPTION.MEASURED, m_offsetSpec := "",
    m_darkCurrentOption := DARK_MODEL_OPTION.USER_SUPPLIED, m_darkCurrentSpec := "dc.std" }

/-- The handler after `CheckScanFile` on a fresh handler. -/
def opened (file : List Record) : CScanFileHandler :=
  (CScanFileHandler.CheckScanFile CScanFileHandler.new file).2


/-- The spectrum a record decodes to (a default spectrum when it does not decode). -/
def Record.spectrum (r : Record) : CSpectrum :=
  match r.content with
  | Except.ok s => s
  | Except.error _ => CSpectrum.empty

/-- The handler `h` reads the container `file`, all of whose spectra it holds in its
buffer when there are fewer than 200, and its cursor is at position `k`. -/
def ReadsFrom (file : List Record) (h : CScanFileHandler) (k : Nat) : Prop :=
  h.m_file = file ∧ h.m_specNum = (file.length : Int)
    ∧ ((h.m_spectrumBufferNum = (file.length : Int)
          ∧ h.m_spectrumBuffer = file.map Record.spectrum)
        ∨ (200 ≤ file.length ∧ h.m_spectrumBufferNum = 0))
    ∧ h.m_specReadSoFarNum = (k : Int)


/-! ## Concrete inputs for the dark strategies and the evaluator -/

/-- A scan with a single record, called "sky": there is no record at position 1 for
the dark spectrum. -/
def scanSkyOnly : List Record := [okRecord "sky" 0 100]

/-- Dark settings: the dark spectrum is the user file "dark.std" (the code takes the
path from `m_offsetSpec`). -/
def userDarkSettings : CDarkSettings :=
  { m_darkSpecOption := DARK_SPEC_OPTION.DARK_USER_SUPPLIED,
    m_offsetOption := DARK_MODEL_OPTION.MEASURED, m_offsetSpec := "dark.std",
    m_darkCurrentOption := DARK_MODEL_OPTION.MEASURED, m_darkCurrentSpec := "" }

/-! ## The model function of the fit -/

/-- A function added to the summation object `cRefSum` of `Evaluate`: the reference
spectrum function held in slot `ref[slot]`, or the polynomial of the given order. -/
inductive ModelTerm where
  | reference (slot : Nat)
  | polynomial (order : Int)
  deriving DecidableEq, Repr

/-- The slots of `ref[]` that `CEvaluation::CreateReferenceSpectrum` (lines 627-721)
sets up, provided the spline objects initialise: one slot per reference of the
window (lines 631-678) and, when a sky spectrum is set and the fit type is
`FIT_HP_SUB` or `FIT_POLY`, slot `nRef` for the sky spectrum (lines 680-718). -/
def CEvaluation.CreateReferenceSpectrum_slots (e : CEvaluation) : List Nat :=
  List.range e.m_window.nRef.toNat
    ++ (if e.m_skySpectrum.m_length > 0
          ∧ (e.m_window.fitType = FIT_TYPE.FIT_HP_SUB ∨ e.m_window.fitType = FIT_TYPE.FIT_POLY)
        then [e.m_window.nRef.toNat] else [])

/-- Lines 121-134 of `CEvaluation::Evaluate`: the functions added to the summation
object `cRefSum`, in order: `ref[i]` for `i < nRef`, then the polynomial. -/
def CEvaluation.Evaluate_sum (e : CEvaluation) : List ModelTerm :=
  (List.range e.m_window.nRef.toNat).map ModelTerm.reference
    ++ [ModelTerm.polynomial e.m_window.polyOrder]

/-- An SO2 reference with free column, shift fixed at 0 and squeeze fixed at 1. -/
def so2Reference : CReferenceFile :=
  { m_specieName := "SO2", m_path := "so2.xs", m_columnOption := SHIFT_TYPE.SHIFT_FREE,
    m_columnValue := 0, m_shiftOption := SHIFT_TYPE.SHIFT_FIX, m_shiftValue := 0,
    m_shiftMaxValue := 0, m_squeezeOption := SHIFT_TYPE.SHIFT_FIX, m_squeezeValue := 1,
    m_squeezeMaxValue := 0, m_data := [1, 2, 3, 4] }

/-- A subtractive (`FIT_HP_SUB`) fit window for four-sample spectra with the single
reference SO2. -/
def subtractiveWindow : CFitWindow :=
  { fitLow := 0, fitHigh := 4, specLength := 4, startChannel := 0, interlaceStep := 1,
    polyOrder := 1, fitType := FIT_TYPE.FIT_HP_SUB, UV := false, shiftSky := false,
    findOptimalShift := false, nRef := 1, ref := [so2Reference],
    fraunhoferRef := noReference }

/-- The values of a finished fit: column 5 with error 1, shift 3/10, squeeze 101/100
for every reference. -/
def fiveFit : FitValues :=
  { stepNum := 1, chiSquare := 0, coefficient := fun _ => 0, delta := 0,
    column := fun _ => 5, columnError := fun _ => 1, shift := fun _ => 3 / 10,
    shiftError := fun _ => 0, squeeze := fun _ => 101 / 100, squeezeError := fun _ => 0 }

/-- Sky, dark, a weak measurement (samples 5) and a strong measurement (samples 50). -/
def scanWeakThenStrong : List Record :=
  [okRecord "sky" 0 100, okRecord "dark" 1 1, okRecord "" 2 5, okRecord "" 3 50]

/-! ## `CEvaluation::EvaluateShift` -/

/-- Source function `CEvaluation::EvaluateShift` (lines 256-521): the return value, the
evaluator afterwards, and the values written to the output parameters `shift`,
`shiftError`, `squeeze`, `squeezeError` (`none` when they were not written). -/
def CEvaluation.EvaluateShift (env : Env) (e : CEvaluation) (measured : CSpectrum) :
    Int × CEvaluation × Option ShiftValues :=
  -- check so that the length of the spectra agree with each other
  if e.m_window.specLength ≠ (measured.m_length : Int) then (1, e, none) else
  -- check that we have a solar-spectrum to check against
  if e.m_window.fraunhoferRef.m_path.length < 6 then (1, e, none) else
  let limits : Option (Int × Int) :=
    if measured.m_info.m_startChannel ≠ 0 ∨ (measured.m_length : Int) < e.m_window.specLength
    then
      let fitLow := e.m_window.fitLow - measured.m_info.m_startChannel
      let fitHigh := e.m_window.fitHigh - measured.m_info.m_startChannel
      if fitLow < 0 ∨ fitHigh > (measured.m_length : Int) then none else some (fitLow, fitHigh)
    else some (e.m_window.fitLow, e.m_window.fitHigh)
  match limits with
  | none => (1, e, none)
  | some (fitLow, fitHigh) =>
    let measArray : Nat → ℚ := fun i => if i < measured.m_length then measured.m_data i else 0
    -- prepare the spectrum for evaluation
    let m1 := CEvaluation.RemoveOffset measArray e.m_window.specLength e.m_window.UV
    let m2 := if e.m_window.fitType = FIT_TYPE.FIT_HP_DIV
        ∨ e.m_window.fitType = FIT_TYPE.FIT_HP_SUB
      then env.HighPassBinomial m1 e.m_window.specLength 500 else m1
    let m3 := env.Log m2 e.m_window.specLength
    let m4 : Nat → ℚ := if e.m_window.fitType = FIT_TYPE.FIT_POLY
      then (fun i => if (i : Int) < e.m_window.specLength then m3 i * (-1) else m3 i) else m3
    match env.MinimizeShift e m4 fitLow fitHigh with
    | ShiftOutcome.splineError => (1, e, none)
    | ShiftOutcome.minimizeFailed => (1, e, none)
    | ShiftOutcome.fitException => (1, e, none)
    | ShiftOutcome.fitted v =>
      (0, { e with m_result := { e.m_result with m_delta := v.delta } }, some v)

/-! ## Calibration from the Fraunhofer reference -/

/-- The first `n` entries of the reference array are changed by `f` (a loop
`for(it = 0; it < nRef; ++it)` over `ref[it]`). -/
def updateRefs (f : CReferenceFile → CReferenceFile) : List CReferenceFile → Int →
    List CReferenceFile
  | [], _ => []
  | r :: rs, n => (if 0 < n then f r else r) :: updateRefs f rs (n - 1)

/-- A candidate chosen by `FindOptimumShiftAndSqueeze_Fraunhofer` (lines 626-686): the
handler afterwards, the sky spectrum read at line 630, the index
`indexOfMostSuitableSpectrum`, and the spectrum handed to `EvaluateShift` (divided by
its exposure count and dark-corrected). -/
structure FraunhoferCandidate where
  scan : CScanFileHandler
  sky : CSpectrum
  index : Int
  spectrum : CSpectrum

namespace CScanEvaluation

/-- The saturation ratio `fitSaturation` of a spectrum (lines 631-638 and 645-654). -/
def fitSaturation (env : Env) (fitWindow : CFitWindow) (s : CSpectrum) : ℚ :=
  let fitIntensity := env.MaxValue s fitWindow.fitLow fitWindow.fitHigh
  let maxInt := env.GetMaxIntensity s.m_info.m_specModel
  if s.NumSpectra > 0 then fitIntensity / ((s.NumSpectra : ℚ) * maxInt)
  else fitIntensity / (maxInt * (s.NumSpectra : ℚ))

/-- The `while(scan->GetNextSpectrum(spectrum))` loop of
`FindOptimumShiftAndSqueeze_Fraunhofer` (lines 644-666): handler, `spectrum` and
`indexOfMostSuitableSpectrum` when the loop is left; `none` when the fuel runs out. -/
def FindOptimumShiftAndSqueeze_Fraunhofer_search (env : Env) (fitWindow : CFitWindow) :
    Nat → CScanFileHandler → CSpectrum → Int → ℚ → Int →
      Option (CScanFileHandler × CSpectrum × Int)
  | 0, _, _, _, _, _ => none
  | fuel + 1, scan, spectrum, best, bestSaturation, curIndex =>
    let r := scan.GetNextSpectrum env spectrum
    if r.1 = 0 then some (r.2.1, r.2.2, best)
    else
      let sat := fitSaturation env fitWindow r.2.2
      if sat < 9 / 10 ∧ sat > 1 / 10 ∧ sat > bestSaturation then
        FindOptimumShiftAndSqueeze_Fraunhofer_search env fitWindow fuel r.2.1 r.2.2
          curIndex sat (curIndex + 1)
      else
        FindOptimumShiftAndSqueeze_Fraunhofer_search env fitWindow fuel r.2.1 r.2.2
          best bestSaturation (curIndex + 1)

/-- Lines 626-686 of `FindOptimumShiftAndSqueeze_Fraunhofer`: find the spectrum to
determine shift and squeeze from and prepare it. Outer `none`: the fuel ran out.
Inner `none`: the function returns `NULL`. `GetDark` is called without dark settings
(a null pointer). -/
def FindOptimumShiftAndSqueeze_Fraunhofer_candidate (env : Env) (fuel : Nat)
    (self : CScanEvaluation) (fitWindow : CFitWindow) (scan : CScanFileHandler) :
    Option (CScanFileHandler × Option FraunhoferCandidate) :=
  -- 1. find the spectrum for which we should determine shift and squeeze
  let sky := scan.GetSky.2
  let skySaturation := fitSaturation env fitWindow sky
  let inRange : Bool := skySaturation < 9 / 10 ∧ skySaturation > 1 / 10
  let best0 : Int := if inRange then -1 else -2
  let bestSaturation0 : ℚ := if inRange then skySaturation else -1
  match FindOptimumShiftAndSqueeze_Fraunhofer_search env fitWindow fuel scan.ResetCounter
      CSpectrum.empty best0 bestSaturation0 0 with
  | none => none
  | some (scan1, spectrum1, best) =>
    -- 2. get the spectrum we should evaluate
    if best = -2 then some (scan1, none)
    else
      let fetched : CScanFileHandler × CSpectrum :=
        if best = -1 then (scan1, scan1.GetSky.2)
        else ((scan1.GetSpectrum spectrum1 best).2.1, (scan1.GetSpectrum spectrum1 best).2.2)
      let spectrum2 := if fetched.2.NumSpectra > 0 ∧ ¬ self.m_averagedSpectra
        then fetched.2.Div (fetched.2.NumSpectra : ℚ) else fetched.2
      let d := GetDark env fetched.1 spectrum2 CSpectrum.empty none
      if d.1 ≠ RETURN_CODE.SUCCESS then some (fetched.1, none)
      else
        let dark1 := if d.2.NumSpectra > 0 ∧ ¬ self.m_averagedSpectra
          then d.2.Div (d.2.NumSpectra : ℚ) else d.2
        some (fetched.1, some { scan := fetched.1, sky := sky, index := best,
                                spectrum := spectrum2.Sub dark1 })

/-- Step 3a of `FindOptimumShiftAndSqueeze_Fraunhofer` (lines 690-695): the shift of
every reference is released, the squeeze fixed to 1. -/
def FindOptimumShiftAndSqueeze_Fraunhofer_release (fitWindow : CFitWindow) : CFitWindow :=
  let refs := updateRefs
    (fun r => { r with m_shiftOption := SHIFT_TYPE.SHIFT_FREE,
                       m_squeezeOption := SHIFT_TYPE.SHIFT_FIX, m_squeezeValue := 1 })
    fitWindow.ref fitWindow.nRef
  { fitWindow with ref := refs }

/-- Lines 698-701 of `FindOptimumShiftAndSqueeze_Fraunhofer`: the call of
`EvaluateShift` on an evaluator for the released window, with the sky spectrum set. -/
def FindOptimumShiftAndSqueeze_Fraunhofer_shift (env : Env) (fitWindow : CFitWindow)
    (sky spectrum : CSpectrum) : Int × CEvaluation × Option ShiftValues :=
  CEvaluation.EvaluateShift env
    (CEvaluation.SetSkySpectrum env
      (CEvaluation.new (FindOptimumShiftAndSqueeze_Fraunhofer_release fitWindow)) sky).2
    spectrum

/-- Lines 690-721 of `FindOptimumShiftAndSqueeze_Fraunhofer`: release the shifts, run
`EvaluateShift`, fix shift and squeeze of every reference when the fit is good enough,
and return a new evaluator for the resulting window. -/
def FindOptimumShiftAndSqueeze_Fraunhofer_fit (env : Env) (fitWindow : CFitWindow)
    (sky spectrum : CSpectrum) : CEvaluation :=
  let released := FindOptimumShiftAndSqueeze_Fraunhofer_release fitWindow
  let r := FindOptimumShiftAndSqueeze_Fraunhofer_shift env fitWindow sky spectrum
  let improved : CFitWindow :=
    if r.1 ≠ 0 then released
    else
      match r.2.2 with
      | none => released
      | some v =>
        if |v.shiftError| < 1 ∧ |v.squeezeError| < 1 / 100 then
          let refs := updateRefs
            (fun x => { x with m_shiftOption := SHIFT_TYPE.SHIFT_FIX,
                               m_squeezeOption := SHIFT_TYPE.SHIFT_FIX,
                               m_shiftValue := v.shift, m_squeezeValue := v.squeeze })
            released.ref released.nRef
          { released with ref := refs }
        else released
  CEvaluation.new improved

/-- Source function `CScanEvaluation::FindOptimumShiftAndSqueeze_Fraunhofer`
(lines 615-722): the handler afterwards and the evaluator returned (`none` for
`NULL`); outer `none` when the fuel runs out. -/
def FindOptimumShiftAndSqueeze_Fraunhofer (env : Env) (fuel : Nat) (self : CScanEvaluation)
    (fitWindow : CFitWindow) (scan : CScanFileHandler) :
    Option (CScanFileHandler × Option CEvaluation) :=
  match FindOptimumShiftAndSqueeze_Fraunhofer_candidate env fuel self fitWindow scan with
  | none => none
  | some (scan1, none) => some (scan1, none)
  | some (scan1, some c) =>
    some (scan1, some (FindOptimumShiftAndSqueeze_Fraunhofer_fit env fitWindow c.sky c.spectrum))

end CScanEvaluation

/-- Sky (samples 4000, saturated beyond 0.9 of the dynamic range 4095), dark, a
measurement with samples 2000 (saturation ratio 0.49) and one with samples 1200
(saturation ratio 0.29). -/
def scanForCalibration : List Record :=
  [okRecord "sky" 0 4000, okRecord "dark" 1 1, okRecord "" 2 2000, okRecord "" 3 1200]

/-- A reference whose shift the user fixed at 1/2 and whose squeeze is free. -/
def fixedShiftReference : CReferenceFile :=
  { m_specieName := "SO2", m_path := "so2.xs", m_columnOption := SHIFT_TYPE.SHIFT_FREE,
    m_columnValue := 0, m_shiftOption := SHIFT_TYPE.SHIFT_FIX, m_shiftValue := 1 / 2,
    m_shiftMaxValue := 0, m_squeezeOption := SHIFT_TYPE.SHIFT_FREE, m_squeezeValue := 0,
    m_squeezeMaxValue := 0, m_data := [1, 2, 3, 4] }

/-- A solar reference stored in the file "solar.xs". -/
def solarReference : CReferenceFile :=
  { m_specieName := "FraunhoferRef", m_path := "solar.xs",
    m_columnOption := SHIFT_TYPE.SHIFT_FREE, m_columnValue := 0,
    m_shiftOption := SHIFT_TYPE.SHIFT_FREE, m_shiftValue := 0, m_shiftMaxValue := 0,
    m_squeezeOption := SHIFT_TYPE.SHIFT_FREE, m_squeezeValue := 0, m_squeezeMaxValue := 0,
    m_data := [4, 3, 2, 1] }

/-- A fit window with a Fraunhofer reference and the single reference
`fixedShiftReference`. -/
def fraunhoferWindow : CFitWindow :=
  { fitLow := 0, fitHigh := 4, specLength := 4, startChannel := 0, interlaceStep := 1,
    polyOrder := 1, fitType := FIT_TYPE.FIT_HP_SUB, UV := false, shiftSky := false,
    findOptimalShift := false, nRef := 1, ref := [fixedShiftReference],
    fraunhoferRef := solarReference }

/-- The sample environment with a shift fit that finishes with shift 3/10 (error 1/10)
and squeeze 1 (error 1/1000). -/
def shiftFitEnv : Env :=
  { sampleEnv 0 FitOutcome.minimizeFailed with
    MinimizeShift := fun _ _ _ _ => ShiftOutcome.fitted
      { delta := 0, shift := 3 / 10, shiftError := 1 / 10, squeeze := 1,
        squeezeError := 1 / 1000 } }

/-! ## Optimum shift from the most absorbing spectrum, and `EvaluateScan` -/

/-- What `FindOptimumShiftAndSqueeze` leaves behind. The function gets the evaluator as
a pointer passed by value: `callerEvalDeleted` says whether it ran `delete eval` on the
object the caller's pointer still points to (line 605), and `newEval` is the evaluator
it created and stored in its own copy of the pointer (lines 606-607). -/
structure OptimumOutcome where
  scan : CScanFileHandler
  callerEvalDeleted : Bool
  newEval : Option CEvaluation

/-- What `EvaluateScan` leaves behind: the return value, the scan evaluation and the
handler afterwards, the evaluator object the final ("real") `EvaluateOpenedScan` pass
was given (`none` when the function returned before that pass), whether that object
had already been deleted when the pass used it, and the evaluator that
`FindOptimumShiftAndSqueeze` created (`none` when it was not called or returned
early). -/
structure ScanOutcome where
  ret : Int
  self : CScanEvaluation
  scan : CScanFileHandler
  finalEval : Option CEvaluation
  finalEvalDeleted : Bool
  refinedEval : Option CEvaluation

namespace CScanEvaluation

/-- Lines 527-539 of `FindOptimumShiftAndSqueeze`: `true` when the function goes on to
re-evaluate, `false` when it returns at one of the two checks. -/
def FindOptimumShiftAndSqueeze_goesOn (self : CScanEvaluation) (result : CScanResult) : Bool :=
  -- 1. find the spectrum with the highest column value
  if self.m_indexOfMostAbsorbingSpectrum < 0 then false
  else
    -- 2. make sure that the column-value is high enough
    let columnError := result.GetColumnError self.m_indexOfMostAbsorbingSpectrum 0
    let highestColumn := result.GetColumn self.m_indexOfMostAbsorbingSpectrum 0
    if highestColumn < 2 * columnError then false else true

/-- Step 3 of `FindOptimumShiftAndSqueeze` (lines 546-558): the first reference gets a
free shift and the squeeze fixed to 1, every other reference that is not the
Fraunhofer reference is linked to it. -/
def FindOptimumShiftAndSqueeze_linked (env : Env) (fitWindow : CFitWindow) : CFitWindow :=
  let first : List CReferenceFile :=
    match fitWindow.ref with
    | [] => []
    | r :: rs =>
      { r with m_shiftOption := SHIFT_TYPE.SHIFT_FREE,
               m_squeezeOption := SHIFT_TYPE.SHIFT_FIX, m_squeezeValue := 1 }
        :: updateRefs
            (fun x => if env.Equals x.m_specieName "FraunhoferRef" then x
              else { x with m_shiftOption := SHIFT_TYPE.SHIFT_LINK,
                            m_squeezeOption := SHIFT_TYPE.SHIFT_LINK,
                            m_shiftValue := 0, m_squeezeValue := 0 })
            rs (fitWindow.nRef - 1)
  { fitWindow with ref := first }

/-- Step 5 of `FindOptimumShiftAndSqueeze` (lines 595-604): shift and squeeze of every
reference that is not the Fraunhofer reference are fixed to the optimum values. -/
def FindOptimumShiftAndSqueeze_fixed (env : Env) (fitWindow2 : CFitWindow)
    (optimumShift optimumSqueeze : ℚ) : CFitWindow :=
  let refs := updateRefs
    (fun x => if env.Equals x.m_specieName "FraunhoferRef" then x
      else { x with m_shiftOption := SHIFT_TYPE.SHIFT_FIX,
                    m_squeezeOption := SHIFT_TYPE.SHIFT_FIX,
                    m_shiftValue := optimumShift, m_squeezeValue := optimumSqueeze })
    fitWindow2.ref fitWindow2.nRef
  { fitWindow2 with ref := refs }

/-- Source function `CScanEvaluation::FindOptimumShiftAndSqueeze` (lines 519-613);
`none` when the fuel given to `GetSky` runs out. `GetDark` is called without dark
settings (a null pointer). The shift and squeeze of a reference result that no fit has
stored read as 0. -/
def FindOptimumShiftAndSqueeze (env : Env) (fuel : Nat) (self : CScanEvaluation)
    (fitWindow : CFitWindow) (scan : CScanFileHandler) (result : CScanResult) :
    Option OptimumOutcome :=
  if FindOptimumShiftAndSqueeze_goesOn self result = false then
    some { scan := scan, callerEvalDeleted := false, newEval := none }
  else
  -- 3. evaluate this spectrum again with free (and linked) shift
  let fitWindow2 := FindOptimumShiftAndSqueeze_linked env fitWindow
  -- get the sky-spectrum
  match GetSky env fuel self scan CSpectrum.empty with
  | none => none
  | some (_, scan1, sky0) =>
    let sky1 := if sky0.NumSpectra > 0 ∧ ¬ self.m_averagedSpectra
      then sky0.Div (sky0.NumSpectra : ℚ) else sky0
    -- get the dark-spectrum
    let d := GetDark env scan1 sky1 CSpectrum.empty none
    let dark1 := if d.2.NumSpectra > 0 ∧ ¬ self.m_averagedSpectra
      then d.2.Div (d.2.NumSpectra : ℚ) else d.2
    -- subtract the dark
    let sky2 := sky1.Sub dark1
    -- create the new evaluator
    let eval2 := (CEvaluation.SetSkySpectrum env (CEvaluation.new fitWindow2) sky2).2
    -- get the measured spectrum
    let g := scan1.GetSpectrum CSpectrum.empty (2 + self.m_indexOfMostAbsorbingSpectrum)
    let spec1 := if g.2.2.m_info.m_interlaceStep > 1
      then env.InterpolateSpectrum g.2.2 else g.2.2
    let spec2 := if spec1.NumSpectra > 0 ∧ ¬ self.m_averagedSpectra
      then spec1.Div (spec1.NumSpectra : ℚ) else spec1
    -- get the dark-spectrum and remove it
    let d2 := GetDark env g.2.1 spec2 dark1 none
    let spec3 := spec2.Sub d2.2
    -- evaluate
    let ev := CEvaluation.Evaluate env eval2 spec3 5000
    -- 4. see what the optimum value for the shift turned out to be
    let newResult := ev.2.GetEvaluationResult
    let optimumShift : ℚ := ((newResult.m_ref.get? 0).map (fun x => x.m_shift)).getD 0
    let optimumSqueeze : ℚ := ((newResult.m_ref.get? 0).map (fun x => x.m_squeeze)).getD 0
    -- 5. set the shift for all references to this value
    let fitWindow3 := FindOptimumShiftAndSqueeze_fixed env fitWindow2 optimumShift optimumSqueeze
    some { scan := g.2.1, callerEvalDeleted := true,
           newEval := some (CEvaluation.SetSkySpectrum env (CEvaluation.new fitWindow3) sky2).2 }

/-- Lines 94-99 of `EvaluateScan`: the value returned after the real pass returned
`nSpectra`. -/
def EvaluateScan_return (nSpectra : Int) (self : CScanEvaluation) : Int :=
  if nSpectra = -1 then 0
  else (self.m_result.map (fun r => r.GetEvaluatedNum)).getD 0

/-- Lines 88-99 of `EvaluateScan`: the real pass with the evaluator the local pointer
`eval` points to, and the return. `deleted` says whether that evaluator was deleted
before, `refined` is the evaluator `FindOptimumShiftAndSqueeze` created. -/
def EvaluateScan_real (env : Env) (fuel : Nat) (self : CScanEvaluation)
    (scan : CScanFileHandler) (eval : CEvaluation) (deleted : Bool)
    (refined : Option CEvaluation) (darkSettings : Option CDarkSettings) :
    Option ScanOutcome :=
  match EvaluateOpenedScan env fuel self scan eval darkSettings with
  | none => none
  | some o =>
    some { ret := EvaluateScan_return o.ret o.self, self := o.self, scan := o.scan,
           finalEval := some eval, finalEvalDeleted := deleted, refinedEval := refined }

/-- The window `window2` of `EvaluateScan` (lines 66-72): shift fixed to 0 and squeeze
fixed to 1 for every reference. -/
def EvaluateScan_window2 (adjustedFitWindow : CFitWindow) : CFitWindow :=
  let refs := updateRefs
    (fun x => { x with m_shiftOption := SHIFT_TYPE.SHIFT_FIX,
                       m_squeezeOption := SHIFT_TYPE.SHIFT_FIX,
                       m_shiftValue := 0, m_squeezeValue := 1 })
    adjustedFitWindow.ref adjustedFitWindow.nRef
  { adjustedFitWindow with ref := refs }

/-- Source function `CScanEvaluation::EvaluateScan` (lines 35-100); `none` when the
fuel runs out. An evaluator that was deleted and is used afterwards is taken to hold
what it held when it was deleted. -/
def EvaluateScan (env : Env) (fuel : Nat) (self : CScanEvaluation) (scan : CScanFileHandler)
    (fitWindow : CFitWindow) (darkSettings : Option CDarkSettings) : Option ScanOutcome :=
  let self0 : CScanEvaluation :=
    { self with m_fitLow := fitWindow.fitLow, m_fitHigh := fitWindow.fitHigh }
  let adjustedFitWindow : CFitWindow :=
    { fitWindow with interlaceStep := scan.GetInterlaceSteps,
                     specLength := scan.GetSpectrumLength * scan.GetInterlaceSteps,
                     startChannel := scan.GetStartChannel }
  if adjustedFitWindow.fraunhoferRef.m_path.length > 4 then
    -- 1) find the shift and squeeze from the Fraunhofer spectrum
    match FindOptimumShiftAndSqueeze_Fraunhofer env fuel self0 adjustedFitWindow scan with
    | none => none
    | some (scan1, none) =>
      some { ret := 0, self := self0, scan := scan1, finalEval := none,
             finalEvalDeleted := false, refinedEval := none }
    | some (scan1, some eval) =>
      EvaluateScan_real env fuel self0 scan1 eval false none darkSettings
  else if fitWindow.findOptimalShift = true then
    -- 2) find the optimal shift and squeeze from the spectrum with the highest column
    let eval := CEvaluation.new (EvaluateScan_window2 adjustedFitWindow)
    match EvaluateOpenedScan env fuel self0 scan eval darkSettings with
    | none => none
    | some o =>
      if o.ret = -1 then
        some { ret := 0, self := o.self, scan := o.scan, finalEval := none,
               finalEvalDeleted := false, refinedEval := none }
      else
        match FindOptimumShiftAndSqueeze env fuel o.self adjustedFitWindow o.scan
            (o.self.m_result.getD CScanResult.new) with
        | none => none
        | some f =>
          EvaluateScan_real env fuel o.self f.scan o.eval (o.deleted || f.callerEvalDeleted)
            f.newEval darkSettings
  else
    -- 3) do none of the above
    EvaluateScan_real env fuel self0 scan (CEvaluation.new adjustedFitWindow) false none
      darkSettings

/-- The `while(1)` loop of `EvaluateOpenedScan` in an environment that may change
between passes (user files are read again in every pass): pass number `n` runs in
`envAt n`. -/
def EvaluateOpenedScan_loopAt (envAt : Nat → Env) (self : CScanEvaluation) (sky : CSpectrum)
    (darkSettings : Option CDarkSettings) : Nat → Nat → LoopState → Option (LoopState × Bool)
  | 0, _, _ => none
  | fuel + 1, n, s =>
    match EvaluateOpenedScan_body (envAt n) self sky darkSettings s with
    | LoopStep.next s1 => EvaluateOpenedScan_loopAt envAt self sky darkSettings fuel (n + 1) s1
    | LoopStep.done s1 => some (s1, false)
    | LoopStep.abort s1 => some (s1, true)

/-- The function `EvaluateOpenedScan` in an environment that may change between the
passes of its loop: everything before the loop runs in `envAt 0`, pass number `n` of
the loop (counted from 1) in `envAt n`. -/
def EvaluateOpenedScanAt (envAt : Nat → Env) (fuel : Nat) (self : CScanEvaluation)
    (scan : CScanFileHandler) (eval : CEvaluation) (darkSettings : Option CDarkSettings) :
    Option OpenedScanOutcome :=
  match GetSky (envAt 0) fuel self scan CSpectrum.empty with
  | none => none
  | some (skyCode, scan1, sky0) =>
    if skyCode ≠ RETURN_CODE.SUCCESS then
      some { ret := -1, self := self, scan := scan1, eval := eval, deleted := false }
    else
    let original_sky := sky0
    let darkStep : RETURN_CODE × CSpectrum × CSpectrum :=
      if (envAt 0).m_skyOption ≠ SKY_OPTION.SKY_USER then
        let d := GetDark (envAt 0) scan1 sky0 CSpectrum.empty darkSettings
        (d.1, sky0.Sub d.2, d.2)
      else (RETURN_CODE.SUCCESS, sky0, CSpectrum.empty)
    if darkStep.1 ≠ RETURN_CODE.SUCCESS then
      some { ret := -1, self := self, scan := scan1, eval := eval, deleted := false }
    else
    let sky1 := darkStep.2.1
    let dark := darkStep.2.2
    let divide : Bool := sky1.NumSpectra > 0 ∧ ¬ self.m_averagedSpectra
    let sky := if divide then sky1.Div (sky1.NumSpectra : ℚ) else sky1
    let original_sky1 := if divide
      then original_sky.Div (original_sky.NumSpectra : ℚ) else original_sky
    let eval1 := (CEvaluation.SetSkySpectrum (envAt 0) eval sky).2
    let self1 : CScanEvaluation :=
      { self with m_fitLow := self.m_fitLow - sky.m_info.m_startChannel,
                  m_fitHigh := self.m_fitHigh - sky.m_info.m_startChannel,
                  m_indexOfMostAbsorbingSpectrum := -1 }
    let result0 : CScanResult :=
      { CScanResult.new with m_skySpecInfo := original_sky1.m_info,
                             m_darkSpecInfo := dark.m_info }
    let start : LoopState :=
      { scan := scan1.ResetCounter, eval := eval1, result := result0,
        current := CSpectrum.empty, dark := dark, index := -1, highestColumn := 0,
        mostAbsorbing := -1 }
    match EvaluateOpenedScan_loopAt envAt self1 sky darkSettings fuel 1 start with
    | none => none
    | some (s, aborted) =>
      let self2 : CScanEvaluation :=
        { self1 with m_result := some s.result,
                     m_indexOfMostAbsorbingSpectrum := s.mostAbsorbing }
      some { ret := if aborted then 0 else s.result.GetEvaluatedNum,
             self := self2, scan := s.scan, eval := s.eval, deleted := aborted }

end CScanEvaluation

/-! ## Inputs for the optimum-shift pass -/

/-- The subtractive window with the search for the optimal shift switched on. -/
def optimalShiftWindow : CFitWindow :=
  { subtractiveWindow with findOptimalShift := true }

/-- The sample environment with the sky taken as the average of the good spectra. -/
def averageSkyEnv (outcome : FitOutcome) : Env :=
  { sampleEnv (1 / 100) outcome with m_skyOption := SKY_OPTION.SKY_AVERAGE_OF_GOOD }

/-- The values of a finished fit: column 2 with error 1, shift 3/10, squeeze 101/100
for every reference. -/
def twoFit : FitValues :=
  { stepNum := 1, chiSquare := 0, coefficient := fun _ => 0, delta := 0,
    column := fun _ => 2, columnError := fun _ => 1, shift := fun _ => 3 / 10,
    shiftError := fun _ => 0, squeeze := fun _ => 101 / 100, squeezeError := fun _ => 0 }

/-- The shift and squeeze settings of the references of a window. -/
def shiftSettings (w : CFitWindow) : List (SHIFT_TYPE × SHIFT_TYPE × ℚ × ℚ) :=
  w.ref.map (fun r => (r.m_shiftOption, r.m_squeezeOption, r.m_shiftValue, r.m_squeezeValue))

/-- An environment in which the user file "dark.std" holds a dark spectrum. -/
def darkFileEnv : Env :=
  { sampleEnv (1 / 100) (FitOutcome.fitted fiveFit) with
    ReadSTD := fun path => if path = "dark.std" then some (flatSpectrum 1 1 100 4 1) else none }

/-- The file "dark.std" can be read up to and including the first pass of the loop of
`EvaluateOpenedScan` and not afterwards. -/
def darkFileRemoved (pass : Nat) : Env :=
  if pass ≤ 1 then darkFileEnv else sampleEnv (1 / 100) (FitOutcome.fitted fiveFit)

/-- The values of a finished fit: column 1 with error 1, shift 3/10, squeeze 101/100
for every reference. -/
def oneFit : FitValues :=
  { twoFit with column := fun _ => 1 }

/-- A scan result holding the single evaluation result that a fit of the subtractive
window with the values `v` stores. -/
def resultWith (v : FitValues) : CScanResult :=
  CScanResult.new.AppendResult
    (CEvaluation.storeFit subtractiveWindow CEvaluationResult.empty v)
    (flatSpectrum 2 1 100 4 50).m_info

/-! ## Further definitions: repeated `CheckScanFile` calls, the offset sub-range -/

/-- A sequence of `CheckScanFile` calls on one handler, one call per file: the return
codes in order and the handler after the last call. -/
def CScanFileHandler.CheckScanFile_calls (h : CScanFileHandler) :
    List (List Record) → List RETURN_CODE × CScanFileHandler
  | [] => ([], h)
  | file :: files =>
    ((CScanFileHandler.CheckScanFile h file).1
        :: (CheckScanFile_calls (CScanFileHandler.CheckScanFile h file).2 files).1,
      (CheckScanFile_calls (CScanFileHandler.CheckScanFile h file).2 files).2)

/-- First sample of the sub-range `RemoveOffset` averages over (`offsetFrom`, line 544). -/
def offsetFrom (UV : Bool) : Nat := if UV then 50 else 2

/-- End (exclusive) of the sub-range `RemoveOffset` averages over (`offsetTo`,
line 545). -/
def offsetTo (UV : Bool) : Nat := if UV then 200 else 20

/-- The arithmetic mean of the samples of `spectrum` in the sub-range
`[offsetFrom, offsetTo)`: their sum divided by their number. -/
def offsetMean (spectrum : Nat → ℚ) (UV : Bool) : ℚ :=
  (∑ i in Finset.Ico (offsetFrom UV) (offsetTo UV), spectrum i)
    / ((offsetTo UV : ℚ) - (offsetFrom UV : ℚ))

/-- A ratio-based (`FIT_HP_DIV`) fit window for 20-sample spectra, fit range `[0, 20)`,
no references. -/
def ratioWindow : CFitWindow :=
  { sampleWindow with fitType := FIT_TYPE.FIT_HP_DIV, fitHigh := 20, specLength := 20 }

/-! ## The start of `EvaluateOpenedScan` and its first pass -/

namespace CScanEvaluation

/-- Lines 118-157 of `EvaluateOpenedScan`, everything before the `while(1)` loop: either
the outcome of an early `return -1`, or the scan evaluation, the dark-corrected sky
spectrum and the loop state the loop starts with; `none` when the fuel given to
`GetSky` runs out. -/
def EvaluateOpenedScan_start (env : Env) (fuel : Nat) (self : CScanEvaluation)
    (scan : CScanFileHandler) (eval : CEvaluation) (darkSettings : Option CDarkSettings) :
    Option (OpenedScanOutcome ⊕ (CScanEvaluation × CSpectrum × LoopState)) :=
  -- get the sky spectrum
  match GetSky env fuel self scan CSpectrum.empty with
  | none => none
  | some (skyCode, scan1, sky0) =>
    if skyCode ≠ RETURN_CODE.SUCCESS then
      some (Sum.inl { ret := -1, self := self, scan := scan1, eval := eval, deleted := false })
    else
    let original_sky := sky0
    -- get the dark spectrum and remove it from the sky
    let darkStep : RETURN_CODE × CSpectrum × CSpectrum :=
      if env.m_skyOption ≠ SKY_OPTION.SKY_USER then
        let d := GetDark env scan1 sky0 CSpectrum.empty darkSettings
        (d.1, sky0.Sub d.2, d.2)
      else (RETURN_CODE.SUCCESS, sky0, CSpectrum.empty)
    if darkStep.1 ≠ RETURN_CODE.SUCCESS then
      some (Sum.inl { ret := -1, self := self, scan := scan1, eval := eval, deleted := false })
    else
    let sky1 := darkStep.2.1
    let dark := darkStep.2.2
    let divide : Bool := sky1.NumSpectra > 0 ∧ ¬ self.m_averagedSpectra
    let sky := if divide then sky1.Div (sky1.NumSpectra : ℚ) else sky1
    let original_sky1 := if divide
      then original_sky.Div (original_sky.NumSpectra : ℚ) else original_sky
    -- tell the evaluator which sky spectrum to use
    let eval1 := (CEvaluation.SetSkySpectrum env eval sky).2
    -- adjust the fit-low and fit-high parameters according to the spectra
    let self1 : CScanEvaluation :=
      { self with m_fitLow := self.m_fitLow - sky.m_info.m_startChannel,
                  m_fitHigh := self.m_fitHigh - sky.m_info.m_startChannel,
                  m_indexOfMostAbsorbingSpectrum := -1 }
    let result0 : CScanResult :=
      { CScanResult.new with m_skySpecInfo := original_sky1.m_info,
                             m_darkSpecInfo := dark.m_info }
    some (Sum.inr (self1, sky,
      { scan := scan1.ResetCounter, eval := eval1, result := result0,
        current := CSpectrum.empty, dark := dark, index := -1, highestColumn := 0,
        mostAbsorbing := -1 }))

/-- The dark-corrected sky spectrum of `EvaluateOpenedScan` and the outcome of the
first pass through its loop (`none` when the function returns before the loop). In a
loop state that goes on after an evaluation, `current` is the spectrum that was handed
to `CEvaluation::Evaluate`. -/
def EvaluateOpenedScan_firstPass (env : Env) (fuel : Nat) (self : CScanEvaluation)
    (scan : CScanFileHandler) (eval : CEvaluation) (darkSettings : Option CDarkSettings) :
    Option (CSpectrum × LoopStep) :=
  match EvaluateOpenedScan_start env fuel self scan eval darkSettings with
  | some (Sum.inr (self1, sky, start)) =>
    some (sky, EvaluateOpenedScan_body env self1 sky darkSettings start)
  | _ => none

end CScanEvaluation

/-! ## Inputs: Fraunhofer reference paths of five and six characters -/

/-- The window `fraunhoferWindow` with the Fraunhofer reference stored under the given
path. -/
def fraunhoferWindowAt (path : String) : CFitWindow :=
  { fraunhoferWindow with fraunhoferRef := { solarReference with m_path := path } }

/-! ## `Common`: dates -/

/-- Conversion of an `int` value to `unsigned short` (16 bits): the value modulo 65536. -/
def toUShort (x : Int) : Nat := (x % 65536).toNat

namespace Common

/-- The loop `while (*month < 1) { *year -= 1; *month += 12; }` of `DecreaseDate`
(lines 357-360 and 365-368): year and month when it is left; `none` when the fuel runs
out. -/
def DecreaseDate_month : Nat → Nat → Nat → Option (Nat × Nat)
  | 0, _, _ => none
  | fuel + 1, year, month =>
    if month < 1 then
      DecreaseDate_month fuel (toUShort ((year : Int) - 1)) (toUShort ((month : Int) + 12))
    else some (year, month)

/-- The loop `while (*day < 1)` of `DecreaseDate` (lines 354-363): year, month and day
when it is left; `none` when the fuel runs out. -/
def DecreaseDate_day (DaysInMonth : Nat → Nat → Int) :
    Nat → Nat → Nat → Nat → Option (Nat × Nat × Nat)
  | 0, _, _, _ => none
  | fuel + 1, year, month, day =>
    if day < 1 then
      -- go the month before
      match DecreaseDate_month fuel year (toUShort ((month : Int) - 1)) with
      | none => none
      | some (year1, month1) =>
        DecreaseDate_day DaysInMonth fuel year1 month1
          (toUShort ((day : Int) + DaysInMonth year1 month1))
    else some (year, month, day)

/-- The loop `while (*month > 12) { *year += 1; *month -= 12; }` of `IncreaseDate`
(lines 402-405 and 408-411). -/
def IncreaseDate_month : Nat → Nat → Nat → Option (Nat × Nat)
  | 0, _, _ => none
  | fuel + 1, year, month =>
    if month > 12 then
      IncreaseDate_month fuel (toUShort ((year : Int) + 1)) (toUShort ((month : Int) - 12))
    else some (year, month)

/-- The loop `while (*day > DaysInMonth(*year, *month))` of `IncreaseDate`
(lines 398-406). -/
def IncreaseDate_day (DaysInMonth : Nat → Nat → Int) :
    Nat → Nat → Nat → Nat → Option (Nat × Nat × Nat)
  | 0, _, _, _ => none
  | fuel + 1, year, month, day =>
    if (day : Int) > DaysInMonth year month then
      -- go the next month
      match IncreaseDate_month fuel year (toUShort ((month : Int) + 1)) with
      | none => none
      | some (year1, month1) =>
        IncreaseDate_day DaysInMonth fuel year1 month1
          (toUShort ((day : Int) - DaysInMonth year month))
    else some (year, month, day)

mutual

/-- Source function `Common::DecreaseDate` (lines 329-371). The date is the array
`date[3]` of `unsigned short` as (year, month, day); `DaysInMonth` is the helper of
that name, which is not among the sources. The result is the return code and the date
afterwards; `none` when the fuel (shared by the loops and the nested call) runs out. -/
def DecreaseDate (DaysInMonth : Nat → Nat → Int) :
    Nat → Nat × Nat × Nat → Int → Option (RETURN_CODE × (Nat × Nat × Nat))
  | 0, _, _ => none
  | fuel + 1, date, nDays =>
    -- check for illegal dates
    if date.2.1 < 1 ∨ date.2.1 > 12 then some (RETURN_CODE.FAIL, date)
    else if date.2.2 < 1 ∨ (date.2.2 : Int) > DaysInMonth date.1 date.2.1 then
      some (RETURN_CODE.FAIL, date)
    -- if we should not change the date, return without doing anything
    else if nDays = 0 then some (RETURN_CODE.SUCCESS, date)
    else
      -- check if we instead should increase the date (the call's result is not returned)
      match (if nDays < 0 then (IncreaseDate DaysInMonth fuel date (-nDays)).map (fun r => r.2)
             else some date) with
      | none => none
      | some date1 =>
        -- reduce the day of the month
        match DecreaseDate_day DaysInMonth fuel date1.1 date1.2.1
            (toUShort ((date1.2.2 : Int) - nDays)) with
        | none => none
        | some (year, month, day) =>
          -- check the month
          match DecreaseDate_month fuel year month with
          | none => none
          | some (year1, month1) => some (RETURN_CODE.SUCCESS, (year1, month1, day))

/-- Source function `Common::IncreaseDate` (lines 373-414), modelled as `DecreaseDate`
is. -/
def IncreaseDate (DaysInMonth : Nat → Nat → Int) :
    Nat → Nat × Nat × Nat → Int → Option (RETURN_CODE × (Nat × Nat × Nat))
  | 0, _, _ => none
  | fuel + 1, date, nDays =>
    -- check for illegal dates
    if date.2.1 < 1 ∨ date.2.1 > 12 then some (RETURN_CODE.FAIL, date)
    else if date.2.2 < 1 ∨ (date.2.2 : Int) > DaysInMonth date.1 date.2.1 then
      some (RETURN_CODE.FAIL, date)
    -- if we should not change the date, return without doing anything
    else if nDays = 0 then some (RETURN_CODE.SUCCESS, date)
    else
      -- check if we instead should decrease the date (the call's result is not returned)
      match (if nDays < 0 then (DecreaseDate DaysInMonth fuel date (-nDays)).map (fun r => r.2)
             else some date) with
      | none => none
      | some date1 =>
        -- increase the day of the month
        match IncreaseDate_day DaysInMonth fuel date1.1 date1.2.1
            (toUShort ((date1.2.2 : Int) + nDays)) with
        | none => none
        | some (year, month, day) =>
          -- check the month
          match IncreaseDate_month fuel year month with
          | none => none
          | some (year1, month1) => some (RETURN_CODE.SUCCESS, (year1, month1, day))

end

end Common

/-- The days of the months of the Gregorian calendar, standing in for the helper
`Common::DaysInMonth(year, month)`; 0 for a month outside 1..12. -/
def gregorianDaysInMonth (year month : Nat) : Int :=
  if month = 2 then
    (if year % 4 = 0 ∧ (year % 100 ≠ 0 ∨ year % 400 = 0) then 29 else 28)
  else if month = 4 ∨ month = 6 ∨ month = 9 ∨ month = 11 then 30
  else if 1 ≤ month ∧ month ≤ 12 then 31
  else 0

/-! ## `Common`: strings -/

/-- The members of `novac::CString` that the embedded functions call and whose
implementation is not among the sources (the header under `src/` declares only
`GetLength`, `Format`, `Left` and `Right`). -/
structure CStringOps where
  /-- Source function `CString::Format(format, ...)` called with a format string and no
  further argument: the text the format string produces. -/
  Format : String → String
  /-- Source function `CString::Compare`: negative, zero or positive. -/
  Compare : String → String → Int
  /-- Source function `CString::ReverseFind(ch)`. -/
  ReverseFind : String → Char → Int
  /-- Source function `CString::Right(nChars)`. -/
  Right : String → Int → String
  /-- Source function `CString::MakeUpper()`. -/
  MakeUpper : String → String

/-- The C library function `strstr` on character lists: does `needle` occur in
`haystack`? -/
def strstr_chars : List Char → List Char → Bool
  | [], needle => needle.isEmpty
  | c :: cs, needle => needle.isPrefixOf (c :: cs) || strstr_chars cs needle

/-- The C library function `strstr(haystack, needle)`, as the truth value of its result
(a null pointer is false). -/
def strstr (haystack needle : String) : Bool := strstr_chars haystack.data needle.data

namespace Common

/-- Source function `Common::GetFileName` (lines 615-621). -/
def GetFileName (ops : CStringOps) (fileName : String) : String :=
  -- look for slashes in the path
  let position := max (ops.ReverseFind fileName '\\') (ops.ReverseFind fileName '/')
  let length : Int := (fileName.length : Int)
  ops.Right fileName (length - position - 1)

/-- The array `spc[]` of `GuessSpecieName` (line 589). -/
def GuessSpecieName_spc : List String :=
  ["SO2", "NO2", "O3", "O4", "HCHO", "RING", "H2O", "CLO", "BRO", "CHOCHO", "Glyoxal",
   "Formaldehyde", "HONO", "NO3"]

/-- The constant `nSpecies` of `GuessSpecieName` (line 590). -/
def GuessSpecieName_nSpecies : Nat := 12

/-- Source function `Common::GuessSpecieName` (lines 587-609): the output parameter
`specie` afterwards. -/
def GuessSpecieName (ops : CStringOps) (fileName : String) : String :=
  let index := ops.ReverseFind fileName '\\'
  if index = 0 then ""
  else
    let fil := ops.MakeUpper (ops.Right fileName ((fileName.length : Int) - index - 1))
    -- for (int i = 0; i < nSpecies; ++i) if (strstr(fil, spc[i])) return spc[i]
    match (GuessSpecieName_spc.take GuessSpecieName_nSpecies).find? (fun s => strstr fil s) with
    | some s => s
    | none => ""

/-- The value `comparison` of `MergeLists` (lines 499-512) for the two strings
`fullName1` and `fullName2`: when `files` is set, each is formatted into `name1`,
`name2` and the file names of those are compared; otherwise the strings themselves. -/
def MergeLists_comparison (ops : CStringOps) (files : Bool) (fullName1 fullName2 : String) :
    Int :=
  if files then
    ops.Compare (GetFileName ops (ops.Format fullName1)) (GetFileName ops (ops.Format fullName2))
  else ops.Compare fullName1 fullName2

/-- Source function `Common::MergeLists` (lines 481-561): the output list `result`. The
three loops advance through the two lists; the recursion is on what is left of them.
Every entry goes through `fullName.Format(entry)`, with the entry as the format string,
before it is compared and added to the result. -/
def MergeLists (ops : CStringOps) (files ascending : Bool) :
    List String → List String → List String
  -- 3. out of elements in list 1
  | [], list2 => list2.map ops.Format
  -- 2. out of elements in list 2
  | entry1 :: rest1, [] => (entry1 :: rest1).map ops.Format
  -- 1. as long as there are elements in both lists
  | entry1 :: rest1, entry2 :: rest2 =>
    let fullName1 := ops.Format entry1
    let fullName2 := ops.Format entry2
    let comparison := MergeLists_comparison ops files fullName1 fullName2
    if comparison = 0 then
      fullName1 :: MergeLists ops files ascending rest1 (entry2 :: rest2)
    else if comparison < 0 then
      if ascending then fullName1 :: MergeLists ops files ascending rest1 (entry2 :: rest2)
      else fullName2 :: MergeLists ops files ascending (entry1 :: rest1) rest2
    else
      if ascending then fullName2 :: MergeLists ops files ascending (entry1 :: rest1) rest2
      else fullName1 :: MergeLists ops files ascending rest1 (entry2 :: rest2)
termination_by list1 list2 => list1.length + list2.length

/-- Source function `Common::Sort` (lines 450-479): the list `strings` afterwards. (The
name `Sort` is reserved in Lean.) -/
def SortStrings (ops : CStringOps) (strings : List String) (files ascending : Bool) : List String :=
  if strings.length ≤ 1 then strings
  else
    -- the first half and the second half of the list
    let left := strings.take (strings.length / 2)
    let right := strings.drop (strings.length / 2)
    -- sort each of the two halves and merge the two
    MergeLists ops files ascending (SortStrings ops left files ascending)
      (SortStrings ops right files ascending)
termination_by strings.length
decreasing_by
  all_goals simp_wf
  all_goals omega

end Common

/-- Position of the last occurrence of `ch` in a character list, counted from `i`;
`found` when there is none. -/
def reverseFindFrom (ch : Char) : List Char → Nat → Int → Int
  | [], _, found => found
  | c :: cs, i, found => reverseFindFrom ch cs (i + 1) (if c = ch then (i : Int) else found)

/-- What `printf` makes of a format string when no further argument is given: the
conversion "%%" produces one "%", every other character is copied. (A "%" that starts
any other conversion reads an argument that is not there, which is undefined; it is
copied here.) -/
def formatChars : List Char → List Char
  | [] => []
  | [c] => [c]
  | c :: d :: cs =>
    if c = '%' ∧ d = '%' then '%' :: formatChars cs else c :: formatChars (d :: cs)

/-- A sample implementation of the `CString` members: `Format` as `printf` without
arguments, comparison by the order of the strings, `ReverseFind` as the position of the
last occurrence (-1 when there is none), `Right` as the last `nChars` characters,
`MakeUpper` on the letters a to z. -/
def cstringOps : CStringOps :=
  { Format := fun s => String.mk (formatChars s.data),
    Compare := fun a b => if a < b then -1 else if a = b then 0 else 1,
    ReverseFind := fun s ch => reverseFindFrom ch s.data 0 (-1),
    Right := fun s n => if n ≤ 0 then "" else String.mk (s.data.drop (s.data.length - n.toNat)),
    MakeUpper := fun s => String.mk (s.data.map Char.toUpper) }

/-! # Theorems -/

/-! ## Basic facts about the reader -/

theorem updateTimes_cursor (h : CScanFileHandler) (s : CSpectrum) :
    (CScanFileHandler.updateTimes h s).m_specReadSoFarNum = h.m_specReadSoFarNum := by
  simp only [CScanFileHandler.updateTimes]
  split_ifs <;> rfl

theorem GetNextSpectrum_buffer_end (env : Env) (h : CScanFileHandler) (spec : CSpectrum)
    (hb : h.m_spectrumBufferNum = h.m_specNum)
    (hc : h.m_specReadSoFarNum ≥ h.m_spectrumBufferNum) :
    CScanFileHandler.GetNextSpectrum env h spec
      = (0, { h with m_lastError := some SpecError.ERROR_SPECTRUM_NOT_FOUND,
                     m_specReadSoFarNum := h.m_specReadSoFarNum + 1 }, spec) := by
  simp only [CScanFileHandler.GetNextSpectrum, if_pos hb, if_pos hc]

theorem GetNextSpectrum_buffer_read (env : Env) (h : CScanFileHandler) (spec : CSpectrum)
    (hb : h.m_spectrumBufferNum = h.m_specNum)
    (hc : ¬ h.m_specReadSoFarNum ≥ h.m_spectrumBufferNum) :
    CScanFileHandler.GetNextSpectrum env h spec
      = (1, CScanFileHandler.updateTimes
              { h with m_specReadSoFarNum := h.m_specReadSoFarNum + 1 }
              (CScanFileHandler.GetAt h.m_spectrumBuffer h.m_specReadSoFarNum),
            withModel env (CScanFileHandler.GetAt h.m_spectrumBuffer h.m_specReadSoFarNum)) := by
  simp only [CScanFileHandler.GetNextSpectrum, if_pos hb, if_neg hc, withModel]

theorem GetNextSpectrum_file_error (env : Env) (h : CScanFileHandler) (spec : CSpectrum)
    (e : SpecError) (hb : ¬ h.m_spectrumBufferNum = h.m_specNum)
    (hr : ReadSpectrum h.m_file h.m_specReadSoFarNum = Except.error e) :
    CScanFileHandler.GetNextSpectrum env h spec
      = (0, { h with m_lastError := some e,
                     m_specReadSoFarNum := h.m_specReadSoFarNum + 1 }, spec) := by
  simp only [CScanFileHandler.GetNextSpectrum, if_neg hb, hr]

theorem GetNextSpectrum_file_read (env : Env) (h : CScanFileHandler) (spec : CSpectrum)
    (s : CSpectrum) (hb : ¬ h.m_spectrumBufferNum = h.m_specNum)
    (hr : ReadSpectrum h.m_file h.m_specReadSoFarNum = Except.ok s) :
    CScanFileHandler.GetNextSpectrum env h spec
      = (1, CScanFileHandler.updateTimes
              { h with m_specReadSoFarNum := h.m_specReadSoFarNum + 1 } s,
            withModel env s) := by
  simp only [CScanFileHandler.GetNextSpectrum, if_neg hb, hr, withModel]

/-- C4. Every call of `GetNextSpectrum` moves the cursor `m_specReadSoFarNum` forward by
exactly one, whatever it returns; and in buffered mode (`m_spectrumBufferNum = m_specNum`)
a call made with the cursor at or past `m_specNum` returns 0 with
`m_lastError = ERROR_SPECTRUM_NOT_FOUND`. -/
theorem C4_GetNextSpectrum_advances_cursor (env : Env) (h : CScanFileHandler)
    (spec : CSpectrum) :
    (CScanFileHandler.GetNextSpectrum env h spec).2.1.m_specReadSoFarNum
        = h.m_specReadSoFarNum + 1
      ∧ (h.m_spectrumBufferNum = h.m_specNum → h.m_specReadSoFarNum ≥ h.m_specNum →
          (CScanFileHandler.GetNextSpectrum env h spec).1 = 0
            ∧ (CScanFileHandler.GetNextSpectrum env h spec).2.1.m_lastError
                = some SpecError.ERROR_SPECTRUM_NOT_FOUND) := by
  constructor
  · by_cases hb : h.m_spectrumBufferNum = h.m_specNum
    · by_cases hc : h.m_specReadSoFarNum ≥ h.m_spectrumBufferNum
      · rw [GetNextSpectrum_buffer_end env h spec hb hc]
      · rw [GetNextSpectrum_buffer_read env h spec hb hc]
        exact updateTimes_cursor _ _
    · cases hr : ReadSpectrum h.m_file h.m_specReadSoFarNum with
      | error e => rw [GetNextSpectrum_file_error env h spec e hb hr]
      | ok s =>
        rw [GetNextSpectrum_file_read env h spec s hb hr]
        exact updateTimes_cursor _ _
  · intro hb hc
    have hc2 : h.m_specReadSoFarNum ≥ h.m_spectrumBufferNum := by rw [hb]; exact hc
    rw [GetNextSpectrum_buffer_end env h spec hb hc2]
    exact ⟨rfl, rfl⟩

/-- C8. `Ignore` answers `true` exactly when the largest value of the spectrum in the fit
region minus the smallest value of the dark in the fit region is strictly below the
dynamic range times `m_minimumSaturationInFitRegion`; when the difference equals that
threshold the spectrum is not ignored. -/
theorem C8_Ignore_iff_below_threshold (env : Env) (spec dark : CSpectrum)
    (fitLow fitHigh : Int) :
    (CScanEvaluation.Ignore env spec dark fitLow fitHigh = true ↔
        env.MaxValue spec fitLow fitHigh - env.MinValue dark fitLow fitHigh
          < env.GetMaxIntensity spec.m_info.m_specModel * env.m_minimumSaturationInFitRegion)
      ∧ (env.MaxValue spec fitLow fitHigh - env.MinValue dark fitLow fitHigh
          = env.GetMaxIntensity spec.m_info.m_specModel * env.m_minimumSaturationInFitRegion →
        CScanEvaluation.Ignore env spec dark fitLow fitHigh = false) := by
  constructor
  · simp only [CScanEvaluation.Ignore]
    split_ifs with hlt
    · simp [hlt]
    · simp [hlt]
  · intro heq
    simp only [CScanEvaluation.Ignore]
    rw [heq]
    simp

/-! ## The dark spectrum -/

theorem GetDark_measured (env : Env) (scan : CScanFileHandler) (spec dark : CSpectrum)
    (ds : Option CDarkSettings)
    (hm : ds = none ∨ ∃ d, ds = some d ∧ (d.m_darkSpecOption = DARK_SPEC_OPTION.MEASURE
      ∨ d.m_darkSpecOption = DARK_SPEC_OPTION.MODEL_SOMETIMES))
    (hHas : scan.m_fHasDark = true) (hlen : scan.m_dark.m_length ≠ 0)
    (hil : ¬ scan.m_dark.m_info.m_interlaceStep > 1) :
    CScanEvaluation.GetDark env scan spec dark ds
      = (RETURN_CODE.SUCCESS,
          if scan.m_dark.NumSpectra ≠ spec.NumSpectra
          then scan.m_dark.Mult ((spec.NumSpectra : ℚ) / (scan.m_dark.NumSpectra : ℚ))
          else scan.m_dark) := by
  rcases hm with h0 | ⟨d, h1, h2⟩
  · subst h0
    simp [CScanEvaluation.GetDark, CScanFileHandler.GetDark, hHas, hlen, hil]
  · subst h1
    rcases h2 with h2 | h2 <;>
      simp [CScanEvaluation.GetDark, CScanFileHandler.GetDark, hHas, hlen, hil, h2]

/-- C9. Under the measured dark strategy (`darkSettings` null, `MEASURE` or
`MODEL_SOMETIMES`), for a reader holding a non-empty, non-interlaced dark record of
`Nd > 0` exposures and a measurement of `Ns` exposures (in particular `Ns > 0`),
`GetDark` returns `SUCCESS` and every sample of the resolved dark is the raw dark sample
times `Ns / Nd`: the raw sample itself when `Ns = Nd`, exactly twice the raw sample for
`Nd = 5`, `Ns = 10`. -/
theorem C9_measured_dark_scaled_by_exposures (env : Env) (scan : CScanFileHandler)
    (spec dark : CSpectrum) (ds : Option CDarkSettings)
    (hm : ds = none ∨ ∃ d, ds = some d ∧ (d.m_darkSpecOption = DARK_SPEC_OPTION.MEASURE
      ∨ d.m_darkSpecOption = DARK_SPEC_OPTION.MODEL_SOMETIMES))
    (hHas : scan.m_fHasDark = true) (hlen : scan.m_dark.m_length ≠ 0)
    (hil : ¬ scan.m_dark.m_info.m_interlaceStep > 1)
    (hNd : 0 < scan.m_dark.NumSpectra) :
    (CScanEvaluation.GetDark env scan spec dark ds).1 = RETURN_CODE.SUCCESS
      ∧ (CScanEvaluation.GetDark env scan spec dark ds).2.m_length = scan.m_dark.m_length
      ∧ (∀ i, i < scan.m_dark.m_length →
          (CScanEvaluation.GetDark env scan spec dark ds).2.m_data i
            = scan.m_dark.m_data i * ((spec.NumSpectra : ℚ) / (scan.m_dark.NumSpectra : ℚ)))
      ∧ (spec.NumSpectra = scan.m_dark.NumSpectra → ∀ i, i < scan.m_dark.m_length →
          (CScanEvaluation.GetDark env scan spec dark ds).2.m_data i = scan.m_dark.m_data i)
      ∧ (scan.m_dark.NumSpectra = 5 → spec.NumSpectra = 10 → ∀ i, i < scan.m_dark.m_length →
          (CScanEvaluation.GetDark env scan spec dark ds).2.m_data i
            = 2 * scan.m_dark.m_data i) := by
  have hNd0 : (scan.m_dark.NumSpectra : ℚ) ≠ 0 := by
    have : scan.m_dark.NumSpectra ≠ 0 := ne_of_gt hNd
    exact_mod_cast this
  have key : ∀ i, i < scan.m_dark.m_length →
      (CScanEvaluation.GetDark env scan spec dark ds).2.m_data i
        = scan.m_dark.m_data i * ((spec.NumSpectra : ℚ) / (scan.m_dark.NumSpectra : ℚ)) := by
    intro i hi
    rw [GetDark_measured env scan spec dark ds hm hHas hlen hil]
    by_cases hne : scan.m_dark.NumSpectra ≠ spec.NumSpectra
    · simp [hne, CSpectrum.Mult, hi]
    · have heq : scan.m_dark.NumSpectra = spec.NumSpectra := not_not.mp hne
      simp [heq]
      rw [← heq, div_self hNd0, mul_one]
  refine ⟨?_, ?_, key, ?_, ?_⟩
  · rw [GetDark_measured env scan spec dark ds hm hHas hlen hil]
  · rw [GetDark_measured env scan spec dark ds hm hHas hlen hil]
    by_cases hne : scan.m_dark.NumSpectra ≠ spec.NumSpectra
    · simp [hne, CSpectrum.Mult]
    · simp [hne]
  · intro heq i hi
    rw [key i hi, heq, div_self hNd0, mul_one]
  · intro h5 h10 i hi
    rw [key i hi, h5, h10]
    norm_num
    ring

/-- C10. Under `MODEL_ALWAYS` with the offset taken from the container and no interlace,
`GetDark` returns `SUCCESS` and sample `i` of the dark is
`offset_i * (Ns / No) + (dc_i - offset_i * (Ndc / No)) * ((Ns * Ts) / (Ndc * Tdc))`
when the dark-current (of the same length) comes from the container, and
`offset_i * (Ns / No) + dc_i * ((Ns * Ts) / (Ndc * Tdc))` when the dark-current (of the
same length) is user-supplied. `Ns`, `Ts` are exposure count and exposure time of the
measurement, `No` the exposure count of the offset, `Ndc`, `Tdc` those of the
dark-current. -/
theorem C10_modelled_dark_formula (env : Env) (scan : CScanFileHandler)
    (spec dark : CSpectrum) (ds : CDarkSettings)
    (hopt : ds.m_darkSpecOption = DARK_SPEC_OPTION.MODEL_ALWAYS)
    (hoff : ds.m_offsetOption = DARK_MODEL_OPTION.MEASURED)
    (hil : ¬ scan.m_offset.m_info.m_interlaceStep > 1) :
    (ds.m_darkCurrentOption = DARK_MODEL_OPTION.MEASURED →
      scan.m_offset.m_length = scan.m_darkCurrent.m_length →
      (CScanEvaluation.GetDark env scan spec dark (some ds)).1 = RETURN_CODE.SUCCESS
        ∧ ∀ i, i < scan.m_offset.m_length →
          (CScanEvaluation.GetDark env scan spec dark (some ds)).2.m_data i
            = scan.m_offset.m_data i * ((spec.NumSpectra : ℚ) / (scan.m_offset.NumSpectra : ℚ))
              + (scan.m_darkCurrent.m_data i
                  - scan.m_offset.m_data i
                      * ((scan.m_darkCurrent.NumSpectra : ℚ) / (scan.m_offset.NumSpectra : ℚ)))
                * (((spec.NumSpectra : ℚ) * (spec.ExposureTime : ℚ))
                    / ((scan.m_darkCurrent.NumSpectra : ℚ)
                        * (scan.m_darkCurrent.ExposureTime : ℚ))))
      ∧ (∀ dc : CSpectrum, ds.m_darkCurrentOption = DARK_MODEL_OPTION.USER_SUPPLIED →
          ¬ ds.m_darkCurrentSpec.length < 3 →
          CScanEvaluation.readUserSpectrum env ds.m_darkCurrentSpec = some dc →
          scan.m_offset.m_length = dc.m_length →
          (CScanEvaluation.GetDark env scan spec dark (some ds)).1 = RETURN_CODE.SUCCESS
            ∧ ∀ i, i < scan.m_offset.m_length →
              (CScanEvaluation.GetDark env scan spec dark (some ds)).2.m_data i
                = scan.m_offset.m_data i
                    * ((spec.NumSpectra : ℚ) / (scan.m_offset.NumSpectra : ℚ))
                  + dc.m_data i
                    * (((spec.NumSpectra : ℚ) * (spec.ExposureTime : ℚ))
                        / ((dc.NumSpectra : ℚ) * (dc.ExposureTime : ℚ)))) := by
  constructor
  · intro hdc hlen
    have hlen2 : scan.m_darkCurrent.m_length = scan.m_offset.m_length := hlen.symm
    constructor
    · simp [CScanEvaluation.GetDark, hopt, hoff, hdc]
    · intro i hi
      have hi2 : i < scan.m_darkCurrent.m_length := by rw [hlen2]; exact hi
      simp [CScanEvaluation.GetDark, hopt, hoff, hdc, CScanEvaluation.modelDark,
        CScanFileHandler.GetOffset, CScanFileHandler.GetDarkCurrent, CSpectrum.Add,
        CSpectrum.Sub, CSpectrum.Mult, CSpectrum.Clear, CSpectrum.empty, CSpectrum.NumSpectra,
        CSpectrum.ExposureTime, hil, hi, hi2, hlen2]
  · intro dc hdc hpath hread hlen
    have hlen2 : dc.m_length = scan.m_offset.m_length := hlen.symm
    constructor
    · simp [CScanEvaluation.GetDark, hopt, hoff, hdc, hpath, hread]
    · intro i hi
      have hi2 : i < dc.m_length := by rw [hlen2]; exact hi
      simp [CScanEvaluation.GetDark, hopt, hoff, hdc, hpath, hread, CScanEvaluation.modelDark,
        CScanFileHandler.GetOffset, CSpectrum.Add,
        CSpectrum.Sub, CSpectrum.Mult, CSpectrum.Clear, CSpectrum.empty, CSpectrum.NumSpectra,
        CSpectrum.ExposureTime, hil, hi, hi2, hlen2]

/-! ## Reading a scan that starts with sky and dark -/

theorem findName_absent (s : String) (l : List Record) (i : Nat)
    (h : ∀ r ∈ l, r.name ≠ s) : findName s l i = -1 := by
  induction l generalizing i with
  | nil => rfl
  | cons r rs ih =>
    simp only [findName]
    rw [if_neg (h r (List.mem_cons_self _ _))]
    exact ih _ (fun r1 hr1 => h r1 (List.mem_cons_of_mem _ hr1))

theorem readIntoBuffer_all (l : List Record) (buf : List CSpectrum)
    (h : ∀ r ∈ l, r.decodes = true) :
    readIntoBuffer l buf = (none, l.map Record.spectrum ++ buf.drop l.length) := by
  induction l generalizing buf with
  | nil => simp [readIntoBuffer]
  | cons r rs ih =>
    have hr : r.decodes = true := h r (List.mem_cons_self _ _)
    have hrs : ∀ x ∈ rs, x.decodes = true := fun x hx => h x (List.mem_cons_of_mem _ hx)
    cases hc : r.content with
    | error e => simp [Record.decodes, hc] at hr
    | ok s =>
      simp only [readIntoBuffer, hc, ih buf.tail hrs]
      cases buf with
      | nil => simp [Record.spectrum, hc]
      | cons b bs => simp [Record.spectrum, hc]

theorem ReadSpectrum_at (file : List Record) (k : Nat) (r : Record)
    (h : file.get? k = some r) : ReadSpectrum file (k : Int) = r.content := by
  have hk : ¬ ((k : Int) < 0) := by omega
  simp only [ReadSpectrum, if_neg hk, Int.toNat_ofNat, h]

theorem ReadSpectrum_past (file : List Record) (k : Nat) (h : file.length ≤ k) :
    ReadSpectrum file (k : Int) = Except.error SpecError.ERROR_SPECTRUM_NOT_FOUND := by
  have hk : ¬ ((k : Int) < 0) := by omega
  have hg : file.get? k = none := List.get?_eq_none.mpr h
  simp only [ReadSpectrum, if_neg hk, Int.toNat_ofNat, hg]

theorem content_of_decodes (r : Record) (h : r.decodes = true) :
    r.content = Except.ok r.spectrum := by
  cases hc : r.content with
  | error e => simp [Record.decodes, hc] at h
  | ok s => simp [Record.spectrum, hc]

theorem ReadsFrom_updateTimes (file : List Record) (h : CScanFileHandler) (k : Nat)
    (s : CSpectrum) (hr : ReadsFrom file h k) :
    ReadsFrom file (CScanFileHandler.updateTimes h s) k := by
  simp only [CScanFileHandler.updateTimes]
  split_ifs <;> exact hr

theorem GetNextSpectrum_inside (env : Env) (file : List Record) (h : CScanFileHandler)
    (k : Nat) (spec : CSpectrum) (r : Record) (hr : ReadsFrom file h k)
    (hget : file.get? k = some r) (hdec : r.decodes = true) :
    (CScanFileHandler.GetNextSpectrum env h spec).1 = 1
      ∧ (CScanFileHandler.GetNextSpectrum env h spec).2.2 = withModel env r.spectrum
      ∧ ReadsFrom file (CScanFileHandler.GetNextSpectrum env h spec).2.1 (k + 1) := by
  obtain ⟨hfile, hnum, hbuf, hcur⟩ := hr
  have hklt : k < file.length := by
    rcases Nat.lt_or_ge k file.length with hlt | hge
    · exact hlt
    · rw [List.get?_eq_none.mpr hge] at hget
      cases hget
  have hstep : ReadsFrom file { h with m_specReadSoFarNum := h.m_specReadSoFarNum + 1 }
      (k + 1) := by
    refine ⟨hfile, hnum, hbuf, ?_⟩
    show h.m_specReadSoFarNum + 1 = ((k + 1 : Nat) : Int)
    rw [hcur]
    push_cast
    rfl
  rcases hbuf with ⟨hbn, hbuffer⟩ | ⟨hlong, hbn⟩
  · have hb : h.m_spectrumBufferNum = h.m_specNum := by rw [hbn, hnum]
    have hc : ¬ h.m_specReadSoFarNum ≥ h.m_spectrumBufferNum := by
      rw [hcur, hbn]
      omega
    have hat : CScanFileHandler.GetAt h.m_spectrumBuffer h.m_specReadSoFarNum = r.spectrum := by
      have hk0 : ¬ ((k : Int) < 0) := by omega
      rw [hcur, hbuffer]
      simp only [CScanFileHandler.GetAt, if_neg hk0, Int.toNat_ofNat]
      have hget2 : file[k]? = some r := by rw [← List.get?_eq_getElem?]; exact hget
      simp [List.getD, hget2]
    rw [GetNextSpectrum_buffer_read env h spec hb hc, hat]
    exact ⟨rfl, rfl, ReadsFrom_updateTimes file _ (k + 1) _ hstep⟩
  · have hb : ¬ h.m_spectrumBufferNum = h.m_specNum := by
      rw [hbn, hnum]
      omega
    have hread : ReadSpectrum h.m_file h.m_specReadSoFarNum = Except.ok r.spectrum := by
      rw [hfile, hcur, ReadSpectrum_at file k r hget]
      exact content_of_decodes r hdec
    rw [GetNextSpectrum_file_read env h spec r.spectrum hb hread]
    exact ⟨rfl, rfl, ReadsFrom_updateTimes file _ (k + 1) _ hstep⟩

theorem GetNextSpectrum_past_end (env : Env) (file : List Record) (h : CScanFileHandler)
    (k : Nat) (spec : CSpectrum) (hr : ReadsFrom file h k) (hk : file.length ≤ k) :
    (CScanFileHandler.GetNextSpectrum env h spec).1 = 0
      ∧ (CScanFileHandler.GetNextSpectrum env h spec).2.2 = spec
      ∧ ReadsFrom file (CScanFileHandler.GetNextSpectrum env h spec).2.1 (k + 1) := by
  obtain ⟨hfile, hnum, hbuf, hcur⟩ := hr
  have hnext : h.m_specReadSoFarNum + 1 = ((k + 1 : Nat) : Int) := by
    rw [hcur]
    push_cast
    rfl
  rcases hbuf with ⟨hbn, hbuffer⟩ | ⟨hlong, hbn⟩
  · have hb : h.m_spectrumBufferNum = h.m_specNum := by rw [hbn, hnum]
    have hc : h.m_specReadSoFarNum ≥ h.m_spectrumBufferNum := by
      rw [hcur, hbn]
      omega
    rw [GetNextSpectrum_buffer_end env h spec hb hc]
    exact ⟨rfl, rfl, hfile, hnum, Or.inl ⟨hbn, hbuffer⟩, hnext⟩
  · have hb : ¬ h.m_spectrumBufferNum = h.m_specNum := by
      rw [hbn, hnum]
      omega
    have hread : ReadSpectrum h.m_file h.m_specReadSoFarNum
        = Except.error SpecError.ERROR_SPECTRUM_NOT_FOUND := by
      rw [hfile, hcur]
      exact ReadSpectrum_past file k hk
    rw [GetNextSpectrum_file_error env h spec _ hb hread]
    exact ⟨rfl, rfl, hfile, hnum, Or.inr ⟨hlong, hbn⟩, hnext⟩

theorem ReadsFrom_iterate (env : Env) (file : List Record)
    (hdec : ∀ r ∈ file, r.decodes = true) (n : Nat) :
    ∀ (h : CScanFileHandler) (k : Nat) (spec : CSpectrum), ReadsFrom file h k →
      ReadsFrom file (GetNextSpectrum_iterate env n (h, spec)).1 (k + n) := by
  induction n with
  | zero => intro h k spec hr; exact hr
  | succ n ih =>
    intro h k spec hr
    have hstep : ReadsFrom file (CScanFileHandler.GetNextSpectrum env h spec).2.1 (k + 1) := by
      rcases Nat.lt_or_ge k file.length with hlt | hge
      · obtain ⟨r, hget⟩ : ∃ r, file.get? k = some r := ⟨file.get ⟨k, hlt⟩, List.get?_eq_get hlt⟩
        exact (GetNextSpectrum_inside env file h k spec r hr hget
          (hdec r (List.get?_mem hget))).2.2
      · exact (GetNextSpectrum_past_end env file h k spec hr hge).2.2
    have := ih (CScanFileHandler.GetNextSpectrum env h spec).2.1 (k + 1)
      (CScanFileHandler.GetNextSpectrum env h spec).2.2 hstep
    simp only [GetNextSpectrum_iterate]
    rw [show k + (n + 1) = k + 1 + n by omega]
    exact this

theorem SetSize_length (buf : List CSpectrum) (n : Nat) : (SetSize buf n).length = n := by
  simp [SetSize]

theorem CheckScanFile_buffer_all (h : CScanFileHandler)
    (hdec : ∀ r ∈ h.m_file, r.decodes = true) (hnum : h.m_specNum = (h.m_file.length : Int)) :
    CScanFileHandler.CheckScanFile_buffer h
      = (if h.m_specNum < 200 then
          { h with m_spectrumBuffer := h.m_file.map Record.spectrum,
                   m_spectrumBufferNum := h.m_specNum }
         else { h with m_spectrumBufferNum := 0, m_spectrumBuffer := [] }, true) := by
  by_cases hlt : h.m_specNum < 200
  · have hdrop : (SetSize h.m_spectrumBuffer h.m_specNum.toNat).drop h.m_file.length = [] := by
      apply List.drop_eq_nil_of_le
      rw [SetSize_length, hnum, Int.toNat_ofNat]
    simp only [CScanFileHandler.CheckScanFile_buffer, if_pos hlt,
      readIntoBuffer_all h.m_file _ hdec, hdrop, List.append_nil]
  · simp only [CScanFileHandler.CheckScanFile_buffer, if_neg hlt]

/-- The container "sky, dark, then `rest`". -/
theorem ScanSpectrumFile_leading_sky_dark (sky dark : CSpectrum) (rest : List Record)
    (hanon : ∀ r ∈ rest, r.name ∉ scanNames) :
    ScanSpectrumFile
        ({ name := "sky", content := Except.ok sky }
          :: { name := "dark", content := Except.ok dark } :: rest) scanNames
      = (((rest.length + 2 : Nat) : Int), [0, -1, 1, -1, -1, -1]) := by
  have hz : findName "zenith" rest 2 = -1 :=
    findName_absent _ _ _ (fun r hr he => hanon r hr (by rw [he]; decide))
  have ho : findName "offset" rest 2 = -1 :=
    findName_absent _ _ _ (fun r hr he => hanon r hr (by rw [he]; decide))
  have hd : findName "dark_cur" rest 2 = -1 :=
    findName_absent _ _ _ (fun r hr he => hanon r hr (by rw [he]; decide))
  have hc : findName "darkcur" rest 2 = -1 :=
    findName_absent _ _ _ (fun r hr he => hanon r hr (by rw [he]; decide))
  simp [ScanSpectrumFile, scanNames, findName, hz, ho, hd, hc]
  omega

theorem CheckScanFile_success (h h1 h3 : CScanFileHandler) (file : List Record) (n : Int)
    (idx : List Int) (sky dark : CSpectrum) (p : Int)
    (hscan : ScanSpectrumFile file scanNames = (n, idx))
    (hbuf : CScanFileHandler.CheckScanFile_buffer { h with m_file := file, m_specNum := n }
      = (h1, true))
    (hsky : ReadSpectrum h1.m_file (CScanFileHandler.skyPosition idx) = Except.ok sky)
    (hpos : CScanFileHandler.darkPosition idx = some p)
    (hdark : ReadSpectrum h1.m_file p = Except.ok dark)
    (hoff : CScanFileHandler.CheckScanFile_offsetDC
      { h1 with m_sky := sky, m_dark := dark } idx = (h3, true)) :
    CScanFileHandler.CheckScanFile h file
      = (RETURN_CODE.SUCCESS, CScanFileHandler.CheckScanFile_finish h3) := by
  unfold CScanFileHandler.CheckScanFile
  simp only [hscan, hbuf, hsky, hpos, hdark, hoff]
  simp

theorem CheckScanFile_offsetDC_none (h : CScanFileHandler) (a b c : Int) :
    CScanFileHandler.CheckScanFile_offsetDC h [a, b, c, -1, -1, -1] = (h, true) := by
  simp [CScanFileHandler.CheckScanFile_offsetDC]

theorem ReadsFrom_finish_reset (h : CScanFileHandler) (file : List Record)
    (hfile : h.m_file = file) (hnum : h.m_specNum = (file.length : Int))
    (hbuf : (h.m_spectrumBufferNum = (file.length : Int)
          ∧ h.m_spectrumBuffer = file.map Record.spectrum)
        ∨ (200 ≤ file.length ∧ h.m_spectrumBufferNum = 0))
    (hsky : h.m_sky.ScanIndex = 0) (hdark : h.m_dark.ScanIndex = 1)
    (hoff : h.m_offset.ScanIndex ≠ 2) (hdc : h.m_darkCurrent.ScanIndex ≠ 2) :
    ReadsFrom file (CScanFileHandler.CheckScanFile_finish h).ResetCounter 2 := by
  subst hfile
  cases hr : ReadSpectrum h.m_file 0 <;>
    simp [ReadsFrom, CScanFileHandler.CheckScanFile_finish, CScanFileHandler.ResetCounter, hr,
      hnum, hsky, hdark, hoff, hdc, hbuf]

set_option maxRecDepth 4000 in
theorem CheckScanFile_leading_sky_dark (sky dark : CSpectrum) (rest : List Record)
    (hsky : sky.ScanIndex = 0) (hdark : dark.ScanIndex = 1)
    (hanon : ∀ r ∈ rest, r.name ∉ scanNames) (hdec : ∀ r ∈ rest, r.decodes = true) :
    (CScanFileHandler.CheckScanFile CScanFileHandler.new
        ({ name := "sky", content := Except.ok sky }
          :: { name := "dark", content := Except.ok dark } :: rest)).1 = RETURN_CODE.SUCCESS
      ∧ ReadsFrom
          ({ name := "sky", content := Except.ok sky }
            :: { name := "dark", content := Except.ok dark } :: rest)
          (CScanFileHandler.CheckScanFile CScanFileHandler.new
            ({ name := "sky", content := Except.ok sky }
              :: { name := "dark", content := Except.ok dark } :: rest)).2.ResetCounter 2 := by
  have hall : ∀ r ∈ ({ name := "sky", content := Except.ok sky }
      :: { name := "dark", content := Except.ok dark } :: rest : List Record),
      r.decodes = true := by
    intro r hr
    rcases List.mem_cons.mp hr with h1 | h2
    · rw [h1]; rfl
    · rcases List.mem_cons.mp h2 with h3 | h4
      · rw [h3]; rfl
      · exact hdec r h4
  have hscan := ScanSpectrumFile_leading_sky_dark sky dark rest hanon
  have hbuf := CheckScanFile_buffer_all
    { CScanFileHandler.new with
      m_file := ({ name := "sky", content := Except.ok sky }
        :: { name := "dark", content := Except.ok dark } :: rest : List Record),
      m_specNum := ((rest.length + 2 : Nat) : Int) } hall rfl
  have hrs : ReadSpectrum ({ name := "sky", content := Except.ok sky }
      :: { name := "dark", content := Except.ok dark } :: rest : List Record)
      (CScanFileHandler.skyPosition [0, -1, 1, -1, -1, -1]) = Except.ok sky := rfl
  have hpos : CScanFileHandler.darkPosition [0, -1, 1, -1, -1, -1] = some 1 := rfl
  have hrd : ReadSpectrum ({ name := "sky", content := Except.ok sky }
      :: { name := "dark", content := Except.ok dark } :: rest : List Record) 1
      = Except.ok dark := rfl
  have hcs := CheckScanFile_success CScanFileHandler.new _ _ _ _ _ sky dark 1 hscan hbuf
    (by split_ifs <;> exact hrs) hpos (by split_ifs <;> exact hrd)
    (CheckScanFile_offsetDC_none _ 0 (-1) 1)
  rw [hcs]
  refine ⟨rfl, ?_⟩
  apply ReadsFrom_finish_reset
  · split_ifs <;> rfl
  · split_ifs <;> rfl
  · by_cases hlt : ((rest.length + 2 : Nat) : Int) < 200
    · rw [if_pos hlt]
      exact Or.inl ⟨rfl, rfl⟩
    · rw [if_neg hlt]
      refine Or.inr ⟨?_, rfl⟩
      simp only [List.length_cons]
      omega
  · split_ifs <;> exact hsky
  · split_ifs <;> exact hdark
  · split_ifs <;> exact (by decide : CSpectrum.empty.ScanIndex ≠ 2)
  · split_ifs <;> exact (by decide : CSpectrum.empty.ScanIndex ≠ 2)

/-- C3 (amended). For every container whose record 0 is the sky record (called "sky",
scan index 0), whose record 1 is the dark record (called "dark", scan index 1) and whose
`K >= 1` further records are anonymous and decode: `CheckScanFile` succeeds, and after
`ResetCounter` the first `GetNextSpectrum` call yields the first anonymous record, the
call after `n` earlier calls yields the anonymous record number `n` as long as there is
one, and every later call returns 0 and yields nothing. So neither the sky nor the dark
record is ever yielded. -/
theorem C3_leading_sky_dark_are_skipped (env : Env) (sky dark : CSpectrum)
    (rest : List Record) (hsky : sky.ScanIndex = 0) (hdark : dark.ScanIndex = 1)
    (hK : 1 ≤ rest.length) (hanon : ∀ r ∈ rest, r.name ∉ scanNames)
    (hdec : ∀ r ∈ rest, r.decodes = true) (spec : CSpectrum) :
    (CScanFileHandler.CheckScanFile CScanFileHandler.new
        ({ name := "sky", content := Except.ok sky }
          :: { name := "dark", content := Except.ok dark } :: rest)).1 = RETURN_CODE.SUCCESS
      ∧ (∃ first, rest.head? = some first
          ∧ (CScanFileHandler.GetNextSpectrum env
              (opened ({ name := "sky", content := Except.ok sky }
                :: { name := "dark", content := Except.ok dark } :: rest)).ResetCounter spec).1 = 1
          ∧ (CScanFileHandler.GetNextSpectrum env
              (opened ({ name := "sky", content := Except.ok sky }
                :: { name := "dark", content := Except.ok dark } :: rest)).ResetCounter spec).2.2
              = withModel env first.spectrum)
      ∧ (∀ n r, rest.get? n = some r →
          (CScanFileHandler.GetNextSpectrum env
            (GetNextSpectrum_iterate env n
              ((opened ({ name := "sky", content := Except.ok sky }
                :: { name := "dark", content := Except.ok dark } :: rest)).ResetCounter, spec)).1
            (GetNextSpectrum_iterate env n
              ((opened ({ name := "sky", content := Except.ok sky }
                :: { name := "dark", content := Except.ok dark } :: rest)).ResetCounter, spec)).2).1
            = 1
          ∧ (CScanFileHandler.GetNextSpectrum env
            (GetNextSpectrum_iterate env n
              ((opened ({ name := "sky", content := Except.ok sky }
                :: { name := "dark", content := Except.ok dark } :: rest)).ResetCounter, spec)).1
            (GetNextSpectrum_iterate env n
              ((opened ({ name := "sky", content := Except.ok sky }
                :: { name := "dark", content := Except.ok dark } :: rest)).ResetCounter, spec)).2).2.2
            = withModel env r.spectrum)
      ∧ (∀ n, rest.length ≤ n →
          (CScanFileHandler.GetNextSpectrum env
            (GetNextSpectrum_iterate env n
              ((opened ({ name := "sky", content := Except.ok sky }
                :: { name := "dark", content := Except.ok dark } :: rest)).ResetCounter, spec)).1
            (GetNextSpectrum_iterate env n
              ((opened ({ name := "sky", content := Except.ok sky }
                :: { name := "dark", content := Except.ok dark } :: rest)).ResetCounter, spec)).2).1
            = 0) := by
  have hall : ∀ r ∈ ({ name := "sky", content := Except.ok sky }
      :: { name := "dark", content := Except.ok dark } :: rest : List Record),
      r.decodes = true := by
    intro r hr
    rcases List.mem_cons.mp hr with h1 | h2
    · rw [h1]; rfl
    · rcases List.mem_cons.mp h2 with h3 | h4
      · rw [h3]; rfl
      · exact hdec r h4
  obtain ⟨hok, hreads⟩ := CheckScanFile_leading_sky_dark sky dark rest hsky hdark hanon hdec
  have hiter := fun n => ReadsFrom_iterate env _ hall n _ 2 spec hreads
  have hyield : ∀ n r, rest.get? n = some r →
      (CScanFileHandler.GetNextSpectrum env
        (GetNextSpectrum_iterate env n
          ((opened ({ name := "sky", content := Except.ok sky }
            :: { name := "dark", content := Except.ok dark } :: rest)).ResetCounter, spec)).1
        (GetNextSpectrum_iterate env n
          ((opened ({ name := "sky", content := Except.ok sky }
            :: { name := "dark", content := Except.ok dark } :: rest)).ResetCounter, spec)).2).1
        = 1
      ∧ (CScanFileHandler.GetNextSpectrum env
        (GetNextSpectrum_iterate env n
          ((opened ({ name := "sky", content := Except.ok sky }
            :: { name := "dark", content := Except.ok dark } :: rest)).ResetCounter, spec)).1
        (GetNextSpectrum_iterate env n
          ((opened ({ name := "sky", content := Except.ok sky }
            :: { name := "dark", content := Except.ok dark } :: rest)).ResetCounter, spec)).2).2.2
        = withModel env r.spectrum := by
    intro n r hr
    have hget : ({ name := "sky", content := Except.ok sky }
        :: { name := "dark", content := Except.ok dark } :: rest : List Record).get? (2 + n)
        = some r := by
      rw [show 2 + n = n + 1 + 1 by omega]
      exact hr
    have hstep := GetNextSpectrum_inside env _ _ (2 + n) (GetNextSpectrum_iterate env n
      ((opened ({ name := "sky", content := Except.ok sky }
        :: { name := "dark", content := Except.ok dark } :: rest)).ResetCounter, spec)).2
      r (hiter n) hget (hdec r (List.get?_mem hr))
    exact ⟨hstep.1, hstep.2.1⟩
  refine ⟨hok, ?_, hyield, ?_⟩
  · have hhead : ∃ first, rest.head? = some first ∧ rest.get? 0 = some first := by
      cases rest with
      | nil => exact absurd hK (by decide)
      | cons a l => exact ⟨a, rfl, rfl⟩
    obtain ⟨first, hfirst, hget0⟩ := hhead
    have h0 := hyield 0 first hget0
    simp only [GetNextSpectrum_iterate] at h0
    exact ⟨first, hfirst, h0⟩
  · intro n hn
    have hpast := GetNextSpectrum_past_end env _ _ (2 + n) (GetNextSpectrum_iterate env n
      ((opened ({ name := "sky", content := Except.ok sky }
        :: { name := "dark", content := Except.ok dark } :: rest)).ResetCounter, spec)).2
      (hiter n) (by simp only [List.length_cons]; omega)
    exact hpast.1

/-- C3 (amended), at a concrete input: the scan "sky, dark, two measurements". The first
read after `ResetCounter` yields the measurement at position 2, and the read after two
earlier reads returns 0. -/
theorem C3_witness :
    (CScanFileHandler.CheckScanFile CScanFileHandler.new scanSkyDarkTwo).1
        = RETURN_CODE.SUCCESS
      ∧ (CScanFileHandler.GetNextSpectrum (sampleEnv 0 FitOutcome.minimizeFailed)
          (opened scanSkyDarkTwo).ResetCounter CSpectrum.empty).1 = 1
      ∧ (CScanFileHandler.GetNextSpectrum (sampleEnv 0 FitOutcome.minimizeFailed)
          (opened scanSkyDarkTwo).ResetCounter CSpectrum.empty).2.2
          = withModel (sampleEnv 0 FitOutcome.minimizeFailed) (okRecord "" 2 50).spectrum
      ∧ (CScanFileHandler.GetNextSpectrum (sampleEnv 0 FitOutcome.minimizeFailed)
          (GetNextSpectrum_iterate (sampleEnv 0 FitOutcome.minimizeFailed) 2
            ((opened scanSkyDarkTwo).ResetCounter, CSpectrum.empty)).1
          (GetNextSpectrum_iterate (sampleEnv 0 FitOutcome.minimizeFailed) 2
            ((opened scanSkyDarkTwo).ResetCounter, CSpectrum.empty)).2).1 = 0 := by
  have h := C3_leading_sky_dark_are_skipped (sampleEnv 0 FitOutcome.minimizeFailed)
    (flatSpectrum 0 1 100 4 100) (flatSpectrum 1 1 100 4 1)
    [okRecord "" 2 50, okRecord "" 3 60] rfl rfl (by decide) (by decide) (by decide)
    CSpectrum.empty
  obtain ⟨hok, ⟨first, hfirst, hret, hyield⟩, _, hend⟩ := h
  cases hfirst
  exact ⟨hok, hret, hyield, hend 2 (by decide)⟩

/-! ## Running the code on concrete scans -/

/-- C4, at a concrete input: the buffered handler of a three-record scan after one read
has its cursor at the end; the next call returns 0 with `ERROR_SPECTRUM_NOT_FOUND` and
still moves the cursor. -/
theorem C4_witness :
    (GetNextSpectrum_iterate (sampleEnv 0 FitOutcome.minimizeFailed) 1
        (opened scanSkyDarkOne, CSpectrum.empty)).1.m_specReadSoFarNum = 3
      ∧ (CScanFileHandler.GetNextSpectrum (sampleEnv 0 FitOutcome.minimizeFailed)
          (GetNextSpectrum_iterate (sampleEnv 0 FitOutcome.minimizeFailed) 1
            (opened scanSkyDarkOne, CSpectrum.empty)).1 CSpectrum.empty).2.1.m_specReadSoFarNum
          = 3 + 1
      ∧ (CScanFileHandler.GetNextSpectrum (sampleEnv 0 FitOutcome.minimizeFailed)
          (GetNextSpectrum_iterate (sampleEnv 0 FitOutcome.minimizeFailed) 1
            (opened scanSkyDarkOne, CSpectrum.empty)).1 CSpectrum.empty).1 = 0
      ∧ (CScanFileHandler.GetNextSpectrum (sampleEnv 0 FitOutcome.minimizeFailed)
          (GetNextSpectrum_iterate (sampleEnv 0 FitOutcome.minimizeFailed) 1
            (opened scanSkyDarkOne, CSpectrum.empty)).1 CSpectrum.empty).2.1.m_lastError
          = some SpecError.ERROR_SPECTRUM_NOT_FOUND :=
  have h := C4_GetNextSpectrum_advances_cursor (sampleEnv 0 FitOutcome.minimizeFailed)
    (GetNextSpectrum_iterate (sampleEnv 0 FitOutcome.minimizeFailed) 1
      (opened scanSkyDarkOne, CSpectrum.empty)).1 CSpectrum.empty
  ⟨by decide, h.1, (h.2 (by decide) (by decide)).1, (h.2 (by decide) (by decide)).2⟩

/-- C8, at a concrete input: dynamic range 4095, saturation limit 1/5, largest value 820
and smallest dark value 1: the difference 819 equals the threshold and the spectrum is
not ignored. -/
theorem C8_witness :
    sampleMax (flatSpectrum 2 1 100 4 820) 0 4 - sampleMin (flatSpectrum 1 1 100 4 1) 0 4
        = 4095 * (1 / 5)
      ∧ CScanEvaluation.Ignore (sampleEnv (1 / 5) FitOutcome.minimizeFailed)
          (flatSpectrum 2 1 100 4 820) (flatSpectrum 1 1 100 4 1) 0 4 = false :=
  ⟨by decide!,
    (C8_Ignore_iff_below_threshold (sampleEnv (1 / 5) FitOutcome.minimizeFailed)
      (flatSpectrum 2 1 100 4 820) (flatSpectrum 1 1 100 4 1) 0 4).2 (by decide!)⟩

/-- C9, at a concrete input: a dark record of 5 exposures and a measurement of 10
exposures; the resolved dark is exactly twice the raw dark. -/
theorem C9_witness :
    (CScanEvaluation.GetDark (sampleEnv 0 FitOutcome.minimizeFailed)
        (opened scanDarkFiveExposures) (flatSpectrum 2 10 100 4 50) CSpectrum.empty none).1
        = RETURN_CODE.SUCCESS
      ∧ ∀ i, i < (opened scanDarkFiveExposures).m_dark.m_length →
          (CScanEvaluation.GetDark (sampleEnv 0 FitOutcome.minimizeFailed)
            (opened scanDarkFiveExposures) (flatSpectrum 2 10 100 4 50) CSpectrum.empty
            none).2.m_data i
            = 2 * (opened scanDarkFiveExposures).m_dark.m_data i :=
  have h := C9_measured_dark_scaled_by_exposures (sampleEnv 0 FitOutcome.minimizeFailed)
    (opened scanDarkFiveExposures) (flatSpectrum 2 10 100 4 50) CSpectrum.empty none
    (Or.inl rfl) (by decide) (by decide) (by decide) (by decide)
  ⟨h.1, h.2.2.2.2 (by decide) (by decide)⟩

/-- C10, at concrete inputs: a container with an offset and a dark-current record, once
with both taken from the container and once with the dark-current read from a user
file. -/
theorem C10_witness :
    ((CScanEvaluation.GetDark userFileEnv (opened scanOffsetDarkCurrent)
        (flatSpectrum 3 10 100 4 50) CSpectrum.empty (some modelFromContainer)).1
        = RETURN_CODE.SUCCESS
      ∧ ∀ i, i < (opened scanOffsetDarkCurrent).m_offset.m_length →
        (CScanEvaluation.GetDark userFileEnv (opened scanOffsetDarkCurrent)
          (flatSpectrum 3 10 100 4 50) CSpectrum.empty (some modelFromContainer)).2.m_data i
          = (opened scanOffsetDarkCurrent).m_offset.m_data i
              * (((flatSpectrum 3 10 100 4 50).NumSpectra : ℚ)
                  / ((opened scanOffsetDarkCurrent).m_offset.NumSpectra : ℚ))
            + ((opened scanOffsetDarkCurrent).m_darkCurrent.m_data i
                - (opened scanOffsetDarkCurrent).m_offset.m_data i
                    * (((opened scanOffsetDarkCurrent).m_darkCurrent.NumSpectra : ℚ)
                        / ((opened scanOffsetDarkCurrent).m_offset.NumSpectra : ℚ)))
              * ((((flatSpectrum 3 10 100 4 50).NumSpectra : ℚ)
                    * ((flatSpectrum 3 10 100 4 50).ExposureTime : ℚ))
                  / (((opened scanOffsetDarkCurrent).m_darkCurrent.NumSpectra : ℚ)
                      * ((opened scanOffsetDarkCurrent).m_darkCurrent.ExposureTime : ℚ))))
    ∧ ((CScanEvaluation.GetDark userFileEnv (opened scanOffsetDarkCurrent)
        (flatSpectrum 3 10 100 4 50) CSpectrum.empty (some modelWithUserDarkCurrent)).1
        = RETURN_CODE.SUCCESS
      ∧ ∀ i, i < (opened scanOffsetDarkCurrent).m_offset.m_length →
        (CScanEvaluation.GetDark userFileEnv (opened scanOffsetDarkCurrent)
          (flatSpectrum 3 10 100 4 50) CSpectrum.empty
          (some modelWithUserDarkCurrent)).2.m_data i
          = (opened scanOffsetDarkCurrent).m_offset.m_data i
              * (((flatSpectrum 3 10 100 4 50).NumSpectra : ℚ)
                  / ((opened scanOffsetDarkCurrent).m_offset.NumSpectra : ℚ))
            + (flatSpectrum 0 4 500 4 9).m_data i
              * ((((flatSpectrum 3 10 100 4 50).NumSpectra : ℚ)
                    * ((flatSpectrum 3 10 100 4 50).ExposureTime : ℚ))
                  / (((flatSpectrum 0 4 500 4 9).NumSpectra : ℚ)
                      * ((flatSpectrum 0 4 500 4 9).ExposureTime : ℚ)))) :=
  ⟨(C10_modelled_dark_formula userFileEnv (opened scanOffsetDarkCurrent)
      (flatSpectrum 3 10 100 4 50) CSpectrum.empty modelFromContainer rfl rfl
      (by decide)).1 rfl (by decide),
   (C10_modelled_dark_formula userFileEnv (opened scanOffsetDarkCurrent)
      (flatSpectrum 3 10 100 4 50) CSpectrum.empty modelWithUserDarkCurrent rfl rfl
      (by decide)).2 (flatSpectrum 0 4 500 4 9) rfl (by decide) rfl (by decide)⟩

/-- C1 (the code at a failing input). With a fit object that always fails, every call
of `Evaluate` returns 1; yet evaluating the scan "sky, dark, one measurement" returns 1
and leaves one result in `m_result`: the result of the failed fit was appended. -/
theorem C1_failed_fit_is_appended :
    (∀ e m n, (CEvaluation.Evaluate (sampleEnv 0 FitOutcome.minimizeFailed) e m n).1 = 1)
      ∧ (CScanEvaluation.EvaluateOpenedScan (sampleEnv 0 FitOutcome.minimizeFailed) 10
          sampleScanEvaluation (opened scanSkyDarkOne) (CEvaluation.new sampleWindow) none).map
          (fun o => (o.ret, o.self.m_result.map (fun r => r.m_spec.length)))
        = some (1, some 1) := by
  constructor
  · intro e m n
    simp only [CEvaluation.Evaluate, sampleEnv]
    split_ifs <;> simp
  · decide!

/-- C2 (the code at a failing input). On the buffered handler of the scan "sky, dark,
two measurements" (cursor at 2), `GetSpectrum` asked for position 3 and asked for
position 0 both hand out the record at the cursor, position 2; and once the cursor has
passed the end, `GetSpectrum` asked for position 2 returns 0. -/
theorem C2_GetSpectrum_reads_at_cursor :
    (opened scanSkyDarkTwo).m_spectrumBufferNum = (opened scanSkyDarkTwo).m_specNum
      ∧ (opened scanSkyDarkTwo).m_specReadSoFarNum = 2
      ∧ ((opened scanSkyDarkTwo).GetSpectrum CSpectrum.empty 3).1 = 1
      ∧ ((opened scanSkyDarkTwo).GetSpectrum CSpectrum.empty 3).2.2.ScanIndex = 2
      ∧ ((opened scanSkyDarkTwo).GetSpectrum CSpectrum.empty 0).2.2.ScanIndex = 2
      ∧ ((GetNextSpectrum_iterate (sampleEnv 0 FitOutcome.minimizeFailed) 2
            (opened scanSkyDarkTwo, CSpectrum.empty)).1.GetSpectrum CSpectrum.empty 2).1 = 0 := by
  decide

/-- C3 (counterexample). In the scan "sky, measurement, dark, measurement" the first
read after `ResetCounter` hands out the measurement at position 1, and the second read
returns 1 and hands out the record at position 2, which is the dark record. -/
theorem C3_counterexample :
    (scanDarkAtTwo.map (fun r => r.name)) = ["sky", "", "dark", ""]
      ∧ (CScanFileHandler.CheckScanFile CScanFileHandler.new scanDarkAtTwo).1
          = RETURN_CODE.SUCCESS
      ∧ (opened scanDarkAtTwo).m_dark.ScanIndex = 2
      ∧ (CScanFileHandler.GetNextSpectrum (sampleEnv 0 FitOutcome.minimizeFailed)
          (opened scanDarkAtTwo).ResetCounter CSpectrum.empty).2.2.ScanIndex = 1
      ∧ (CScanFileHandler.GetNextSpectrum (sampleEnv 0 FitOutcome.minimizeFailed)
          (GetNextSpectrum_iterate (sampleEnv 0 FitOutcome.minimizeFailed) 1
            ((opened scanDarkAtTwo).ResetCounter, CSpectrum.empty)).1 CSpectrum.empty).1 = 1
      ∧ (CScanFileHandler.GetNextSpectrum (sampleEnv 0 FitOutcome.minimizeFailed)
          (GetNextSpectrum_iterate (sampleEnv 0 FitOutcome.minimizeFailed) 1
            ((opened scanDarkAtTwo).ResetCounter, CSpectrum.empty)).1
          CSpectrum.empty).2.2.ScanIndex = 2 := by
  decide

/-- C5 (the code at a failing input). The scan "sky, measurement, darkcur, measurement"
has a dark-current record (spelled "darkcur") and no record called "dark", "offset" or
"dark_cur"; `CheckScanFile` succeeds, recognises the dark-current record, and still
reads the record at position 1 (a measurement) as the dark spectrum. -/
theorem C5_darkcur_does_not_stop_fallback :
    (scanWithDarkcur.map (fun r => r.name)) = ["sky", "", "darkcur", ""]
      ∧ (CScanFileHandler.CheckScanFile CScanFileHandler.new scanWithDarkcur).1
          = RETURN_CODE.SUCCESS
      ∧ CScanFileHandler.darkPosition (ScanSpectrumFile scanWithDarkcur scanNames).2 = some 1
      ∧ (opened scanWithDarkcur).m_dark.ScanIndex = 1
      ∧ (opened scanWithDarkcur).m_fHasDarkCurrent = true
      ∧ (opened scanWithDarkcur).m_darkCurrent.ScanIndex = 2 := by
  decide

/-- C6 (the code at a failing input). In the four-record scan "sky, dark, measurement
with a checksum mismatch, measurement" sky and dark decode and there is no offset or
dark-current record; `CheckScanFile` returns `FAIL` with the checksum error and leaves
the handler uninitialised. -/
theorem C6_buffering_aborts_on_corrupt_record :
    (scanOneCorrupt.map (fun r => (r.name, r.decodes)))
        = [("sky", true), ("dark", true), ("", false), ("", true)]
      ∧ (CScanFileHandler.CheckScanFile CScanFileHandler.new scanOneCorrupt).1
          = RETURN_CODE.FAIL
      ∧ (opened scanOneCorrupt).m_lastError = some SpecError.ERROR_CHECKSUM_MISMATCH
      ∧ (opened scanOneCorrupt).m_initialized = false := by
  decide

/-- C7 (the code at a failing input). In a scan of 200 records (read from the file, not
from the buffer) the record at position 2 decodes and the record at position 3 does
not; `EvaluateOpenedScan` goes on to the end (197 results) and the one index it marks
as corrupted is 2, the index of the record read before the failing one. -/
theorem C7_corrupted_mark_is_previous_index :
    ((scanLongOneCorrupt.get? 2).map Record.decodes = some true
      ∧ (scanLongOneCorrupt.get? 3).map Record.decodes = some false
      ∧ (opened scanLongOneCorrupt).m_spectrumBufferNum
          ≠ (opened scanLongOneCorrupt).m_specNum)
      ∧ (CScanEvaluation.EvaluateOpenedScan (sampleEnv 0 (FitOutcome.fitted zeroFit)) 250
          sampleScanEvaluation (opened scanLongOneCorrupt) (CEvaluation.new sampleWindow)
          none).map
          (fun o => (o.ret, o.self.m_result.map (fun r => r.m_corruptedSpectra)))
        = some (197, some [2]) := by
  constructor
  · decide!
  · decide!


/-! ## The dark spectrum: fallback and failure -/

/-- C11 (the code at a failing input). A container with sky, an offset record (100
exposures, samples 7), a dark-current record (2 exposures of 1000 ms, samples 9) and
no dark record; measurement of 10 exposures of 100 ms. Under the measured strategy the
synthesized dark has samples 26/5 (the dark-current is not offset-corrected), under
`MODEL_ALWAYS` from the same container records it has samples 513/100. -/
theorem C11_fallback_dark_differs_from_modelled :
    (opened scanOffsetDarkCurrent).m_dark.m_length = 0
      ∧ (opened scanOffsetDarkCurrent).m_offset.m_length = 4
      ∧ (opened scanOffsetDarkCurrent).m_darkCurrent.m_length = 4
      ∧ (CScanEvaluation.GetDark userFileEnv (opened scanOffsetDarkCurrent)
          (flatSpectrum 3 10 100 4 50) CSpectrum.empty none).1 = RETURN_CODE.SUCCESS
      ∧ (CScanEvaluation.GetDark userFileEnv (opened scanOffsetDarkCurrent)
          (flatSpectrum 3 10 100 4 50) CSpectrum.empty none).2.m_data 0 = 26 / 5
      ∧ (CScanEvaluation.GetDark userFileEnv (opened scanOffsetDarkCurrent)
          (flatSpectrum 3 10 100 4 50) CSpectrum.empty (some modelFromContainer)).1
          = RETURN_CODE.SUCCESS
      ∧ (CScanEvaluation.GetDark userFileEnv (opened scanOffsetDarkCurrent)
          (flatSpectrum 3 10 100 4 50) CSpectrum.empty (some modelFromContainer)).2.m_data 0
          = 513 / 100 := by
  decide!

/-- C12 (counterexample). The reader of a scan with a single record has no dark
(`CheckScanFile` could not read position 1). Under the measured strategy `GetDark`
returns `FAIL`, and the output parameter, which held four samples before the call,
holds the reader's empty dark spectrum afterwards. -/
theorem C12_counterexample :
    (opened scanSkyOnly).m_fHasDark = false
      ∧ (flatSpectrum 9 1 100 4 7).m_length = 4
      ∧ (CScanEvaluation.GetDark (sampleEnv 0 FitOutcome.minimizeFailed) (opened scanSkyOnly)
          (flatSpectrum 2 1 100 4 50) (flatSpectrum 9 1 100 4 7) none).1 = RETURN_CODE.FAIL
      ∧ (CScanEvaluation.GetDark (sampleEnv 0 FitOutcome.minimizeFailed) (opened scanSkyOnly)
          (flatSpectrum 2 1 100 4 50) (flatSpectrum 9 1 100 4 7) none).2.m_length = 0 := by
  decide

/-- C12 (amended). Whenever `GetDark` returns `FAIL`: under `MODEL_ALWAYS`,
`DARK_USER_SUPPLIED` (with file readers that leave their output untouched when they
fail) and any other non-measured option the output parameter `dark` is exactly what it
was before the call; under the measured strategy (`darkSettings` null, `MEASURE` or
`MODEL_SOMETIMES`) it has been overwritten with the reader's stored dark spectrum. -/
theorem C12_GetDark_FAIL_output (env : Env) (scan : CScanFileHandler)
    (spec dark : CSpectrum) (ds : Option CDarkSettings)
    (hfail : (CScanEvaluation.GetDark env scan spec dark ds).1 = RETURN_CODE.FAIL) :
    ((∃ d, ds = some d ∧ d.m_darkSpecOption ≠ DARK_SPEC_OPTION.MEASURE
        ∧ d.m_darkSpecOption ≠ DARK_SPEC_OPTION.MODEL_SOMETIMES) →
      (CScanEvaluation.GetDark env scan spec dark ds).2 = dark)
    ∧ ((ds = none ∨ ∃ d, ds = some d ∧ (d.m_darkSpecOption = DARK_SPEC_OPTION.MEASURE
        ∨ d.m_darkSpecOption = DARK_SPEC_OPTION.MODEL_SOMETIMES)) →
      (CScanEvaluation.GetDark env scan spec dark ds).2 = scan.m_dark) := by
  constructor
  · rintro ⟨d, rfl, h1, h2⟩
    simp only [CScanEvaluation.GetDark, h1, h2, or_self, decide_False, Bool.false_eq_true,
      if_false] at hfail ⊢
    repeat' split
    all_goals first | rfl | simp_all
  · intro hm
    have hsuccess : ∀ (c : Prop) [Decidable c] (a b : CSpectrum),
        (if c then (RETURN_CODE.SUCCESS, a) else (RETURN_CODE.SUCCESS, b)).1
          ≠ RETURN_CODE.FAIL := by
      intro c _ a b
      split_ifs <;> simp
    rcases hm with h0 | ⟨d, h1, h2⟩
    · subst h0
      simp only [CScanEvaluation.GetDark, if_true, CScanFileHandler.GetDark] at hfail ⊢
      repeat' split
      all_goals first | rfl | exact absurd hfail (hsuccess _ _ _) | simp_all
    · subst h1
      have hd : decide (d.m_darkSpecOption = DARK_SPEC_OPTION.MEASURE
          ∨ d.m_darkSpecOption = DARK_SPEC_OPTION.MODEL_SOMETIMES) = true := by simpa using h2
      simp only [CScanEvaluation.GetDark, hd, if_true, CScanFileHandler.GetDark] at hfail ⊢
      repeat' split
      all_goals first | rfl | exact absurd hfail (hsuccess _ _ _) | simp_all

/-- C12 (amended), at concrete inputs: a user-supplied dark whose file cannot be read
(the output parameter is untouched), and the measured strategy on a reader without
dark (the output parameter holds the reader's dark). -/
theorem C12_witness :
    (CScanEvaluation.GetDark (sampleEnv 0 FitOutcome.minimizeFailed) (opened scanSkyDarkOne)
        (flatSpectrum 2 1 100 4 50) (flatSpectrum 9 1 100 4 7) (some userDarkSettings)).2
        = flatSpectrum 9 1 100 4 7
      ∧ (CScanEvaluation.GetDark (sampleEnv 0 FitOutcome.minimizeFailed) (opened scanSkyOnly)
        (flatSpectrum 2 1 100 4 50) (flatSpectrum 9 1 100 4 7) none).2
        = (opened scanSkyOnly).m_dark :=
  ⟨(C12_GetDark_FAIL_output (sampleEnv 0 FitOutcome.minimizeFailed) (opened scanSkyDarkOne)
      (flatSpectrum 2 1 100 4 50) (flatSpectrum 9 1 100 4 7) (some userDarkSettings)
      (by decide)).1 ⟨userDarkSettings, rfl, by decide, by decide⟩,
   (C12_GetDark_FAIL_output (sampleEnv 0 FitOutcome.minimizeFailed) (opened scanSkyOnly)
      (flatSpectrum 2 1 100 4 50) (flatSpectrum 9 1 100 4 7) none (by decide)).2
      (Or.inl rfl)⟩

/-! ## The evaluator -/

/-- C13. Whenever `Evaluate` returns non-zero (the length of the measured spectrum
differs from `specLength`, the fit range of a sub-spectrum falls outside the spectrum,
or the fit object reports failure) the stored result `m_result` is what it was before
the call; and when the lengths differ the call returns 1 with the whole evaluator
untouched, whatever the preprocessing functions and the fit object would do. -/
theorem C13_Evaluate_failure_keeps_result (env : Env) (e : CEvaluation)
    (measured : CSpectrum) (numSteps : Int) :
    ((CEvaluation.Evaluate env e measured numSteps).1 ≠ 0 →
        (CEvaluation.Evaluate env e measured numSteps).2.m_result = e.m_result)
      ∧ (e.m_window.specLength ≠ (measured.m_length : Int) →
        CEvaluation.Evaluate env e measured numSteps = (1, e))
      ∧ (e.m_window.specLength = (measured.m_length : Int) →
        measured.m_info.m_startChannel ≠ 0 →
        (e.m_window.fitLow - measured.m_info.m_startChannel < 0
          ∨ e.m_window.fitHigh - measured.m_info.m_startChannel > (measured.m_length : Int)) →
        CEvaluation.Evaluate env e measured numSteps = (1, e))
      ∧ (e.m_window.specLength = (measured.m_length : Int) →
        measured.m_info.m_startChannel = 0 →
        env.Minimize
            { e with m_sky := (CEvaluation.PrepareSpectra env e.m_sky
                (fun i => if i < measured.m_length then measured.m_data i else 0)
                e.m_window).1 }
            (CEvaluation.PrepareSpectra env e.m_sky
                (fun i => if i < measured.m_length then measured.m_data i else 0)
                e.m_window).2 e.m_window.fitLow e.m_window.fitHigh numSteps
          = FitOutcome.minimizeFailed →
        (CEvaluation.Evaluate env e measured numSteps).1 = 1) := by
  refine ⟨?_, ?_, ?_, ?_⟩
  · intro hret
    simp only [CEvaluation.Evaluate] at hret ⊢
    repeat' split
    all_goals first | rfl | simp_all
  · intro hlen
    simp only [CEvaluation.Evaluate, if_pos hlen]
  · intro hlen hsc hout
    have h1 : ¬ e.m_window.specLength ≠ (measured.m_length : Int) := not_not.mpr hlen
    simp only [CEvaluation.Evaluate, if_neg h1, hsc, ne_eq, not_false_eq_true, true_or,
      if_true, hout]
  · intro hlen hsc hmin
    have h1 : ¬ e.m_window.specLength ≠ (measured.m_length : Int) := not_not.mpr hlen
    have h2 : ¬ ((measured.m_length : Int) < e.m_window.specLength) := by omega
    simp only [CEvaluation.Evaluate, if_neg h1, hsc, ne_eq, not_true_eq_false, h2, or_self,
      if_false, hmin]

/-- C13, at concrete inputs: a four-sample spectrum whose fit fails, and a three-sample
spectrum given to an evaluator for four-sample spectra. -/
theorem C13_witness :
    (CEvaluation.Evaluate (sampleEnv 0 FitOutcome.minimizeFailed)
        (CEvaluation.new sampleWindow) (flatSpectrum 2 1 100 4 50) 1000).2.m_result
        = (CEvaluation.new sampleWindow).m_result
      ∧ CEvaluation.Evaluate (sampleEnv 0 FitOutcome.minimizeFailed)
          (CEvaluation.new sampleWindow) (flatSpectrum 2 1 100 3 50) 1000
        = (1, CEvaluation.new sampleWindow) :=
  ⟨(C13_Evaluate_failure_keeps_result (sampleEnv 0 FitOutcome.minimizeFailed)
      (CEvaluation.new sampleWindow) (flatSpectrum 2 1 100 4 50) 1000).1 (by decide),
   (C13_Evaluate_failure_keeps_result (sampleEnv 0 FitOutcome.minimizeFailed)
      (CEvaluation.new sampleWindow) (flatSpectrum 2 1 100 3 50) 1000).2.1 (by decide)⟩

/-- C14 (the code at a failing input). The summation object built by `Evaluate` never
contains the reference of slot `nRef`, the slot `CreateReferenceSpectrum` prepares for
the sky spectrum. For the subtractive window with one reference and a sky spectrum set
through `SetSkySpectrum`, the slots prepared are 0 and 1 (the sky), and the sum holds
one reference function (slot 0) and the polynomial: `nRef`, not `nRef + 1`, references. -/
theorem C14_sky_reference_not_in_sum :
    (∀ e : CEvaluation,
        ModelTerm.reference e.m_window.nRef.toNat ∉ CEvaluation.Evaluate_sum e)
      ∧ (CEvaluation.SetSkySpectrum (sampleEnv 0 FitOutcome.minimizeFailed)
          (CEvaluation.new subtractiveWindow) (flatSpectrum 0 1 100 4 100)).1 = 0
      ∧ CEvaluation.CreateReferenceSpectrum_slots
          (CEvaluation.SetSkySpectrum (sampleEnv 0 FitOutcome.minimizeFailed)
            (CEvaluation.new subtractiveWindow) (flatSpectrum 0 1 100 4 100)).2 = [0, 1]
      ∧ CEvaluation.Evaluate_sum
          (CEvaluation.SetSkySpectrum (sampleEnv 0 FitOutcome.minimizeFailed)
            (CEvaluation.new subtractiveWindow) (flatSpectrum 0 1 100 4 100)).2
          = [ModelTerm.reference 0, ModelTerm.polynomial 1] := by
  refine ⟨?_, by decide, by decide, by decide⟩
  intro e hmem
  simp [CEvaluation.Evaluate_sum] at hmem

/-! ## The most absorbing spectrum -/

/-- C20 (the code at a failing input). Scan "sky, dark, weak measurement, strong
measurement" with saturation limit 1/100 of the dynamic range 4095: the weak
measurement is ignored, the strong one is evaluated (column 5, classified ok).
`EvaluateOpenedScan` returns 1, the scan result holds one result (index 0), and
`m_indexOfMostAbsorbingSpectrum` is 1, which is not an index into the scan result. -/
theorem C20_most_absorbing_index_counts_reads :
    (CScanEvaluation.EvaluateOpenedScan (sampleEnv (1 / 100) (FitOutcome.fitted fiveFit)) 10
        sampleScanEvaluation (opened scanWeakThenStrong) (CEvaluation.new subtractiveWindow)
        none).map
      (fun o => (o.ret, o.self.m_indexOfMostAbsorbingSpectrum,
        o.self.m_result.map (fun r => (r.m_spec.length, r.IsOk 0, r.IsOk 1))))
      = some (1, 1, some (1, true, false))
    ∧ (CScanEvaluation.EvaluateOpenedScan (sampleEnv (1 / 100) (FitOutcome.fitted fiveFit)) 10
        sampleScanEvaluation (opened scanWeakThenStrong) (CEvaluation.new subtractiveWindow)
        none).map
      (fun o => o.self.m_result.map (fun r => r.GetColumn 0 0)) = some (some 5) := by
  constructor
  · decide!
  · decide!

/-! ## Calibration from the Fraunhofer reference -/

/-- C15 (the code at a failing input). Scan "sky, dark, measurement A, measurement B"
(fewer than 200 records): the sky is saturated (4000/4095 > 0.9), A has saturation
ratio 2000/4095 and B 1200/4095, so A is the candidate with the highest ratio in
(0.1, 0.9) and the search ends with `indexOfMostSuitableSpectrum = 0`. The spectrum
then handed to `EvaluateShift` has scan index 3: it is B, the last spectrum yielded by
the cursor, not A (scan index 2). -/
theorem C15_calibration_spectrum_is_not_best_candidate :
    CScanEvaluation.fitSaturation (sampleEnv 0 FitOutcome.minimizeFailed) fraunhoferWindow
        (flatSpectrum 0 1 100 4 4000) = 4000 / 4095
      ∧ CScanEvaluation.fitSaturation (sampleEnv 0 FitOutcome.minimizeFailed) fraunhoferWindow
        (flatSpectrum 2 1 100 4 2000) = 2000 / 4095
      ∧ CScanEvaluation.fitSaturation (sampleEnv 0 FitOutcome.minimizeFailed) fraunhoferWindow
        (flatSpectrum 3 1 100 4 1200) = 1200 / 4095
      ∧ (CScanEvaluation.FindOptimumShiftAndSqueeze_Fraunhofer_candidate
          (sampleEnv 0 FitOutcome.minimizeFailed) 10 sampleScanEvaluation fraunhoferWindow
          (opened scanForCalibration)).map
          (fun p => p.2.map (fun c => (c.index, c.spectrum.ScanIndex)))
        = some (some (0, 3)) := by
  refine ⟨by decide!, by decide!, by decide!, by decide!⟩

theorem updateRefs_get (f : CReferenceFile → CReferenceFile) (l : List CReferenceFile) :
    ∀ (n : Int) (k : Nat) (x : CReferenceFile), (k : Int) < n → l.get? k = some x →
      (updateRefs f l n).get? k = some (f x) := by
  induction l with
  | nil => intro n k x _ hx; cases hx
  | cons r rs ih =>
    intro n k x hk hx
    cases k with
    | zero =>
      have hn : 0 < n := by simpa using hk
      simp only [List.get?_cons_zero, Option.some.injEq] at hx
      simp only [updateRefs, if_pos hn, List.get?_cons_zero, hx]
    | succ k =>
      simp only [List.get?_cons_succ] at hx
      simp only [updateRefs, List.get?_cons_succ]
      exact ih (n - 1) k x (by push_cast at hk; omega) hx

/-- C16 (the code at a failing input). The window passed in has one reference with the
shift fixed at 1/2 and a free squeeze; the shift fit fails, so `EvaluateShift` returns
1 (the code then reports that it proceeds with default parameters). The evaluator
returned has that reference with a free shift and the squeeze fixed at 1: the options
of the window passed in are not kept. -/
theorem C16_failed_fit_returns_released_window :
    fraunhoferWindow.ref.map (fun r => (r.m_shiftOption, r.m_squeezeOption))
        = [(SHIFT_TYPE.SHIFT_FIX, SHIFT_TYPE.SHIFT_FREE)]
      ∧ (CScanEvaluation.FindOptimumShiftAndSqueeze_Fraunhofer_shift
          (sampleEnv 0 FitOutcome.minimizeFailed) fraunhoferWindow
          (flatSpectrum 0 1 100 4 4000) (flatSpectrum 2 1 100 4 2000)).1 = 1
      ∧ (CScanEvaluation.FindOptimumShiftAndSqueeze_Fraunhofer_fit
          (sampleEnv 0 FitOutcome.minimizeFailed) fraunhoferWindow
          (flatSpectrum 0 1 100 4 4000) (flatSpectrum 2 1 100 4 2000)).m_window.ref.map
          (fun r => (r.m_shiftOption, r.m_squeezeOption))
        = [(SHIFT_TYPE.SHIFT_FREE, SHIFT_TYPE.SHIFT_FIX)] := by
  decide

/-- The window of the evaluator `FindOptimumShiftAndSqueeze_Fraunhofer` returns, for
every input: reference `k < nRef` has shift and squeeze fixed to the fitted
(shift, squeeze) when `EvaluateShift` succeeded with `|shiftError| < 1` and
`|squeezeError| < 0.01`; otherwise it has the shift released (`SHIFT_FREE`, shift value
as passed in), the squeeze option `SHIFT_FIX` and the squeeze value 1, whatever the
window passed in said. -/
theorem Fraunhofer_window_fixed_or_released (env : Env) (fitWindow : CFitWindow)
    (sky spectrum : CSpectrum) (k : Nat) (x : CReferenceFile)
    (hk : (k : Int) < fitWindow.nRef) (hx : fitWindow.ref.get? k = some x) :
    (∀ v, (CScanEvaluation.FindOptimumShiftAndSqueeze_Fraunhofer_shift env fitWindow sky
            spectrum).1 = 0 →
        (CScanEvaluation.FindOptimumShiftAndSqueeze_Fraunhofer_shift env fitWindow sky
            spectrum).2.2 = some v →
        |v.shiftError| < 1 → |v.squeezeError| < 1 / 100 →
        (CScanEvaluation.FindOptimumShiftAndSqueeze_Fraunhofer_fit env fitWindow sky
            spectrum).m_window.ref.get? k
          = some { x with m_shiftOption := SHIFT_TYPE.SHIFT_FIX,
                          m_squeezeOption := SHIFT_TYPE.SHIFT_FIX,
                          m_shiftValue := v.shift, m_squeezeValue := v.squeeze })
      ∧ (¬ ((CScanEvaluation.FindOptimumShiftAndSqueeze_Fraunhofer_shift env fitWindow sky
              spectrum).1 = 0
            ∧ ∃ v, (CScanEvaluation.FindOptimumShiftAndSqueeze_Fraunhofer_shift env fitWindow
                sky spectrum).2.2 = some v
              ∧ |v.shiftError| < 1 ∧ |v.squeezeError| < 1 / 100) →
        (CScanEvaluation.FindOptimumShiftAndSqueeze_Fraunhofer_fit env fitWindow sky
            spectrum).m_window.ref.get? k
          = some { x with m_shiftOption := SHIFT_TYPE.SHIFT_FREE,
                          m_squeezeOption := SHIFT_TYPE.SHIFT_FIX, m_squeezeValue := 1 }) := by
  have hrel : (CScanEvaluation.FindOptimumShiftAndSqueeze_Fraunhofer_release
      fitWindow).ref.get? k
      = some { x with m_shiftOption := SHIFT_TYPE.SHIFT_FREE,
                      m_squeezeOption := SHIFT_TYPE.SHIFT_FIX, m_squeezeValue := 1 } :=
    updateRefs_get _ _ _ k x hk hx
  constructor
  · intro v h0 hv hs hq
    have hgood : |v.shiftError| < 1 ∧ |v.squeezeError| < 1 / 100 := ⟨hs, hq⟩
    simp only [CScanEvaluation.FindOptimumShiftAndSqueeze_Fraunhofer_fit, h0, hv, hgood,
      ne_eq, not_true_eq_false, if_false, and_self, if_true, CEvaluation.new]
    exact updateRefs_get
      (fun x => { x with m_shiftOption := SHIFT_TYPE.SHIFT_FIX,
                         m_squeezeOption := SHIFT_TYPE.SHIFT_FIX,
                         m_shiftValue := v.shift, m_squeezeValue := v.squeeze })
      (CScanEvaluation.FindOptimumShiftAndSqueeze_Fraunhofer_release fitWindow).ref
      fitWindow.nRef k
      { x with m_shiftOption := SHIFT_TYPE.SHIFT_FREE,
               m_squeezeOption := SHIFT_TYPE.SHIFT_FIX, m_squeezeValue := 1 } hk hrel
  · intro hbad
    simp only [CScanEvaluation.FindOptimumShiftAndSqueeze_Fraunhofer_fit, CEvaluation.new]
    by_cases h0 : (CScanEvaluation.FindOptimumShiftAndSqueeze_Fraunhofer_shift env fitWindow
        sky spectrum).1 = 0
    · cases hv : (CScanEvaluation.FindOptimumShiftAndSqueeze_Fraunhofer_shift env fitWindow
          sky spectrum).2.2 with
      | none => simp only [h0, ne_eq, not_true_eq_false, if_false]; exact hrel
      | some v =>
        have hng : ¬ (|v.shiftError| < 1 ∧ |v.squeezeError| < 1 / 100) :=
          fun hg => hbad ⟨h0, v, hv, hg⟩
        simp only [h0, ne_eq, not_true_eq_false, if_false, hng]
        exact hrel
    · simp only [ne_eq, h0, not_false_eq_true, if_true]
      exact hrel

/-- The returned window at concrete inputs: a shift fit that finishes with small errors
(shift 3/10, squeeze 1), and a shift fit that fails. -/
theorem Fraunhofer_window_at_samples :
    (CScanEvaluation.FindOptimumShiftAndSqueeze_Fraunhofer_fit shiftFitEnv fraunhoferWindow
        (flatSpectrum 0 1 100 4 4000) (flatSpectrum 2 1 100 4 2000)).m_window.ref.get? 0
        = some { fixedShiftReference with m_shiftOption := SHIFT_TYPE.SHIFT_FIX,
                                          m_squeezeOption := SHIFT_TYPE.SHIFT_FIX,
                                          m_shiftValue := 3 / 10, m_squeezeValue := 1 }
      ∧ (CScanEvaluation.FindOptimumShiftAndSqueeze_Fraunhofer_fit
          (sampleEnv 0 FitOutcome.minimizeFailed) fraunhoferWindow
          (flatSpectrum 0 1 100 4 4000) (flatSpectrum 2 1 100 4 2000)).m_window.ref.get? 0
        = some { fixedShiftReference with m_shiftOption := SHIFT_TYPE.SHIFT_FREE,
                                          m_squeezeOption := SHIFT_TYPE.SHIFT_FIX,
                                          m_squeezeValue := 1 } :=
  ⟨(Fraunhofer_window_fixed_or_released shiftFitEnv fraunhoferWindow
      (flatSpectrum 0 1 100 4 4000) (flatSpectrum 2 1 100 4 2000) 0 fixedShiftReference
      (by decide) rfl).1
      { delta := 0, shift := 3 / 10, shiftError := 1 / 10, squeeze := 1,
        squeezeError := 1 / 1000 }
      (by decide) rfl (by decide!) (by decide!),
   (Fraunhofer_window_fixed_or_released (sampleEnv 0 FitOutcome.minimizeFailed)
      fraunhoferWindow (flatSpectrum 0 1 100 4 4000) (flatSpectrum 2 1 100 4 2000) 0
      fixedShiftReference (by decide) rfl).2 (fun h => absurd h.1 (by decide))⟩

/-- C17, counterexample: the column of the most absorbing spectrum equals twice its
column error (2 and 1), and `FindOptimumShiftAndSqueeze` does not return early: it
deletes the evaluator it was given and creates one whose reference is fixed to the
re-fitted shift 3/10 and squeeze 101/100. -/
theorem C17_counterexample :
    (resultWith twoFit).GetColumn 0 0 = 2 * (resultWith twoFit).GetColumnError 0 0
      ∧ (CScanEvaluation.FindOptimumShiftAndSqueeze (averageSkyEnv (FitOutcome.fitted twoFit))
          10 sampleScanEvaluation optimalShiftWindow (opened scanSkyDarkOne)
          (resultWith twoFit)).map (fun o => o.callerEvalDeleted) = some true
      ∧ (CScanEvaluation.FindOptimumShiftAndSqueeze (averageSkyEnv (FitOutcome.fitted twoFit))
          10 sampleScanEvaluation optimalShiftWindow (opened scanSkyDarkOne)
          (resultWith twoFit)).map (fun o => o.newEval.map (fun e => shiftSettings e.m_window))
        = some (some [(SHIFT_TYPE.SHIFT_FIX, SHIFT_TYPE.SHIFT_FIX, 3 / 10, 101 / 100)]) := by
  refine ⟨?_, ?_, ?_⟩
  · decide!
  · decide!
  · decide!

/-- C17 (amended): `FindOptimumShiftAndSqueeze` returns without changing anything when
there is no most absorbing spectrum or when the column of the most absorbing spectrum
is strictly below twice its column error. When there is a most absorbing spectrum and
its column is at least twice its column error (equality included) it goes on: once
`GetSky` has returned, the function returns having deleted the evaluator it was given
and having created a new one. -/
theorem C17_returns_early_iff_column_below_twice_error (env : Env) (fuel : Nat)
    (self : CScanEvaluation) (fitWindow : CFitWindow) (scan : CScanFileHandler)
    (result : CScanResult) :
    (self.m_indexOfMostAbsorbingSpectrum < 0
        ∨ result.GetColumn self.m_indexOfMostAbsorbingSpectrum 0
            < 2 * result.GetColumnError self.m_indexOfMostAbsorbingSpectrum 0 →
      CScanEvaluation.FindOptimumShiftAndSqueeze env fuel self fitWindow scan result
        = some { scan := scan, callerEvalDeleted := false, newEval := none })
      ∧ (0 ≤ self.m_indexOfMostAbsorbingSpectrum →
          2 * result.GetColumnError self.m_indexOfMostAbsorbingSpectrum 0
            ≤ result.GetColumn self.m_indexOfMostAbsorbingSpectrum 0 →
          (CScanEvaluation.GetSky env fuel self scan CSpectrum.empty).isSome = true →
          ∃ o, CScanEvaluation.FindOptimumShiftAndSqueeze env fuel self fitWindow scan result
                = some o
              ∧ o.callerEvalDeleted = true ∧ o.newEval.isSome = true) := by
  constructor
  · intro h
    have hgo : CScanEvaluation.FindOptimumShiftAndSqueeze_goesOn self result = false := by
      unfold CScanEvaluation.FindOptimumShiftAndSqueeze_goesOn
      rcases h with h | h
      · rw [if_pos h]
      · by_cases h0 : self.m_indexOfMostAbsorbingSpectrum < 0
        · rw [if_pos h0]
        · rw [if_neg h0]
          simp only [if_pos h]
    unfold CScanEvaluation.FindOptimumShiftAndSqueeze
    rw [if_pos hgo]
  · intro h0 h2 hsky
    have hgo : ¬ CScanEvaluation.FindOptimumShiftAndSqueeze_goesOn self result = false := by
      unfold CScanEvaluation.FindOptimumShiftAndSqueeze_goesOn
      rw [if_neg (not_lt.mpr h0)]
      simp only [if_neg (not_lt.mpr h2)]
      decide
    unfold CScanEvaluation.FindOptimumShiftAndSqueeze
    rw [if_neg hgo]
    cases hs : CScanEvaluation.GetSky env fuel self scan CSpectrum.empty with
    | none => rw [hs] at hsky; exact absurd hsky (by decide)
    | some r => exact ⟨_, rfl, rfl, rfl⟩

/-- C17 (amended), at concrete inputs: column 1 with error 1 returns early; column 2
with error 1 goes on. -/
theorem C17_witness :
    CScanEvaluation.FindOptimumShiftAndSqueeze (averageSkyEnv (FitOutcome.fitted twoFit))
        10 sampleScanEvaluation optimalShiftWindow (opened scanSkyDarkOne) (resultWith oneFit)
        = some { scan := opened scanSkyDarkOne, callerEvalDeleted := false, newEval := none }
      ∧ ∃ o, CScanEvaluation.FindOptimumShiftAndSqueeze
                (averageSkyEnv (FitOutcome.fitted twoFit)) 10 sampleScanEvaluation
                optimalShiftWindow (opened scanSkyDarkOne) (resultWith twoFit) = some o
              ∧ o.callerEvalDeleted = true ∧ o.newEval.isSome = true :=
  ⟨(C17_returns_early_iff_column_below_twice_error (averageSkyEnv (FitOutcome.fitted twoFit))
      10 sampleScanEvaluation optimalShiftWindow (opened scanSkyDarkOne)
      (resultWith oneFit)).1 (Or.inr (by decide!)),
   (C17_returns_early_iff_column_below_twice_error (averageSkyEnv (FitOutcome.fitted twoFit))
      10 sampleScanEvaluation optimalShiftWindow (opened scanSkyDarkOne)
      (resultWith twoFit)).2 (by decide) (by decide!) (by decide!)⟩

/-- C18: a run of `EvaluateScan` with the search for the optimal shift switched on and
no Fraunhofer reference. The first pass finds column 5 with error 1 for the only
measurement, `FindOptimumShiftAndSqueeze` re-fits it and creates an evaluator whose
reference is fixed to shift 3/10 and squeeze 101/100; the final pass is given the
evaluator of the first pass, already deleted, whose reference is fixed to shift 0 and
squeeze 1. -/
theorem C18_final_pass_uses_first_pass_evaluator :
    (CScanEvaluation.EvaluateScan (averageSkyEnv (FitOutcome.fitted fiveFit)) 10
        sampleScanEvaluation (opened scanSkyDarkOne) optimalShiftWindow none).map
        (fun o => (o.ret, o.finalEvalDeleted)) = some (1, true)
      ∧ (CScanEvaluation.EvaluateScan (averageSkyEnv (FitOutcome.fitted fiveFit)) 10
          sampleScanEvaluation (opened scanSkyDarkOne) optimalShiftWindow none).map
          (fun o => o.refinedEval.map (fun e => shiftSettings e.m_window))
        = some (some [(SHIFT_TYPE.SHIFT_FIX, SHIFT_TYPE.SHIFT_FIX, 3 / 10, 101 / 100)])
      ∧ (CScanEvaluation.EvaluateScan (averageSkyEnv (FitOutcome.fitted fiveFit)) 10
          sampleScanEvaluation (opened scanSkyDarkOne) optimalShiftWindow none).map
          (fun o => o.finalEval.map (fun e => shiftSettings e.m_window))
        = some (some [(SHIFT_TYPE.SHIFT_FIX, SHIFT_TYPE.SHIFT_FIX, 0, 1)]) := by
  refine ⟨?_, ?_, ?_⟩
  · decide!
  · decide!
  · decide!

/-- The loop in an environment that does not change is the loop of
`EvaluateOpenedScan`. -/
theorem EvaluateOpenedScan_loopAt_const (env : Env) (self : CScanEvaluation) (sky : CSpectrum)
    (darkSettings : Option CDarkSettings) (fuel n : Nat) (s : LoopState) :
    CScanEvaluation.EvaluateOpenedScan_loopAt (fun _ => env) self sky darkSettings fuel n s
      = CScanEvaluation.EvaluateOpenedScan_loop env self sky darkSettings fuel s := by
  induction fuel generalizing n s with
  | zero => rfl
  | succ k ih =>
    simp only [CScanEvaluation.EvaluateOpenedScan_loopAt,
      CScanEvaluation.EvaluateOpenedScan_loop]
    cases CScanEvaluation.EvaluateOpenedScan_body env self sky darkSettings s with
    | next s1 => exact ih (n + 1) s1
    | done s1 => rfl
    | abort s1 => rfl

/-- In an environment that does not change, `EvaluateOpenedScanAt` is
`EvaluateOpenedScan`. -/
theorem EvaluateOpenedScanAt_const (env : Env) (fuel : Nat) (self : CScanEvaluation)
    (scan : CScanFileHandler) (eval : CEvaluation) (darkSettings : Option CDarkSettings) :
    CScanEvaluation.EvaluateOpenedScanAt (fun _ => env) fuel self scan eval darkSettings
      = CScanEvaluation.EvaluateOpenedScan env fuel self scan eval darkSettings := by
  simp only [CScanEvaluation.EvaluateOpenedScanAt, CScanEvaluation.EvaluateOpenedScan,
    EvaluateOpenedScan_loopAt_const]

/-- C19: the dark spectrum is the user file "dark.std", which can be read for the sky
and for the first measurement and not for the second one. `EvaluateOpenedScan` stops
at the second measurement with the value 0, after the result of the first one was
appended and after deleting the handler and the evaluator; `EvaluateScan` tests that
value against -1 only and returns the number of appended results, 1. -/
theorem C19_dark_failure_in_loop_returns_count :
    (CScanEvaluation.EvaluateOpenedScanAt darkFileRemoved 10 sampleScanEvaluation
        (opened scanSkyDarkTwo) (CEvaluation.new subtractiveWindow)
        (some userDarkSettings)).map
        (fun o => (o.ret, o.deleted, o.self.m_result.map (fun r => r.GetEvaluatedNum),
          CScanEvaluation.EvaluateScan_return o.ret o.self))
      = some (0, true, some 1, 1) := by
  decide!

/-! ## The handler's sentinel values -/

theorem CheckScanFile_buffer_fields (h : CScanFileHandler) :
    (CScanFileHandler.CheckScanFile_buffer h).1.m_initialized = h.m_initialized
      ∧ (CScanFileHandler.CheckScanFile_buffer h).1.m_file = h.m_file := by
  unfold CScanFileHandler.CheckScanFile_buffer
  by_cases hn : h.m_specNum < 200
  · rw [if_pos hn]
    dsimp only
    generalize readIntoBuffer h.m_file (SetSize h.m_spectrumBuffer h.m_specNum.toNat) = r
    rcases r with ⟨a, b⟩
    cases a <;> exact ⟨rfl, rfl⟩
  · rw [if_neg hn]
    exact ⟨rfl, rfl⟩

theorem CheckScanFile_offsetDC_fields (h : CScanFileHandler) (indices : List Int) :
    (CScanFileHandler.CheckScanFile_offsetDC h indices).1.m_initialized = h.m_initialized
      ∧ (CScanFileHandler.CheckScanFile_offsetDC h indices).1.m_sky = h.m_sky := by
  unfold CScanFileHandler.CheckScanFile_offsetDC
  generalize indices.getD 3 (-1) = i3
  generalize indices.getD 4 (-1) = i4
  generalize indices.getD 5 (-1) = i5
  cases e3 : ReadSpectrum h.m_file i3 <;>
  cases e4 : ReadSpectrum h.m_file i4 <;>
  cases e5 : ReadSpectrum h.m_file i5 <;>
  by_cases h3 : i3 = -1 <;>
  by_cases h4 : i4 = -1 <;>
  by_cases h5 : i5 = -1 <;>
  simp [e3, e4, e5, h3, h4, h5]

theorem CheckScanFile_finish_fields (h : CScanFileHandler) :
    (CScanFileHandler.CheckScanFile_finish h).m_initialized = true
      ∧ (CScanFileHandler.CheckScanFile_finish h).m_sky = h.m_sky := by
  unfold CScanFileHandler.CheckScanFile_finish
  cases ReadSpectrum h.m_file 0 <;> exact ⟨rfl, rfl⟩

/-- Every `CheckScanFile` call either fails and leaves the initialised flag as it was,
or succeeds, sets the flag and holds the sky spectrum it read. -/
theorem CheckScanFile_initialized (h : CScanFileHandler) (file : List Record) :
    ((CScanFileHandler.CheckScanFile h file).1 = RETURN_CODE.FAIL
        ∧ (CScanFileHandler.CheckScanFile h file).2.m_initialized = h.m_initialized)
      ∨ ((CScanFileHandler.CheckScanFile h file).1 = RETURN_CODE.SUCCESS
        ∧ (CScanFileHandler.CheckScanFile h file).2.m_initialized = true
        ∧ ReadSpectrum file
            (CScanFileHandler.skyPosition (ScanSpectrumFile file scanNames).2)
          = Except.ok (CScanFileHandler.CheckScanFile h file).2.m_sky) := by
  have hb := CheckScanFile_buffer_fields
    { h with m_file := file, m_specNum := (ScanSpectrumFile file scanNames).1 }
  unfold CScanFileHandler.CheckScanFile
  dsimp only
  generalize CScanFileHandler.CheckScanFile_buffer
    { h with m_file := file, m_specNum := (ScanSpectrumFile file scanNames).1 } = b at hb ⊢
  rcases b with ⟨b1, b2⟩
  dsimp only at hb ⊢
  obtain ⟨hi, hf⟩ := hb
  subst hf
  cases b2
  · left
    exact ⟨rfl, hi⟩
  · simp only [Bool.true_eq_false, if_false]
    cases hsky : ReadSpectrum b1.m_file
        (CScanFileHandler.skyPosition (ScanSpectrumFile b1.m_file scanNames).2) with
    | error e => left; exact ⟨rfl, hi⟩
    | ok sky =>
      dsimp only
      cases hpos : CScanFileHandler.darkPosition (ScanSpectrumFile b1.m_file scanNames).2 with
      | none =>
        dsimp only
        simp only [Bool.true_eq_false, if_false]
        have ho := CheckScanFile_offsetDC_fields { b1 with m_sky := sky }
          (ScanSpectrumFile b1.m_file scanNames).2
        generalize CScanFileHandler.CheckScanFile_offsetDC { b1 with m_sky := sky }
          (ScanSpectrumFile b1.m_file scanNames).2 = o at ho ⊢
        rcases o with ⟨o1, o2⟩
        dsimp only at ho ⊢
        cases o2
        · left
          exact ⟨rfl, ho.1.trans hi⟩
        · right
          simp only [Bool.true_eq_false, if_false]
          refine ⟨trivial, (CheckScanFile_finish_fields o1).1, ?_⟩
          rw [(CheckScanFile_finish_fields o1).2, ho.2]
      | some p =>
        dsimp only
        cases hdark : ReadSpectrum b1.m_file p with
        | error e =>
          left
          exact ⟨rfl, hi⟩
        | ok dark =>
          dsimp only
          simp only [Bool.true_eq_false, if_false]
          have ho := CheckScanFile_offsetDC_fields { b1 with m_sky := sky, m_dark := dark }
            (ScanSpectrumFile b1.m_file scanNames).2
          generalize CScanFileHandler.CheckScanFile_offsetDC
            { b1 with m_sky := sky, m_dark := dark }
            (ScanSpectrumFile b1.m_file scanNames).2 = o at ho ⊢
          rcases o with ⟨o1, o2⟩
          dsimp only at ho ⊢
          cases o2
          · left
            exact ⟨rfl, ho.1.trans hi⟩
          · right
            simp only [Bool.true_eq_false, if_false]
            refine ⟨trivial, (CheckScanFile_finish_fields o1).1, ?_⟩
            rw [(CheckScanFile_finish_fields o1).2, ho.2]

theorem CheckScanFile_calls_uninitialized (files : List (List Record)) :
    ∀ h : CScanFileHandler, h.m_initialized = false →
      (∀ c ∈ (CScanFileHandler.CheckScanFile_calls h files).1, c = RETURN_CODE.FAIL) →
      (CScanFileHandler.CheckScanFile_calls h files).2.m_initialized = false := by
  induction files with
  | nil => intro h hinit _; exact hinit
  | cons file files ih =>
    intro h hinit hall
    simp only [CScanFileHandler.CheckScanFile_calls] at hall ⊢
    have hfirst : (CScanFileHandler.CheckScanFile h file).1 = RETURN_CODE.FAIL :=
      hall _ (List.mem_cons_self _ _)
    apply ih
    · rcases CheckScanFile_initialized h file with ⟨_, hkeep⟩ | ⟨hs, _⟩
      · rw [hkeep, hinit]
      · rw [hfirst] at hs; cases hs
    · intro c hc
      exact hall c (List.mem_cons_of_mem _ hc)

/-- C21. On a handler on which every `CheckScanFile` call so far has failed (none at
all included), `GetInterlaceSteps`, `GetSpectrumLength` and `GetStartChannel` return
-1; after a `CheckScanFile` call that returns `SUCCESS` they return the interlace step,
the length and the start channel of the sky spectrum the call has read. -/
theorem C21_getters_sentinel_until_success (files : List (List Record))
    (h : CScanFileHandler) (file : List Record) :
    ((∀ c ∈ (CScanFileHandler.CheckScanFile_calls CScanFileHandler.new files).1,
          c = RETURN_CODE.FAIL) →
        (CScanFileHandler.CheckScanFile_calls CScanFileHandler.new files).2.GetInterlaceSteps
            = -1
          ∧ (CScanFileHandler.CheckScanFile_calls CScanFileHandler.new files).2.GetSpectrumLength
            = -1
          ∧ (CScanFileHandler.CheckScanFile_calls CScanFileHandler.new files).2.GetStartChannel
            = -1)
      ∧ ((CScanFileHandler.CheckScanFile h file).1 = RETURN_CODE.SUCCESS →
        ReadSpectrum file (CScanFileHandler.skyPosition (ScanSpectrumFile file scanNames).2)
            = Except.ok (CScanFileHandler.CheckScanFile h file).2.m_sky
          ∧ (CScanFileHandler.CheckScanFile h file).2.GetInterlaceSteps
            = (CScanFileHandler.CheckScanFile h file).2.m_sky.m_info.m_interlaceStep
          ∧ (CScanFileHandler.CheckScanFile h file).2.GetSpectrumLength
            = ((CScanFileHandler.CheckScanFile h file).2.m_sky.m_length : Int)
          ∧ (CScanFileHandler.CheckScanFile h file).2.GetStartChannel
            = (CScanFileHandler.CheckScanFile h file).2.m_sky.m_info.m_startChannel) := by
  constructor
  · intro hall
    have hinit := CheckScanFile_calls_uninitialized files CScanFileHandler.new rfl hall
    simp [CScanFileHandler.GetInterlaceSteps, CScanFileHandler.GetSpectrumLength,
      CScanFileHandler.GetStartChannel, hinit]
  · intro hs
    rcases CheckScanFile_initialized h file with ⟨hf, _⟩ | ⟨_, hinit, hsky⟩
    · rw [hs] at hf; cases hf
    · refine ⟨hsky, ?_, ?_, ?_⟩ <;>
        simp [CScanFileHandler.GetInterlaceSteps, CScanFileHandler.GetSpectrumLength,
          CScanFileHandler.GetStartChannel, hinit]

/-- C21, at concrete inputs: three failing calls (a corrupt record, an empty file, a
file without a second record) leave the sentinel -1; a call on "sky, dark, measurement"
succeeds and the getters return the values of its sky record. -/
theorem C21_witness :
    ((CScanFileHandler.CheckScanFile_calls CScanFileHandler.new
          [scanOneCorrupt, [], scanSkyOnly]).2.GetInterlaceSteps = -1
        ∧ (CScanFileHandler.CheckScanFile_calls CScanFileHandler.new
          [scanOneCorrupt, [], scanSkyOnly]).2.GetSpectrumLength = -1
        ∧ (CScanFileHandler.CheckScanFile_calls CScanFileHandler.new
          [scanOneCorrupt, [], scanSkyOnly]).2.GetStartChannel = -1)
      ∧ (ReadSpectrum scanSkyDarkOne
            (CScanFileHandler.skyPosition (ScanSpectrumFile scanSkyDarkOne scanNames).2)
          = Except.ok (CScanFileHandler.CheckScanFile CScanFileHandler.new scanSkyDarkOne).2.m_sky
        ∧ (CScanFileHandler.CheckScanFile CScanFileHandler.new scanSkyDarkOne).2.GetInterlaceSteps
          = (CScanFileHandler.CheckScanFile CScanFileHandler.new
              scanSkyDarkOne).2.m_sky.m_info.m_interlaceStep
        ∧ (CScanFileHandler.CheckScanFile CScanFileHandler.new scanSkyDarkOne).2.GetSpectrumLength
          = ((CScanFileHandler.CheckScanFile CScanFileHandler.new
              scanSkyDarkOne).2.m_sky.m_length : Int)
        ∧ (CScanFileHandler.CheckScanFile CScanFileHandler.new scanSkyDarkOne).2.GetStartChannel
          = (CScanFileHandler.CheckScanFile CScanFileHandler.new
              scanSkyDarkOne).2.m_sky.m_info.m_startChannel) :=
  ⟨(C21_getters_sentinel_until_success [scanOneCorrupt, [], scanSkyOnly]
      CScanFileHandler.new scanSkyDarkOne).1 (by decide),
   (C21_getters_sentinel_until_success [scanOneCorrupt, [], scanSkyOnly]
      CScanFileHandler.new scanSkyDarkOne).2 (by decide)⟩

/-- C27 (the code at a failing input). Scan "sky, offset, dark_cur, measurement":
`CheckScanFile` succeeds and leaves the cursor at 0 (the dark spectrum is empty, so
the test "sky at 0 and dark at 1" fails), `ResetCounter` right afterwards moves it to
3, past sky, offset and dark-current. On "sky, measurement, darkcur, measurement" the
two positions are 2 and 3. -/
theorem C27_cursor_after_check_differs_from_reset :
    (CScanFileHandler.CheckScanFile CScanFileHandler.new scanOffsetDarkCurrent).1
        = RETURN_CODE.SUCCESS
      ∧ (opened scanOffsetDarkCurrent).m_specReadSoFarNum = 0
      ∧ (opened scanOffsetDarkCurrent).ResetCounter.m_specReadSoFarNum = 3
      ∧ (CScanFileHandler.CheckScanFile CScanFileHandler.new scanWithDarkcur).1
        = RETURN_CODE.SUCCESS
      ∧ (opened scanWithDarkcur).m_specReadSoFarNum = 2
      ∧ (opened scanWithDarkcur).ResetCounter.m_specReadSoFarNum = 3 := by
  decide

/-! ## Offset removal -/

theorem foldl_add_range' (f : Nat → ℚ) (n : Nat) :
    ∀ (a : Nat) (init : ℚ),
      (List.range' a n).foldl (fun acc i => acc + f i) init
        = init + ∑ i in Finset.Ico a (a + n), f i := by
  induction n with
  | zero => intro a init; simp
  | succ n ih =>
    intro a init
    rw [List.range'_succ, List.foldl_cons, ih (a + 1) (init + f a),
      Finset.sum_eq_sum_Ico_succ_bot (by omega : a < a + (n + 1))]
    have : a + 1 + n = a + (n + 1) := by omega
    rw [this]
    ring

/-- What `RemoveOffset` computes, sample by sample. -/
theorem RemoveOffset_apply (spectrum : Nat → ℚ) (sumChn : Int) (UV : Bool) (i : Nat) :
    CEvaluation.RemoveOffset spectrum sumChn UV i
      = if (i : Int) < sumChn then spectrum i - offsetMean spectrum UV else spectrum i := by
  cases UV <;>
    simp [CEvaluation.RemoveOffset, CEvaluation.SubScalar, offsetMean, offsetFrom, offsetTo,
      foldl_add_range'] <;> norm_num

/-- After `RemoveOffset` over at least the whole sub-range, the mean over the sub-range
is zero. -/
theorem RemoveOffset_mean (spectrum : Nat → ℚ) (sumChn : Int) (UV : Bool)
    (h : (offsetTo UV : Int) ≤ sumChn) :
    offsetMean (CEvaluation.RemoveOffset spectrum sumChn UV) UV = 0 := by
  have hsum : ∑ i in Finset.Ico (offsetFrom UV) (offsetTo UV),
      CEvaluation.RemoveOffset spectrum sumChn UV i
      = ∑ i in Finset.Ico (offsetFrom UV) (offsetTo UV),
          (spectrum i - offsetMean spectrum UV) := by
    apply Finset.sum_congr rfl
    intro i hi
    rw [RemoveOffset_apply, if_pos]
    have := (Finset.mem_Ico.mp hi).2
    omega
  unfold offsetMean at hsum ⊢
  rw [hsum, Finset.sum_sub_distrib, Finset.sum_const, Nat.card_Ico]
  cases UV <;> simp [offsetFrom, offsetTo] <;> norm_num <;>
    generalize (∑ x in Finset.Ico _ _, spectrum x) = t <;> ring

theorem RemoveOffset_twice (spectrum : Nat → ℚ) (sumChn : Int) (UV : Bool)
    (h : (offsetTo UV : Int) ≤ sumChn) :
    CEvaluation.RemoveOffset (CEvaluation.RemoveOffset spectrum sumChn UV) sumChn UV
      = CEvaluation.RemoveOffset spectrum sumChn UV := by
  funext i
  rw [RemoveOffset_apply (CEvaluation.RemoveOffset spectrum sumChn UV),
    RemoveOffset_mean spectrum sumChn UV h]
  simp

/-- C22. `RemoveOffset(spectrum, sumChn, UV)` replaces every sample below `sumChn` by
the sample minus the arithmetic mean of the original samples in [50,200) (UV) or
[2,20) (otherwise); when `sumChn` covers that sub-range, the mean of the result over
the sub-range is 0. -/
theorem C22_RemoveOffset_subtracts_subrange_mean (spectrum : Nat → ℚ) (sumChn : Int) :
    (∀ i : Nat, (i : Int) < sumChn →
        CEvaluation.RemoveOffset spectrum sumChn true i
          = spectrum i - (∑ k in Finset.Ico 50 200, spectrum k) / 150)
      ∧ (∀ i : Nat, (i : Int) < sumChn →
        CEvaluation.RemoveOffset spectrum sumChn false i
          = spectrum i - (∑ k in Finset.Ico 2 20, spectrum k) / 18)
      ∧ (200 ≤ sumChn →
        (∑ k in Finset.Ico 50 200, CEvaluation.RemoveOffset spectrum sumChn true k) / 150 = 0)
      ∧ (20 ≤ sumChn →
        (∑ k in Finset.Ico 2 20, CEvaluation.RemoveOffset spectrum sumChn false k) / 18 = 0) := by
  refine ⟨?_, ?_, ?_, ?_⟩
  · intro i hi
    rw [RemoveOffset_apply, if_pos hi]
    simp only [offsetMean, offsetFrom, offsetTo, if_true]
    norm_num
  · intro i hi
    rw [RemoveOffset_apply, if_pos hi]
    simp only [offsetMean, offsetFrom, offsetTo, Bool.false_eq_true, if_false]
    norm_num
  · intro h
    have hm := RemoveOffset_mean spectrum sumChn true (by simpa [offsetTo] using h)
    simp only [offsetMean, offsetFrom, offsetTo, if_true] at hm
    norm_num at hm ⊢
    exact hm
  · intro h
    have hm := RemoveOffset_mean spectrum sumChn false (by simpa [offsetTo] using h)
    simp only [offsetMean, offsetFrom, offsetTo, Bool.false_eq_true, if_false] at hm
    norm_num at hm ⊢
    exact hm

/-- C22, at a concrete input: the ramp `spectrum[i] = i` with `sumChn = 200`. -/
theorem C22_witness :
    CEvaluation.RemoveOffset (fun i => (i : ℚ)) 200 true 60
        = ((60 : Nat) : ℚ) - (∑ k in Finset.Ico (50 : Nat) 200, (k : ℚ)) / 150
      ∧ CEvaluation.RemoveOffset (fun i => (i : ℚ)) 200 false 5
        = ((5 : Nat) : ℚ) - (∑ k in Finset.Ico (2 : Nat) 20, (k : ℚ)) / 18
      ∧ (∑ k in Finset.Ico 50 200,
          CEvaluation.RemoveOffset (fun i => (i : ℚ)) 200 true k) / 150 = 0
      ∧ (∑ k in Finset.Ico 2 20,
          CEvaluation.RemoveOffset (fun i => (i : ℚ)) 200 false k) / 18 = 0 :=
  ⟨(C22_RemoveOffset_subtracts_subrange_mean (fun i => (i : ℚ)) 200).1 60 (by decide),
   (C22_RemoveOffset_subtracts_subrange_mean (fun i => (i : ℚ)) 200).2.1 5 (by decide),
   (C22_RemoveOffset_subtracts_subrange_mean (fun i => (i : ℚ)) 200).2.2.1 (by decide),
   (C22_RemoveOffset_subtracts_subrange_mean (fun i => (i : ℚ)) 200).2.2.2 (by decide)⟩

/-- The prepared sky array after `Evaluate`: untouched, or what `PrepareSpectra` made
of it. -/
theorem Evaluate_sky (env : Env) (e : CEvaluation) (measured : CSpectrum) (numSteps : Int) :
    (CEvaluation.Evaluate env e measured numSteps).2.m_sky = e.m_sky
      ∨ (CEvaluation.Evaluate env e measured numSteps).2.m_sky
        = (CEvaluation.PrepareSpectra env e.m_sky
            (fun i => if i < measured.m_length then measured.m_data i else 0) e.m_window).1 := by
  simp only [CEvaluation.Evaluate]
  repeat' split
  all_goals first | exact Or.inl rfl | exact Or.inr rfl

/-- C29. `RemoveOffset` is idempotent when `sumChn` covers the sub-range it averages
over (200 for UV, 20 otherwise). Hence for the ratio-based fit type `FIT_HP_DIV`, after
`SetSkySpectrum` has accepted a sky spectrum at least that long, an `Evaluate` call
leaves the prepared sky array `m_sky` as `SetSkySpectrum` left it. -/
theorem C29_RemoveOffset_idempotent (spectrum : Nat → ℚ) (sumChn : Int) (UV : Bool)
    (env : Env) (e : CEvaluation) (sky measured : CSpectrum) (numSteps : Int) :
    ((if UV then (200 : Int) else 20) ≤ sumChn →
        CEvaluation.RemoveOffset (CEvaluation.RemoveOffset spectrum sumChn UV) sumChn UV
          = CEvaluation.RemoveOffset spectrum sumChn UV)
      ∧ (e.m_window.fitType = FIT_TYPE.FIT_HP_DIV →
        (CEvaluation.SetSkySpectrum env e sky).1 = 0 →
        (if e.m_window.UV then (200 : Int) else 20) ≤ (sky.m_length : Int) →
        (CEvaluation.Evaluate env (CEvaluation.SetSkySpectrum env e sky).2 measured
            numSteps).2.m_sky
          = (CEvaluation.SetSkySpectrum env e sky).2.m_sky) := by
  constructor
  · intro h
    apply RemoveOffset_twice
    cases UV <;> simpa [offsetTo] using h
  · intro hdiv hret hlen
    have hspec : e.m_window.specLength = (sky.m_length : Int) := by
      by_contra hne
      simp [CEvaluation.SetSkySpectrum, hne] at hret
    have hto : (offsetTo e.m_window.UV : Int) ≤ (sky.m_length : Int) := by
      cases hUV : e.m_window.UV <;> simpa [offsetTo, hUV] using hlen
    have hset : CEvaluation.SetSkySpectrum env e sky
        = (0, { e with
            m_skySpectrum := sky,
            m_sky := CEvaluation.RemoveOffset
              (fun i => if i < sky.m_length then sky.m_data i else e.m_sky i)
              sky.m_length e.m_window.UV }) := by
      simp [CEvaluation.SetSkySpectrum, hspec, hdiv]
    rcases Evaluate_sky env (CEvaluation.SetSkySpectrum env e sky).2 measured numSteps
      with h | h
    · exact h
    · rw [h, hset]
      simp only [CEvaluation.PrepareSpectra, hdiv, hspec]
      exact RemoveOffset_twice _ _ _ hto

/-- C29, at concrete inputs: the ramp `spectrum[i] = i` with `sumChn = 20`, and a
ratio-based evaluator for 20-sample spectra. -/
theorem C29_witness :
    CEvaluation.RemoveOffset (CEvaluation.RemoveOffset (fun i => (i : ℚ)) 20 false) 20 false
        = CEvaluation.RemoveOffset (fun i => (i : ℚ)) 20 false
      ∧ (CEvaluation.Evaluate (sampleEnv 0 FitOutcome.minimizeFailed)
          (CEvaluation.SetSkySpectrum (sampleEnv 0 FitOutcome.minimizeFailed)
            (CEvaluation.new ratioWindow) (flatSpectrum 0 1 100 20 100)).2
          (flatSpectrum 2 1 100 20 50) 1000).2.m_sky
        = (CEvaluation.SetSkySpectrum (sampleEnv 0 FitOutcome.minimizeFailed)
            (CEvaluation.new ratioWindow) (flatSpectrum 0 1 100 20 100)).2.m_sky :=
  ⟨(C29_RemoveOffset_idempotent (fun i => (i : ℚ)) 20 false
      (sampleEnv 0 FitOutcome.minimizeFailed) (CEvaluation.new ratioWindow)
      (flatSpectrum 0 1 100 20 100) (flatSpectrum 2 1 100 20 50) 1000).1 (by decide),
   (C29_RemoveOffset_idempotent (fun i => (i : ℚ)) 20 false
      (sampleEnv 0 FitOutcome.minimizeFailed) (CEvaluation.new ratioWindow)
      (flatSpectrum 0 1 100 20 100) (flatSpectrum 2 1 100 20 50) 1000).2
      rfl (by decide) (by decide)⟩

/-! ## The dark correction of a measurement -/

/-- The function `EvaluateOpenedScan` is its start followed by its loop. -/
theorem EvaluateOpenedScan_eq_start_loop (env : Env) (fuel : Nat) (self : CScanEvaluation)
    (scan : CScanFileHandler) (eval : CEvaluation) (darkSettings : Option CDarkSettings) :
    CScanEvaluation.EvaluateOpenedScan env fuel self scan eval darkSettings
      = match CScanEvaluation.EvaluateOpenedScan_start env fuel self scan eval darkSettings with
        | none => none
        | some (Sum.inl o) => some o
        | some (Sum.inr (self1, sky, start)) =>
          match CScanEvaluation.EvaluateOpenedScan_loop env self1 sky darkSettings fuel start with
          | none => none
          | some (s, aborted) =>
            some { ret := if aborted then 0 else s.result.GetEvaluatedNum,
                   self := { self1 with m_result := some s.result,
                                        m_indexOfMostAbsorbingSpectrum := s.mostAbsorbing },
                   scan := s.scan, eval := s.eval, deleted := aborted } := by
  unfold CScanEvaluation.EvaluateOpenedScan CScanEvaluation.EvaluateOpenedScan_start
  cases CScanEvaluation.GetSky env fuel self scan CSpectrum.empty with
  | none => rfl
  | some r =>
    rcases r with ⟨skyCode, scan1, sky0⟩
    dsimp only
    by_cases h1 : skyCode ≠ RETURN_CODE.SUCCESS
    · simp only [if_pos h1]
    · simp only [if_neg h1]
      by_cases hopt : env.m_skyOption ≠ SKY_OPTION.SKY_USER
      · simp only [if_pos hopt]
        by_cases h2 : (CScanEvaluation.GetDark env scan1 sky0 CSpectrum.empty
            darkSettings).1 ≠ RETURN_CODE.SUCCESS
        · simp only [if_pos h2]
        · simp only [if_neg h2]
      · simp only [if_neg hopt, ne_eq, not_true_eq_false, if_false]

/-- C26 (the code at a failing input). Scan "sky (10 exposures, samples 100), dark (5
exposures, samples 3), measurement (10 exposures, samples 50)", measured dark strategy,
summed spectra. The sky handed to the evaluator has samples 100/10 - 3/5 = 47/5. The
measurement is evaluated in the first pass of the loop, and the spectrum handed to
`Evaluate` has samples 50/10 - (3 * 10/5)/5 = 19/5, not 50/10 - 3/5 = 22/5. -/
theorem C26_measurement_dark_divided_by_dark_exposures :
    (CScanEvaluation.EvaluateOpenedScan_firstPass (sampleEnv 0 (FitOutcome.fitted zeroFit)) 10
        sampleScanEvaluation (opened scanDarkFiveExposures) (CEvaluation.new sampleWindow)
        none).map
        (fun p => (p.1.m_data 0,
          match p.2 with
          | LoopStep.next s => some (s.current.m_data 0, s.result.GetEvaluatedNum)
          | _ => none))
      = some (47 / 5, some (19 / 5, 1))
    ∧ (100 : ℚ) / 10 - 3 / 5 = 47 / 5
    ∧ (50 : ℚ) / 10 - 3 / 5 = 22 / 5 := by
  refine ⟨by decide!, by norm_num, by norm_num⟩

/-! ## Calibration branch and the path of the Fraunhofer reference -/

/-- C28 (the code at a failing input). A Fraunhofer reference stored under the
five-character path "ab.xs": `EvaluateScan` takes the calibration branch (the window
of the final evaluator has the shift released, which only that branch does), and
`EvaluateShift` returns 1 although the shift fit itself would finish; with the
six-character path "abc.xs", everything else equal, `EvaluateShift` returns 0 and the
fitted shift is fixed. With the four-character path "a.xs" the branch is not taken. -/
theorem C28_five_character_path_fails_EvaluateShift :
    ("ab.xs".length = 5 ∧ "abc.xs".length = 6 ∧ "a.xs".length = 4)
      ∧ (CScanEvaluation.FindOptimumShiftAndSqueeze_Fraunhofer_shift shiftFitEnv
          (fraunhoferWindowAt "ab.xs") (flatSpectrum 0 1 100 4 4000)
          (flatSpectrum 2 1 100 4 2000)).1 = 1
      ∧ (CScanEvaluation.FindOptimumShiftAndSqueeze_Fraunhofer_shift shiftFitEnv
          (fraunhoferWindowAt "abc.xs") (flatSpectrum 0 1 100 4 4000)
          (flatSpectrum 2 1 100 4 2000)).1 = 0
      ∧ (CScanEvaluation.EvaluateScan shiftFitEnv 10 sampleScanEvaluation
          (opened scanForCalibration) (fraunhoferWindowAt "ab.xs") none).map
          (fun o => o.finalEval.map (fun e => shiftSettings e.m_window))
        = some (some [(SHIFT_TYPE.SHIFT_FREE, SHIFT_TYPE.SHIFT_FIX, 1 / 2, 1)])
      ∧ (CScanEvaluation.EvaluateScan shiftFitEnv 10 sampleScanEvaluation
          (opened scanForCalibration) (fraunhoferWindowAt "abc.xs") none).map
          (fun o => o.finalEval.map (fun e => shiftSettings e.m_window))
        = some (some [(SHIFT_TYPE.SHIFT_FIX, SHIFT_TYPE.SHIFT_FIX, 3 / 10, 1)])
      ∧ (CScanEvaluation.EvaluateScan shiftFitEnv 10 sampleScanEvaluation
          (opened scanForCalibration) (fraunhoferWindowAt "a.xs") none).map
          (fun o => o.finalEval.map (fun e => shiftSettings e.m_window))
        = some (some [(SHIFT_TYPE.SHIFT_FIX, SHIFT_TYPE.SHIFT_FREE, 1 / 2, 0)]) := by
  refine ⟨by decide, by decide!, by decide!, by decide!, by decide!, by decide!⟩

/-! ## `Common`: dates -/

/-- C24 (the code at a failing input). 1 March 2023 minus 2 days: `DecreaseDate`
returns `SUCCESS` and leaves (2023, 3, 65535), the day having wrapped around as an
`unsigned short`; 65535 is not a day of March. (Minus 1 day the day becomes 0, the
loop runs and the date is 28 February 2023.) -/
theorem C24_DecreaseDate_day_wraps_around :
    Common.DecreaseDate gregorianDaysInMonth 10 (2023, 3, 1) 2
        = some (RETURN_CODE.SUCCESS, (2023, 3, 65535))
      ∧ gregorianDaysInMonth 2023 3 = 31
      ∧ Common.DecreaseDate gregorianDaysInMonth 10 (2023, 3, 1) 1
        = some (RETURN_CODE.SUCCESS, (2023, 2, 28)) := by
  decide

/-- C25 (the code at a failing input). On 10 March 2023, `IncreaseDate(date, -1)`
leaves 8 March where `DecreaseDate(date, 1)` leaves 9 March, and `DecreaseDate(date, -1)`
leaves 12 March where `IncreaseDate(date, 1)` leaves 11 March: after handing a negative
count to the other function, each function goes on and applies the count itself. -/
theorem C25_negative_count_is_applied_twice :
    Common.IncreaseDate gregorianDaysInMonth 10 (2023, 3, 10) (-1)
        = some (RETURN_CODE.SUCCESS, (2023, 3, 8))
      ∧ Common.DecreaseDate gregorianDaysInMonth 10 (2023, 3, 10) 1
        = some (RETURN_CODE.SUCCESS, (2023, 3, 9))
      ∧ Common.DecreaseDate gregorianDaysInMonth 10 (2023, 3, 10) (-1)
        = some (RETURN_CODE.SUCCESS, (2023, 3, 12))
      ∧ Common.IncreaseDate gregorianDaysInMonth 10 (2023, 3, 10) 1
        = some (RETURN_CODE.SUCCESS, (2023, 3, 11)) := by
  decide

/-! ## `Common`: guessing the species from a file name -/

/-- The name `GuessSpecieName` returns is empty or one of the first twelve names. -/
theorem GuessSpecieName_mem (ops : CStringOps) (fileName : String) :
    Common.GuessSpecieName ops fileName
      ∈ "" :: Common.GuessSpecieName_spc.take Common.GuessSpecieName_nSpecies := by
  unfold Common.GuessSpecieName
  dsimp only
  split
  · exact List.mem_cons_self _ _
  · split
    · rename_i s hs
      exact List.mem_cons_of_mem _ (List.mem_of_find?_eq_some hs)
    · exact List.mem_cons_self _ _

/-- C30 (the code at failing inputs). Whatever the `CString` members do and whatever
the file name is, `GuessSpecieName` never returns "HONO" or "NO3": the loop stops after
the first 12 of the 14 names. With the sample `CString` members, the files "HONO.xs",
"Glyoxal.xs" and "Formaldehyde.xs" give the empty name and "NO3.xs" gives "O3". -/
theorem C30_last_species_are_never_guessed :
    (∀ (ops : CStringOps) (fileName : String),
        Common.GuessSpecieName ops fileName ≠ "HONO"
          ∧ Common.GuessSpecieName ops fileName ≠ "NO3")
      ∧ Common.GuessSpecieName cstringOps "HONO.xs" = ""
      ∧ Common.GuessSpecieName cstringOps "NO3.xs" = "O3"
      ∧ Common.GuessSpecieName cstringOps "Glyoxal.xs" = ""
      ∧ Common.GuessSpecieName cstringOps "Formaldehyde.xs" = ""
      ∧ Common.GuessSpecieName cstringOps "SO2.xs" = "SO2" := by
  refine ⟨?_, by decide, by decide, by decide, by decide, by decide⟩
  intro ops fileName
  have hmem := GuessSpecieName_mem ops fileName
  have hlist : ∀ s ∈ "" :: Common.GuessSpecieName_spc.take Common.GuessSpecieName_nSpecies,
      s ≠ "HONO" ∧ s ≠ "NO3" := by decide
  exact hlist _ hmem

/-! ## `Common`: sorting a list of strings -/

theorem map_Format_fixed (ops : CStringOps) (l : List String)
    (h : ∀ s ∈ l, ops.Format s = s) : l.map ops.Format = l := by
  induction l with
  | nil => rfl
  | cons a rest ih =>
    rw [List.map_cons, h a (List.mem_cons_self _ _),
      ih (fun s hs => h s (List.mem_cons_of_mem _ hs))]

theorem MergeLists_perm (ops : CStringOps) (files ascending : Bool) :
    ∀ (n : Nat) (list1 list2 : List String), list1.length + list2.length = n →
      (∀ s ∈ list1, ops.Format s = s) → (∀ s ∈ list2, ops.Format s = s) →
      (Common.MergeLists ops files ascending list1 list2).Perm (list1 ++ list2) := by
  intro n
  induction n using Nat.strong_induction_on with
  | _ n ih =>
    intro list1 list2 hn hf1 hf2
    cases list1 with
    | nil =>
      rw [Common.MergeLists, map_Format_fixed ops list2 hf2]
      exact List.Perm.refl _
    | cons a rest1 =>
      cases list2 with
      | nil =>
        rw [Common.MergeLists, map_Format_fixed ops (a :: rest1) hf1, List.append_nil]
      | cons b rest2 =>
        have hr1 : ∀ s ∈ rest1, ops.Format s = s := fun s hs => hf1 s (List.mem_cons_of_mem _ hs)
        have hr2 : ∀ s ∈ rest2, ops.Format s = s := fun s hs => hf2 s (List.mem_cons_of_mem _ hs)
        have h1 : (Common.MergeLists ops files ascending rest1 (b :: rest2)).Perm
            (rest1 ++ b :: rest2) :=
          ih (rest1.length + (b :: rest2).length) (by simp at hn ⊢; omega) _ _ rfl hr1 hf2
        have h2 : (Common.MergeLists ops files ascending (a :: rest1) rest2).Perm
            ((a :: rest1) ++ rest2) :=
          ih ((a :: rest1).length + rest2.length) (by simp at hn ⊢; omega) _ _ rfl hf1 hr2
        have ha : (a :: Common.MergeLists ops files ascending rest1 (b :: rest2)).Perm
            ((a :: rest1) ++ b :: rest2) := List.Perm.cons a h1
        have hb : (b :: Common.MergeLists ops files ascending (a :: rest1) rest2).Perm
            ((a :: rest1) ++ b :: rest2) :=
          (List.Perm.cons b h2).trans List.perm_middle.symm
        rw [Common.MergeLists, hf1 a (List.mem_cons_self _ _), hf2 b (List.mem_cons_self _ _)]
        split_ifs <;> first | exact ha | exact hb

/-- What `MergeLists` does with two non-empty lists whose heads `Format` leaves
unchanged: one of the two heads comes first, and which one is decided by `comparison`. -/
theorem MergeLists_cons_cons (ops : CStringOps) (files ascending : Bool) (a b : String)
    (rest1 rest2 : List String) (hfa : ops.Format a = a) (hfb : ops.Format b = b) :
    (Common.MergeLists ops files ascending (a :: rest1) (b :: rest2)
        = a :: Common.MergeLists ops files ascending rest1 (b :: rest2)
      ∧ (if ascending then Common.MergeLists_comparison ops files a b ≤ 0
          else 0 ≤ Common.MergeLists_comparison ops files a b))
    ∨ (Common.MergeLists ops files ascending (a :: rest1) (b :: rest2)
        = b :: Common.MergeLists ops files ascending (a :: rest1) rest2
      ∧ (if ascending then 0 < Common.MergeLists_comparison ops files a b
          else Common.MergeLists_comparison ops files a b < 0)) := by
  rw [Common.MergeLists, hfa, hfb]
  cases ascending <;> split_ifs <;> simp <;> omega

theorem MergeLists_pairwise (ops : CStringOps) (files ascending : Bool)
    (R : String → String → Prop)
    (hR : ∀ a b, R a b ↔ (if ascending then Common.MergeLists_comparison ops files a b ≤ 0
      else 0 ≤ Common.MergeLists_comparison ops files a b))
    (hother : ∀ a b, (if ascending then 0 < Common.MergeLists_comparison ops files a b
      else Common.MergeLists_comparison ops files a b < 0) → R b a)
    (htransR : ∀ a b c, R a b → R b c → R a c) :
    ∀ (n : Nat) (list1 list2 : List String), list1.length + list2.length = n →
      (∀ s ∈ list1, ops.Format s = s) → (∀ s ∈ list2, ops.Format s = s) →
      list1.Pairwise R → list2.Pairwise R →
      (Common.MergeLists ops files ascending list1 list2).Pairwise R := by
  intro n
  induction n using Nat.strong_induction_on with
  | _ n ih =>
    intro list1 list2 hn hf1 hf2 hs1 hs2
    cases list1 with
    | nil =>
      rw [Common.MergeLists, map_Format_fixed ops list2 hf2]
      exact hs2
    | cons a rest1 =>
      cases list2 with
      | nil =>
        rw [Common.MergeLists, map_Format_fixed ops (a :: rest1) hf1]
        exact hs1
      | cons b rest2 =>
        have hr1 : ∀ s ∈ rest1, ops.Format s = s := fun s hs => hf1 s (List.mem_cons_of_mem _ hs)
        have hr2 : ∀ s ∈ rest2, ops.Format s = s := fun s hs => hf2 s (List.mem_cons_of_mem _ hs)
        have ha := List.pairwise_cons.mp hs1
        have hb := List.pairwise_cons.mp hs2
        rcases MergeLists_cons_cons ops files ascending a b rest1 rest2
          (hf1 a (List.mem_cons_self _ _)) (hf2 b (List.mem_cons_self _ _))
          with ⟨heq, hab⟩ | ⟨heq, hba⟩
        · rw [heq]
          have hRab : R a b := (hR a b).mpr hab
          refine List.pairwise_cons.mpr ⟨?_, ?_⟩
          · intro x hx
            have hx1 : x ∈ rest1 ++ b :: rest2 :=
              (MergeLists_perm ops files ascending _ rest1 (b :: rest2) rfl hr1 hf2).subset hx
            rcases List.mem_append.mp hx1 with h | h
            · exact ha.1 x h
            · rcases List.mem_cons.mp h with h | h
              · rw [h]; exact hRab
              · exact htransR a b x hRab (hb.1 x h)
          · exact ih (rest1.length + (b :: rest2).length) (by simp at hn ⊢; omega) _ _ rfl
              hr1 hf2 ha.2 hs2
        · rw [heq]
          have hRba : R b a := hother a b hba
          refine List.pairwise_cons.mpr ⟨?_, ?_⟩
          · intro x hx
            have hx1 : x ∈ (a :: rest1) ++ rest2 :=
              (MergeLists_perm ops files ascending _ (a :: rest1) rest2 rfl hf1 hr2).subset hx
            rcases List.mem_append.mp hx1 with h | h
            · rcases List.mem_cons.mp h with h | h
              · rw [h]; exact hRba
              · exact htransR b a x hRba (ha.1 x h)
            · exact hb.1 x h
          · exact ih ((a :: rest1).length + rest2.length) (by simp at hn ⊢; omega) _ _ rfl
              hf1 hr2 hs1 hb.2

theorem SortStrings_perm (ops : CStringOps) (files ascending : Bool) :
    ∀ (n : Nat) (strings : List String), strings.length = n →
      (∀ s ∈ strings, ops.Format s = s) →
      (Common.SortStrings ops strings files ascending).Perm strings := by
  intro n
  induction n using Nat.strong_induction_on with
  | _ n ih =>
    intro strings hn hfix
    rw [Common.SortStrings]
    split_ifs with h
    · exact List.Perm.refl _
    · have hl : (strings.take (strings.length / 2)).length < n := by
        rw [List.length_take]; omega
      have hr : (strings.drop (strings.length / 2)).length < n := by
        rw [List.length_drop]; omega
      have hfl : ∀ s ∈ strings.take (strings.length / 2), ops.Format s = s :=
        fun s hs => hfix s (List.mem_of_mem_take hs)
      have hfr : ∀ s ∈ strings.drop (strings.length / 2), ops.Format s = s :=
        fun s hs => hfix s (List.mem_of_mem_drop hs)
      have pl := ih _ hl _ rfl hfl
      have pr := ih _ hr _ rfl hfr
      refine (MergeLists_perm ops files ascending _ _ _ rfl
        (fun s hs => hfl s (pl.subset hs)) (fun s hs => hfr s (pr.subset hs))).trans ?_
      refine (List.Perm.append pl pr).trans ?_
      rw [List.take_append_drop]

theorem SortStrings_pairwise (ops : CStringOps) (files ascending : Bool)
    (R : String → String → Prop)
    (hR : ∀ a b, R a b ↔ (if ascending then Common.MergeLists_comparison ops files a b ≤ 0
      else 0 ≤ Common.MergeLists_comparison ops files a b))
    (hother : ∀ a b, (if ascending then 0 < Common.MergeLists_comparison ops files a b
      else Common.MergeLists_comparison ops files a b < 0) → R b a)
    (htransR : ∀ a b c, R a b → R b c → R a c) :
    ∀ (n : Nat) (strings : List String), strings.length = n →
      (∀ s ∈ strings, ops.Format s = s) →
      (Common.SortStrings ops strings files ascending).Pairwise R := by
  intro n
  induction n using Nat.strong_induction_on with
  | _ n ih =>
    intro strings hn hfix
    rw [Common.SortStrings]
    split_ifs with h
    · match strings, h with
      | [], _ => exact List.Pairwise.nil
      | [x], _ => exact List.pairwise_singleton R x
      | _ :: _ :: _, h => simp at h
    · have hl : (strings.take (strings.length / 2)).length < n := by
        rw [List.length_take]; omega
      have hr : (strings.drop (strings.length / 2)).length < n := by
        rw [List.length_drop]; omega
      have hfl : ∀ s ∈ strings.take (strings.length / 2), ops.Format s = s :=
        fun s hs => hfix s (List.mem_of_mem_take hs)
      have hfr : ∀ s ∈ strings.drop (strings.length / 2), ops.Format s = s :=
        fun s hs => hfix s (List.mem_of_mem_drop hs)
      exact MergeLists_pairwise ops files ascending R hR hother htransR _ _ _ rfl
        (fun s hs => hfl s ((SortStrings_perm ops files ascending _ _ rfl hfl).subset hs))
        (fun s hs => hfr s ((SortStrings_perm ops files ascending _ _ rfl hfr).subset hs))
        (ih _ hl _ rfl hfl) (ih _ hr _ rfl hfr)

/-- A three-way comparison that is transitive and changes sign when its arguments are
exchanged stays so when each string is first mapped through a fixed function. -/
theorem MergeLists_comparison_order (ops : CStringOps) (files : Bool)
    (hflip : ∀ a b, ops.Compare a b < 0 ↔ 0 < ops.Compare b a)
    (htrans : ∀ a b c, ops.Compare a b ≤ 0 → ops.Compare b c ≤ 0 → ops.Compare a c ≤ 0) :
    (∀ a b, Common.MergeLists_comparison ops files a b < 0
        ↔ 0 < Common.MergeLists_comparison ops files b a)
      ∧ (∀ a b c, Common.MergeLists_comparison ops files a b ≤ 0 →
          Common.MergeLists_comparison ops files b c ≤ 0 →
          Common.MergeLists_comparison ops files a c ≤ 0) := by
  cases files
  · exact ⟨fun a b => by simpa [Common.MergeLists_comparison] using hflip a b,
      fun a b c => by simpa [Common.MergeLists_comparison] using htrans a b c⟩
  · exact ⟨fun a b => by simpa [Common.MergeLists_comparison] using hflip _ _,
      fun a b c => by simpa [Common.MergeLists_comparison] using htrans _ _ _⟩

/-- On a list whose strings `Format` leaves unchanged (strings it reads as format
strings without a conversion), `Sort` (a total function: its recursion is on ever
shorter lists) leaves a permutation of the input that is sorted with respect to
`comparison`: non-decreasing when `ascending` is set, non-increasing otherwise.
`Compare` is any three-way comparison that is transitive and whose sign changes when
its arguments are exchanged. -/
theorem SortStrings_sorted_permutation (ops : CStringOps)
    (hflip : ∀ a b, ops.Compare a b < 0 ↔ 0 < ops.Compare b a)
    (htrans : ∀ a b c, ops.Compare a b ≤ 0 → ops.Compare b c ≤ 0 → ops.Compare a c ≤ 0)
    (strings : List String) (hfix : ∀ s ∈ strings, ops.Format s = s)
    (files ascending : Bool) :
    (Common.SortStrings ops strings files ascending).Perm strings
      ∧ (ascending = true →
        (Common.SortStrings ops strings files ascending).Pairwise
          (fun a b => Common.MergeLists_comparison ops files a b ≤ 0))
      ∧ (ascending = false →
        (Common.SortStrings ops strings files ascending).Pairwise
          (fun a b => 0 ≤ Common.MergeLists_comparison ops files a b)) := by
  obtain ⟨hf, ht⟩ := MergeLists_comparison_order ops files hflip htrans
  have hge : ∀ a b, 0 ≤ Common.MergeLists_comparison ops files a b
      ↔ Common.MergeLists_comparison ops files b a ≤ 0 := by
    intro a b
    have := hf a b
    constructor <;> intro h <;> by_contra hc <;> omega
  refine ⟨SortStrings_perm ops files ascending _ strings rfl hfix, ?_, ?_⟩
  · intro hasc
    subst hasc
    refine SortStrings_pairwise ops files true _ (fun a b => by simp) ?_ ht _ strings rfl hfix
    intro a b h
    have := hf b a
    simp only [if_true] at h
    omega
  · intro hasc
    subst hasc
    refine SortStrings_pairwise ops files false _ (fun a b => by simp) ?_ ?_ _ strings rfl hfix
    · intro a b h
      have := hf a b
      simp only [Bool.false_eq_true, if_false] at h
      omega
    · intro a b c hab hbc
      exact (hge a c).mpr (ht c b a ((hge b c).mp hbc) ((hge a b).mp hab))

/-- The sample comparison is a three-way comparison of a linear order. -/
theorem cstringOps_Compare_sign (a b : String) :
    (cstringOps.Compare a b < 0 ↔ a < b) ∧ (0 < cstringOps.Compare a b ↔ b < a)
      ∧ (cstringOps.Compare a b ≤ 0 ↔ a ≤ b) := by
  simp only [cstringOps]
  rcases lt_trichotomy a b with h | h | h
  · have h1 : ¬ b < a := lt_asymm h
    simp [h, h1, le_of_lt h]
  · subst h
    simp
  · have h1 : ¬ a < b := lt_asymm h
    have h2 : a ≠ b := fun e => by subst e; exact lt_irrefl _ h
    have h3 : ¬ a ≤ b := not_le.mpr h
    simp [h, h1, h2, h3]

/-- The sorted-permutation result at a concrete input: the sample `CString` members and
the list "b", "a", "c", none of which holds a "%". -/
theorem SortStrings_sorted_permutation_at_sample :
    (Common.SortStrings cstringOps ["b", "a", "c"] false true).Perm ["b", "a", "c"]
      ∧ (true = true →
        (Common.SortStrings cstringOps ["b", "a", "c"] false true).Pairwise
          (fun a b => Common.MergeLists_comparison cstringOps false a b ≤ 0))
      ∧ (true = false →
        (Common.SortStrings cstringOps ["b", "a", "c"] false true).Pairwise
          (fun a b => 0 ≤ Common.MergeLists_comparison cstringOps false a b)) :=
  SortStrings_sorted_permutation cstringOps
    (fun a b => (cstringOps_Compare_sign a b).1.trans (cstringOps_Compare_sign b a).2.1.symm)
    (fun a b c hab hbc => (cstringOps_Compare_sign a c).2.2.mpr
      (le_trans ((cstringOps_Compare_sign a b).2.2.mp hab)
        ((cstringOps_Compare_sign b c).2.2.mp hbc)))
    ["b", "a", "c"] (by decide) false true

/-- C23 (the code at a failing input). The list "a%%b", "c", sorted ascending on the
whole strings with the sample `CString` members: `MergeLists` passes every entry to
`Format` as the format string, so the result is "a%b", "c". The entry "a%%b" is not in
the result, which therefore is not a permutation of the input. -/
theorem C23_Sort_formats_the_entries :
    Common.SortStrings cstringOps ["a%%b", "c"] false true = ["a%b", "c"]
      ∧ "a%%b" ∉ Common.SortStrings cstringOps ["a%%b", "c"] false true
      ∧ ¬ (Common.SortStrings cstringOps ["a%%b", "c"] false true).Perm ["a%%b", "c"] := by
  have hsort : Common.SortStrings cstringOps ["a%%b", "c"] false true = ["a%b", "c"] := by
    rw [Common.SortStrings]
    have hl : Common.SortStrings cstringOps ["a%%b"] false true = ["a%%b"] := by
      rw [Common.SortStrings]; rfl
    have hr : Common.SortStrings cstringOps ["c"] false true = ["c"] := by
      rw [Common.SortStrings]; rfl
    simp only [List.length_cons, List.length_nil, Nat.reduceAdd, Nat.reduceLeDiff, if_false,
      Nat.reduceDiv, List.take_succ_cons, List.take_zero, List.drop_succ_cons, List.drop_zero,
      hl, hr]
    rw [Common.MergeLists]
    have hc : Common.MergeLists_comparison cstringOps false (cstringOps.Format "a%%b")
        (cstringOps.Format "c") = -1 := by decide!
    have hfa : cstringOps.Format "a%%b" = "a%b" := by decide
    have hfc : cstringOps.Format "c" = "c" := by decide
    rw [if_neg (by rw [hc]; decide), if_pos (by rw [hc]; decide), if_pos rfl, hfa,
      Common.MergeLists, List.map_cons, List.map_nil, hfc]
  have hmem : "a%%b" ∉ Common.SortStrings cstringOps ["a%%b", "c"] false true := by
    rw [hsort]; decide
  exact ⟨hsort, hmem, fun hp => hmem (hp.symm.subset (List.mem_cons_self _ _))⟩

end NovacPPP
